import Mathlib

/-!
# RMI4 bus core driver (`drivers/rmi4/rmi4_driver.c`)

A shallow embedding of the page-description-table (PDT) scan, of the population
of the function registry, of the register access, the interrupt subscriptions and
dispatch, the registration and the reset, followed by the properties proved of
them. The last definitions embed the write rule and `strval_len` of the AB8500
debugfs (`drivers/mfd/ab8500-debugfs.c`).

Conventions of the embedding:

* kernel lists (`struct list_head`) are Lean lists, `list_add_tail` appends;
* `u8`/`u16` values are natural numbers, reduced `% 256` / `% 65536` where the
  C code converts to the narrower type;
* the device is seen through `cdev->read`, a function from the register address
  to the return value and the bytes of a 6-byte read;
* `kzalloc`/`kstrndup` are seen through an oracle `alloc : Nat → Bool` telling
  whether the `k`-th allocation request of the call succeeds;
* constants of headers that are not part of the driver file
  (`PDT_START_SCAN_LOCATION`, `BITS_PER_LONG`) are parameters.
-/

set_option autoImplicit false

namespace Rmi4

/-! ## Constants -/

/-- `#define PDT_END_SCAN_LOCATION 0x0005`. -/
def PDT_END_SCAN_LOCATION : Nat := 0x0005

/-- `#define RMI4_MAX_PAGE 0xFF`. -/
def RMI4_MAX_PAGE : Nat := 0xFF

/-- `#define RMI4_PAGE_SIZE 0x100`. -/
def RMI4_PAGE_SIZE : Nat := 0x100

/-- `#define F01_FUNCTION_ID 0x01`. -/
def F01_FUNCTION_ID : Nat := 0x01

/-- `sizeof(struct rmi4_pdt_entry)`: four address bytes, one byte of bit-fields
and the function number. -/
def PDT_ENTRY_SIZE : Nat := 6

/-- Linux errno `EINVAL`. -/
def EINVAL : Int := 22

/-- Linux errno `ENOENT`. -/
def ENOENT : Int := 2

/-- Linux errno `ENOMEM`. -/
def ENOMEM : Int := 12

/-- Linux errno `ENODEV`. -/
def ENODEV : Int := 19

/-- `#define RMI4_END_OF_PDT(id) ((id) == 0x00 || (id) == 0xff)`. -/
def RMI4_END_OF_PDT (id : Nat) : Bool := id == 0x00 || id == 0xff

/-! ## Data model -/

/-- `struct rmi4_pdt_entry`. -/
structure rmi4_pdt_entry where
  query_base_addr : Nat
  command_base_addr : Nat
  control_base_addr : Nat
  data_base_addr : Nat
  interrupt_source_count : Nat
  bits3and4 : Nat
  function_version : Nat
  bit7 : Nat
  function_number : Nat
  deriving DecidableEq, Repr

/-- `struct rmi4_pdt_container`: a directory entry and the page (`bank`) it was
read from. -/
structure rmi4_pdt_container where
  bank : Nat
  pdt : rmi4_pdt_entry
  deriving DecidableEq, Repr

/-- `struct rmi4_irq_client`: the callback and its opaque context, both pointers,
kept as numbers. -/
structure rmi4_irq_client where
  func : Nat
  func_data : Nat
  deriving DecidableEq, Repr

/-- `struct rmi4_function_data` as far as the core driver touches it. -/
structure rmi4_function_data where
  func_id : Nat
  func_name : String
  deriving DecidableEq, Repr

/-- `struct rmi4_function_data_container`. -/
structure rmi4_function_data_container where
  is_local : Bool
  data : rmi4_function_data
  deriving DecidableEq, Repr

/-- `struct rmi4_function_container` (the mutexes are left out). -/
structure rmi4_function_container where
  function_id : Nat
  function_data : List rmi4_function_data_container
  is_registered : Bool
  irq_client_list : List rmi4_irq_client
  irq_mask : Nat
  force_irq_disabled : Int
  deriving DecidableEq, Repr

/-- `struct rmi4_core_drv_data`: the catalog, the function registry and the two
interrupt counters. The counters are C `int`s; they start at 0 and only grow by
at most 7 per catalog entry, so they are kept as unbounded integers. -/
structure rmi4_core_drv_data where
  pdt_list : List rmi4_pdt_container
  function_list : List rmi4_function_container
  num_supported_irqs : Int
  irq_read_len : Int
  deriving DecidableEq, Repr

/-- What `cdev->read(cdev, addr, buf, 6)` gives: its return value and the six
bytes it left in the buffer. -/
structure read_result where
  retval : Int
  b0 : Nat
  b1 : Nat
  b2 : Nat
  b3 : Nat
  b4 : Nat
  b5 : Nat
  deriving DecidableEq, Repr

/-- The six bytes of a read seen as a `struct rmi4_pdt_entry` (`(u8 *)&pdt`):
byte 4 holds the bit-fields, allocated from the least significant bit as on the
little-endian ARM target. -/
def pdt_of_bytes (r : read_result) : rmi4_pdt_entry :=
  { query_base_addr := r.b0 % 256
    command_base_addr := r.b1 % 256
    control_base_addr := r.b2 % 256
    data_base_addr := r.b3 % 256
    interrupt_source_count := r.b4 % 8
    bits3and4 := r.b4 / 8 % 4
    function_version := r.b4 / 32 % 4
    bit7 := r.b4 / 128 % 2
    function_number := r.b5 % 256 }

/-! ## Catalog (PDT list) -/

/-- `rmi4_core_driver_get_pdt_container`: the first catalog entry with the
requested function number, `none` for `NULL`. -/
def rmi4_core_driver_get_pdt_container (pdt_list : List rmi4_pdt_container)
    (function_id : Nat) : Option rmi4_pdt_container :=
  pdt_list.find? (fun entry => entry.pdt.function_number == function_id)

/-- `rmi4_core_driver_clear_pdt_list`: every entry is unlinked and freed. -/
def rmi4_core_driver_clear_pdt_list (data : rmi4_core_drv_data) : rmi4_core_drv_data :=
  { data with pdt_list := [] }

/-- `rmi4_core_driver_add_pdt_entry`: `none` stands for `-ENOMEM` (the container
could not be allocated); otherwise the entry is copied, tagged with the `u8`
bank and appended to the catalog. -/
def rmi4_core_driver_add_pdt_entry (alloc_ok : Bool) (data : rmi4_core_drv_data)
    (pdt : rmi4_pdt_entry) (bank : Nat) : Option rmi4_core_drv_data :=
  if alloc_ok then
    some { data with pdt_list := data.pdt_list ++ [{ bank := bank % 256, pdt := pdt }] }
  else none

/-! ## The PDT scan -/

/-- State threaded through `rmi4_read_pdt`: the driver data, the number of
allocation requests made so far and the addresses passed to `cdev->read` so far
(oldest first). -/
structure scan_state where
  data : rmi4_core_drv_data
  allocs : Nat
  reads : List Nat
  deriving DecidableEq, Repr

/-- The values `i` takes in
`for (i = pdt_start; i >= pdt_end; i -= sizeof(pdt))`: `pdt_start`,
`pdt_start - 6`, ... as long as they are not below `pdt_end`. -/
def pdt_scan_addrs (pdt_start pdt_end : Nat) : List Nat :=
  if pdt_end ≤ pdt_start then
    (List.range ((pdt_start - pdt_end) / PDT_ENTRY_SIZE + 1)).map
      (fun k => pdt_start - PDT_ENTRY_SIZE * k)
  else []

/-- The inner loop of `rmi4_read_pdt` over the addresses of one page. The second
component is `none` when the loop is left normally (`break` or end of the
window) and `some retval` for `goto error`. On an allocation failure `retval`
still holds the result of the read, the entry size. -/
def pdt_page_loop (read : Nat → read_result) (alloc : Nat → Bool) (page : Nat) :
    List Nat → scan_state → scan_state × Option Int
  | [], s => (s, none)
  | i :: rest, s =>
    let r := read i
    let s1 : scan_state := { s with reads := s.reads ++ [i] }
    if r.retval ≠ (PDT_ENTRY_SIZE : Int) then (s1, some (-EINVAL))
    else
      let pdt := pdt_of_bytes r
      if RMI4_END_OF_PDT pdt.function_number then (s1, none)
      else if (rmi4_core_driver_get_pdt_container s1.data.pdt_list
          pdt.function_number).isSome then
        pdt_page_loop read alloc page rest s1
      else
        match rmi4_core_driver_add_pdt_entry (alloc s1.allocs) s1.data pdt page with
        | none => ({ s1 with allocs := s1.allocs + 1 }, some r.retval)
        | some d =>
          let n : Int := d.num_supported_irqs + (pdt.interrupt_source_count : Int)
          pdt_page_loop read alloc page rest
            { s1 with
              allocs := s1.allocs + 1
              data := { d with num_supported_irqs := n, irq_read_len := Int.tdiv n 9 + 1 } }

/-- The outer loop of `rmi4_read_pdt` over the pages; `start` is
`PDT_START_SCAN_LOCATION`. The three addresses are `u16`. -/
def pdt_pages_loop (start : Nat) (read : Nat → read_result) (alloc : Nat → Bool) :
    List Nat → scan_state → scan_state × Option Int
  | [], s => (s, none)
  | page :: rest, s =>
    let page_start := (RMI4_PAGE_SIZE * page) % 65536
    let pdt_start := (page_start + start) % 65536
    let pdt_end := (page_start + PDT_END_SCAN_LOCATION) % 65536
    match pdt_page_loop read alloc page (pdt_scan_addrs pdt_start pdt_end) s with
    | (s1, some retval) => (s1, some retval)
    | (s1, none) => pdt_pages_loop start read alloc rest s1

/-- Outcome of `rmi4_read_pdt`: the return value, the driver data it leaves and
the record of the reads and allocation requests it made. -/
structure scan_result where
  retval : Int
  data : rmi4_core_drv_data
  allocs : Nat
  reads : List Nat
  deriving DecidableEq, Repr

/-- `rmi4_read_pdt`. `cdev_read` is `cdev->read` (`none` for a null pointer). -/
def rmi4_read_pdt (start : Nat) (alloc : Nat → Bool)
    (cdev_read : Option (Nat → read_result)) (data : rmi4_core_drv_data) : scan_result :=
  match cdev_read with
  | none => { retval := -EINVAL, data := data, allocs := 0, reads := [] }
  | some read =>
    let s0 : scan_state :=
      { data := rmi4_core_driver_clear_pdt_list data, allocs := 0, reads := [] }
    match pdt_pages_loop start read alloc (List.range (RMI4_MAX_PAGE + 1)) s0 with
    | (s, some retval) =>
      { retval := retval, data := rmi4_core_driver_clear_pdt_list s.data,
        allocs := s.allocs, reads := s.reads }
    | (s, none) =>
      if s.data.pdt_list.isEmpty then
        { retval := -ENOENT, data := rmi4_core_driver_clear_pdt_list s.data,
          allocs := s.allocs, reads := s.reads }
      else
        { retval := 0, data := s.data, allocs := s.allocs, reads := s.reads }

/-! ## The directory as the device presents it -/

/-- The records of page `page`, in the order the scan reads them. -/
def page_records (start : Nat) (read : Nat → read_result) (page : Nat) :
    List rmi4_pdt_entry :=
  (pdt_scan_addrs ((RMI4_PAGE_SIZE * page % 65536 + start) % 65536)
    ((RMI4_PAGE_SIZE * page % 65536 + PDT_END_SCAN_LOCATION) % 65536)).map
    (fun i => pdt_of_bytes (read i))

/-- The entries of a page: its records that precede the first terminator. -/
def page_functions (start : Nat) (read : Nat → read_result) (page : Nat) :
    List rmi4_pdt_entry :=
  (page_records start read page).takeWhile
    (fun e => !RMI4_END_OF_PDT e.function_number)

/-- The entries of the given pages, page after page and in read order within a
page, each with the index of its page as bank. -/
def directory_of (start : Nat) (read : Nat → read_result) (pages : List Nat) :
    List rmi4_pdt_container :=
  pages.flatMap (fun page =>
    (page_functions start read page).map (fun e => { bank := page, pdt := e }))

/-- The entries of the whole device, pages 0 to `RMI4_MAX_PAGE`. -/
def directory (start : Nat) (read : Nat → read_result) : List rmi4_pdt_container :=
  directory_of start read (List.range (RMI4_MAX_PAGE + 1))

/-- Building a catalog from candidate entries the way the scan does: a candidate
whose function number is already present is skipped, any other is appended. -/
def catalog_keep_first (acc cs : List rmi4_pdt_container) : List rmi4_pdt_container :=
  cs.foldl (fun l c =>
    if (rmi4_core_driver_get_pdt_container l c.pdt.function_number).isSome then l
    else l ++ [c]) acc

/-- The reads of a scan went well up to a possible last, failing one: either
every address read returned the entry size, or the scan was left with `-EINVAL`
right after the first read that did not. -/
def scan_trace_ok (read : Nat → read_result) (reads : List Nat) (exit : Option Int) : Prop :=
  (∀ b ∈ reads, (read b).retval = 6) ∨
  (exit = some (-EINVAL) ∧ ∃ pre a, reads = pre ++ [a] ∧
    (∀ b ∈ pre, (read b).retval = 6) ∧ (read a).retval ≠ 6)

/-- Sum of the interrupt source counts of a catalog. -/
def irq_total (l : List rmi4_pdt_container) : Int :=
  (l.map (fun c => (c.pdt.interrupt_source_count : Int))).sum

/-- The number of bytes that hold one bit for each of `total` interrupt sources,
`⌈total / 8⌉`. -/
def irq_bytes_needed (total : Int) : Int := (total + 7) / 8

/-- Driver data as `kzalloc` leaves them in `rmi4_core_driver_probe`, before the
first scan. -/
def drv_data_init : rmi4_core_drv_data :=
  { pdt_list := [], function_list := [], num_supported_irqs := 0, irq_read_len := 0 }

/-- A read that succeeds and returns the given six bytes. -/
def rec_ok (b0 b1 b2 b3 b4 b5 : Nat) : read_result :=
  { retval := 6, b0 := b0, b1 := b1, b2 := b2, b3 := b3, b4 := b4, b5 := b5 }

/-- The allocator that never fails. -/
def alloc_always : Nat → Bool := fun _ => true

/-- Example device, for `PDT_START_SCAN_LOCATION = 0xE9`: page 0 holds function
0x01 (2 interrupt sources) at 0xE9 and function 0x34 (1 source) at 0xE3; every
other record is a terminator. -/
def dev_two (i : Nat) : read_result :=
  if i = 0xE9 then rec_ok 0x10 0x20 0x30 0x40 2 0x01
  else if i = 0xE3 then rec_ok 0x11 0x21 0x31 0x41 1 0x34
  else rec_ok 0 0 0 0 0 0

/-- Example device without the base function: page 0 holds function 0x11 only. -/
def dev_no_f01 (i : Nat) : read_result :=
  if i = 0xE9 then rec_ok 0x10 0x20 0x30 0x40 1 0x11
  else rec_ok 0 0 0 0 0 0

/-- Example device whose second page cannot be read: page 0 holds function 0x01,
the first read of page 1 returns `-5`. -/
def dev_short_read (i : Nat) : read_result :=
  if i = 0xE9 then rec_ok 0x10 0x20 0x30 0x40 2 0x01
  else if i = 0x1E9 then { retval := -5, b0 := 0, b1 := 0, b2 := 0, b3 := 0, b4 := 0, b5 := 0 }
  else rec_ok 0 0 0 0 0 0

/-- Example device with 17 interrupt sources: functions 0x01 (7 sources),
0x11 (7 sources) and 0x34 (3 sources) on page 0. -/
def dev_seventeen (i : Nat) : read_result :=
  if i = 0xE9 then rec_ok 0x10 0x20 0x30 0x40 7 0x01
  else if i = 0xE3 then rec_ok 0x11 0x21 0x31 0x41 7 0x11
  else if i = 0xDD then rec_ok 0x12 0x22 0x32 0x42 3 0x34
  else rec_ok 0 0 0 0 0 0

/-! ## The function registry -/

/-- `rmi4_core_driver_get_function_container`: the first function object of the
registry with the requested id, `none` for `NULL`. -/
def rmi4_core_driver_get_function_container (function_list : List rmi4_function_container)
    (func_id : Nat) : Option rmi4_function_container :=
  function_list.find? (fun f => f.function_id == func_id)

/-- One upper-case hexadecimal digit. -/
def hex_digit (n : Nat) : String :=
  match n with
  | 0 => "0" | 1 => "1" | 2 => "2" | 3 => "3" | 4 => "4" | 5 => "5" | 6 => "6" | 7 => "7"
  | 8 => "8" | 9 => "9" | 10 => "A" | 11 => "B" | 12 => "C" | 13 => "D" | 14 => "E"
  | _ => "F"

/-- The name `snprintf(buf, sizeof(buf), "f%02X", function_number)` produces for
a `u8` function number. -/
def function_name (function_number : Nat) : String :=
  "f" ++ hex_digit (function_number / 16 % 16) ++ hex_digit (function_number % 16)

/-- `rmi4_core_driver_add_plat_data`: a container is appended to the function's
data list for every platform data record with the function's id. `k` counts
the allocation requests of the call. `rmi4_new_fdata_container` answers a failed
allocation with `ERR_PTR(-ENOMEM)`, which the test `!fdc` lets through, so the
next statement writes through the error pointer: that outcome is `none`. -/
def rmi4_core_driver_add_plat_data (alloc : Nat → Bool) :
    List rmi4_function_data → rmi4_function_container → Nat →
      Option (rmi4_function_container × Nat)
  | [], c, k => some (c, k)
  | fd :: rest, c, k =>
    if fd.func_id == c.function_id then
      if alloc k then
        rmi4_core_driver_add_plat_data alloc rest
          { c with function_data := c.function_data ++ [{ is_local := false, data := fd }] }
          (k + 1)
      else none
    else rmi4_core_driver_add_plat_data alloc rest c k

/-- `rmi4_core_driver_clear_functiondata`: every function object is unlinked and
freed, so the registry is left empty; the second component lists the ids for
which `WARN(!list_empty(&fc->irq_client_list), "All interrupts have not been
free'd. Leaking memory. ...")` fires. -/
def rmi4_core_driver_clear_functiondata (function_list : List rmi4_function_container) :
    List rmi4_function_container × List Nat :=
  ([], (function_list.filter (fun fc => !fc.irq_client_list.isEmpty)).map
    (fun fc => fc.function_id))

/-- Setting bit `j` of the 32-bit word of an `atomic_t`, whose counter is a two's
complement `int`. -/
def atomic_set_bit (v : Int) (j : Nat) : Int :=
  let u : Nat := (v % 2 ^ 32).toNat ||| 2 ^ j
  if u < 2 ^ 31 then (u : Int) else (u : Int) - 2 ^ 32

/-- The loop
`for (i = 0; i < count; i++, irq++) set_bit(irq, &fc->irq_mask);`
with `count` iterations left, on the two last members of
`struct rmi4_function_container`, `unsigned long irq_mask` and
`atomic_t force_irq_disabled`. `set_bit(nr, addr)` changes bit
`nr % BITS_PER_LONG` of the word `addr[nr / BITS_PER_LONG]`: word 0 is
`irq_mask`; word 1 holds `force_irq_disabled` in its low 32 bits (the target is
little-endian; with a 64-bit `long` its upper half is the padding at the end of
the structure); a later word lies outside the object, which is `none`. The
`WARN` in the loop only logs. -/
def irq_mask_loop (bits_per_long : Nat) : Nat → Nat → Nat → Int → Option (Nat × Int)
  | 0, _, mask, force => some (mask, force)
  | count + 1, irq, mask, force =>
    if irq < bits_per_long then
      irq_mask_loop bits_per_long count (irq + 1) (mask ||| 2 ^ irq) force
    else if irq < bits_per_long + 32 then
      irq_mask_loop bits_per_long count (irq + 1) mask
        (atomic_set_bit force (irq - bits_per_long))
    else if irq < 2 * bits_per_long then
      irq_mask_loop bits_per_long count (irq + 1) mask force
    else none

/-- Writing through the pointer `rmi4_core_driver_get_function_container`
returned: the first function object with the id gets the mask and the
force-disable count the loop of `set_bit` left. -/
def set_irq_mask :
    List rmi4_function_container → Nat → Nat → Int → List rmi4_function_container
  | [], _, _, _ => []
  | f :: rest, func_id, mask, force =>
    if f.function_id == func_id then
      { f with irq_mask := mask, force_irq_disabled := force } :: rest
    else f :: set_irq_mask rest func_id mask force

/-- How `rmi4_core_driver_populate_functiondata` ends: it returns 0 and leaves
the given registry; or it returns `-ENOMEM` after
`rmi4_core_driver_clear_functiondata`, leaving the given registry with the given
warnings emitted; or it makes an invalid memory access (a write through an error
pointer or outside the function object), after which nothing is known. -/
inductive populate_result where
  | ok (function_list : List rmi4_function_container)
  | enomem (function_list : List rmi4_function_container) (warned : List Nat)
  | invalid_access
  deriving DecidableEq, Repr

/-- The value the call returns, when it returns. -/
def populate_result.retval : populate_result → Option Int
  | .ok _ => some 0
  | .enomem _ _ => some (-ENOMEM)
  | .invalid_access => none

/-- The label `fail:` of `rmi4_core_driver_populate_functiondata`. -/
def populate_fail (function_list : List rmi4_function_container) : populate_result :=
  .enomem (rmi4_core_driver_clear_functiondata function_list).1
    (rmi4_core_driver_clear_functiondata function_list).2

/-- The loop of `rmi4_core_driver_populate_functiondata` over the catalog. `irq`
is the running bit counter, `k` the number of allocation requests made so far.
The four requests for a new function are, in order: the function container, the
data container, the function data and the name. -/
def populate_loop (bits_per_long : Nat) (plat : List rmi4_function_data)
    (alloc : Nat → Bool) :
    List rmi4_pdt_container → List rmi4_function_container → Nat → Nat → populate_result
  | [], function_list, _, _ => .ok function_list
  | pdt :: rest, function_list, irq, k =>
    match rmi4_core_driver_get_function_container function_list pdt.pdt.function_number with
    | some fc =>
      match irq_mask_loop bits_per_long pdt.pdt.interrupt_source_count irq 0
          fc.force_irq_disabled with
      | none => .invalid_access
      | some (mask, force) =>
        populate_loop bits_per_long plat alloc rest
          (set_irq_mask function_list pdt.pdt.function_number mask force)
          (irq + pdt.pdt.interrupt_source_count) k
    | none =>
      if !alloc k then populate_fail function_list
      else if !alloc (k + 1) then .invalid_access
      else if !alloc (k + 2) then populate_fail function_list
      else if !alloc (k + 3) then populate_fail function_list
      else
        let fc : rmi4_function_container :=
          { function_id := pdt.pdt.function_number
            function_data :=
              [{ is_local := true
                 data := { func_id := pdt.pdt.function_number
                           func_name := function_name pdt.pdt.function_number } }]
            is_registered := false
            irq_client_list := []
            irq_mask := 0
            force_irq_disabled := 0 }
        match rmi4_core_driver_add_plat_data alloc plat fc (k + 4) with
        | none => .invalid_access
        | some (fc1, k1) =>
          match irq_mask_loop bits_per_long pdt.pdt.interrupt_source_count irq 0
              fc1.force_irq_disabled with
          | none => .invalid_access
          | some (mask, force) =>
            populate_loop bits_per_long plat alloc rest
              (function_list ++ [{ fc1 with irq_mask := mask, force_irq_disabled := force }])
              (irq + pdt.pdt.interrupt_source_count) k1

/-- `rmi4_core_driver_populate_functiondata`; `bits_per_long` is `BITS_PER_LONG`
and `plat` the function data of the platform data. -/
def rmi4_core_driver_populate_functiondata (bits_per_long : Nat)
    (plat : List rmi4_function_data) (alloc : Nat → Bool) (data : rmi4_core_drv_data) :
    populate_result :=
  populate_loop bits_per_long plat alloc data.pdt_list data.function_list 0 0

/-- The bit at which the masks of entry `i` of a catalog start: the interrupt
sources of the entries before it. -/
def irq_offset (l : List rmi4_pdt_container) (i : Nat) : Nat :=
  ((l.take i).map (fun c => c.pdt.interrupt_source_count)).sum

/-- A function object with its interrupt mask and its force-disable count
blanked: what is left is what populate cannot change in an object that exists
already. -/
def erase_mask (f : rmi4_function_container) : rmi4_function_container :=
  { f with irq_mask := 0, force_irq_disabled := 0 }

/-- A function object with its interrupt mask blanked. -/
def erase_irq_mask (f : rmi4_function_container) : rmi4_function_container :=
  { f with irq_mask := 0 }

/-- The effect of one turn of the populate loop on the registry, for an entry
with function number `fn` whose mask came out as `mask`: either the function was
found and the first object with that id got the mask (and the count the loop
left), or it was not found and a new object with that id and mask, without
subscribers, was appended. -/
def populate_step (fl : List rmi4_function_container) (fn mask : Nat)
    (fl1 : List rmi4_function_container) : Prop :=
  ((rmi4_core_driver_get_function_container fl fn).isSome = true ∧
      ∃ force : Int, fl1 = set_irq_mask fl fn mask force) ∨
    (rmi4_core_driver_get_function_container fl fn = none ∧
      ∃ fc : rmi4_function_container, fc.function_id = fn ∧ fc.irq_mask = mask ∧
        fc.irq_client_list = [] ∧ fl1 = fl ++ [fc])

/-- A directory entry with the given function number and interrupt source
count. -/
def pdt_entry_of (function_number count : Nat) : rmi4_pdt_container :=
  { bank := 0
    pdt := { query_base_addr := 0x10, command_base_addr := 0x20, control_base_addr := 0x30
             data_base_addr := 0x40, interrupt_source_count := count, bits3and4 := 0
             function_version := 0, bit7 := 0, function_number := function_number } }

/-- Example catalog: function 0x01 with 2 interrupt sources, function 0x34 with 1. -/
def catalog_two : List rmi4_pdt_container := [pdt_entry_of 0x01 2, pdt_entry_of 0x34 1]

/-- Example driver data before the first populate: the example catalog and an
empty registry. -/
def drv_data_two : rmi4_core_drv_data :=
  { pdt_list := catalog_two, function_list := [], num_supported_irqs := 3, irq_read_len := 1 }

/-- The registry the first populate builds from the example catalog. -/
def registry_two : List rmi4_function_container :=
  [{ function_id := 0x01
     function_data := [{ is_local := true, data := { func_id := 0x01, func_name := "f01" } }]
     is_registered := false, irq_client_list := [], irq_mask := 0b011
     force_irq_disabled := 0 },
   { function_id := 0x34
     function_data := [{ is_local := true, data := { func_id := 0x34, func_name := "f34" } }]
     is_registered := false, irq_client_list := [], irq_mask := 0b100
     force_irq_disabled := 0 }]

/-- Example registry of a driver in use: function 0x34 alone, registered, with
one interrupt subscriber, force-disabled once, and a stale mask. -/
def registry_in_use : List rmi4_function_container :=
  [{ function_id := 0x34
     function_data := [{ is_local := true, data := { func_id := 0x34, func_name := "f34" } }]
     is_registered := true, irq_client_list := [{ func := 0xC0DE, func_data := 0xDA7A }]
     irq_mask := 0b001, force_irq_disabled := 1 }]

/-- Example driver data at a reset: the example catalog has just been re-read,
the registry is the one in use. -/
def drv_data_in_use : rmi4_core_drv_data :=
  { pdt_list := catalog_two, function_list := registry_in_use, num_supported_irqs := 3
    irq_read_len := 1 }

/-- The registry populate leaves from `drv_data_in_use`: function 0x34 kept with
its subscriber and count and the mask `0b100`, function 0x01 appended. -/
def registry_in_use_after : List rmi4_function_container :=
  [{ function_id := 0x34
     function_data := [{ is_local := true, data := { func_id := 0x34, func_name := "f34" } }]
     is_registered := true, irq_client_list := [{ func := 0xC0DE, func_data := 0xDA7A }]
     irq_mask := 0b100, force_irq_disabled := 1 },
   { function_id := 0x01
     function_data := [{ is_local := true, data := { func_id := 0x01, func_name := "f01" } }]
     is_registered := false, irq_client_list := [], irq_mask := 0b011
     force_irq_disabled := 0 }]

/-- The allocator whose request number `n` fails and whose other requests
succeed. -/
def alloc_fail_at (n : Nat) : Nat → Bool := fun k => k != n

/-! ## Register access and interrupts -/

/-- `#define F01_IRQ_ADDR_OFFSET 0x01`. -/
def F01_IRQ_ADDR_OFFSET : Nat := 0x01

/-- `#define F01_IRQ_CONTROL_OFFSET 0x01`. -/
def F01_IRQ_CONTROL_OFFSET : Nat := 0x01

/-- Linux errno `EIO`. -/
def EIO : Int := 5

/-- Modelled from the spec: `enum rmi4_data_command` of `linux/rmi4/rmi4.h`, which
is not among the sources. The four regions are the case labels of the driver;
`other` stands for any further value the C enum can hold. -/
inductive rmi4_data_command where
  | QUERY
  | COMMAND
  | CONTROL
  | DATA
  | other (value : Int)
  deriving DecidableEq, Repr

/-- One call of the register accessor: `cdev->read(cdev, addr, buf, len)` or
`cdev->write(cdev, addr, data, len)` with the bytes handed over. -/
inductive accessor_call where
  | read (addr : Nat) (len : Int)
  | write (addr : Nat) (data : List Nat) (len : Int)
  deriving DecidableEq, Repr

/-- The register accessor of a core device whose state is a `σ`: `read` gives
the return value, the bytes left in the buffer and the next state, `write` the
return value and the next state. -/
structure register_device (σ : Type) where
  read : σ → Nat → Int → Int × List Nat × σ
  write : σ → Nat → List Nat → Int → Int × σ

/-- The device state together with the record of the accessor calls made so far
(oldest first). -/
structure hw_state (σ : Type) where
  st : σ
  calls : List accessor_call

/-- The `switch (cmd)` of `rmi4_core_driver_read_data` and
`rmi4_core_driver_write_data`, the same in both: the `u16` address
`base + addr_offset + bank` of the region, `none` for the `default:` label. -/
def data_command_addr (fentry : rmi4_pdt_container) (cmd : rmi4_data_command)
    (addr_offset : Int) : Option Nat :=
  match cmd with
  | .QUERY =>
    some (((fentry.pdt.query_base_addr : Int) + addr_offset + fentry.bank) % 65536).toNat
  | .COMMAND =>
    some (((fentry.pdt.command_base_addr : Int) + addr_offset + fentry.bank) % 65536).toNat
  | .CONTROL =>
    some (((fentry.pdt.control_base_addr : Int) + addr_offset + fentry.bank) % 65536).toNat
  | .DATA =>
    some (((fentry.pdt.data_base_addr : Int) + addr_offset + fentry.bank) % 65536).toNat
  | .other _ => none

/-- `rmi4_core_driver_read_data`: the return value, the bytes read and the
hardware afterwards. `cdev_read` is `cdev->read`, `none` for a null pointer. -/
def rmi4_core_driver_read_data {σ : Type}
    (cdev_read : Option (σ → Nat → Int → Int × List Nat × σ))
    (pdt_list : List rmi4_pdt_container) (func_id : Nat) (cmd : rmi4_data_command)
    (addr_offset data_len : Int) (hw : hw_state σ) : Int × List Nat × hw_state σ :=
  match rmi4_core_driver_get_pdt_container pdt_list func_id with
  | none => (-ENODEV, [], hw)
  | some fentry =>
    match data_command_addr fentry cmd addr_offset with
    | none => (-EINVAL, [], hw)
    | some addr =>
      match cdev_read with
      | some read =>
        ((read hw.st addr data_len).1, (read hw.st addr data_len).2.1,
          { st := (read hw.st addr data_len).2.2
            calls := hw.calls ++ [.read addr data_len] })
      | none => (-ENODEV, [], hw)

/-- `rmi4_core_driver_write_data`: the return value and the hardware afterwards.
`cdev_write` is `cdev->write`, `none` for a null pointer. -/
def rmi4_core_driver_write_data {σ : Type}
    (cdev_write : Option (σ → Nat → List Nat → Int → Int × σ))
    (pdt_list : List rmi4_pdt_container) (func_id : Nat) (cmd : rmi4_data_command)
    (addr_offset : Int) (data : List Nat) (data_len : Int) (hw : hw_state σ) :
    Int × hw_state σ :=
  match rmi4_core_driver_get_pdt_container pdt_list func_id with
  | none => (-ENODEV, hw)
  | some fentry =>
    match data_command_addr fentry cmd addr_offset with
    | none => (-EINVAL, hw)
    | some addr =>
      match cdev_write with
      | some write =>
        ((write hw.st addr data data_len).1,
          { st := (write hw.st addr data data_len).2
            calls := hw.calls ++ [.write addr data data_len] })
      | none => (-ENODEV, hw)

/-- `rmi4_core_driver_set_irq_state`: read-modify-write of the interrupt enable
register of function 0x01 with the low byte of the function's mask. The function
calls `cdev->read` and `cdev->write` without a null test, so the device comes
with both. The `u8 data` is the first byte the read left. -/
def rmi4_core_driver_set_irq_state {σ : Type} (dev : register_device σ)
    (pdt_list : List rmi4_pdt_container) (fc : rmi4_function_container) (enable : Bool)
    (hw : hw_state σ) : Int × hw_state σ :=
  match rmi4_core_driver_get_pdt_container pdt_list F01_FUNCTION_ID with
  | none => (-ENODEV, hw)
  | some pdt_entry =>
    let addr := pdt_entry.pdt.control_base_addr + pdt_entry.bank + F01_IRQ_CONTROL_OFFSET
    let r := dev.read hw.st addr 1
    let hw1 : hw_state σ := { st := r.2.2, calls := hw.calls ++ [.read addr 1] }
    if r.1 < 0 then (r.1, hw1)
    else
      let data := r.2.1.headD 0 % 256
      let data1 :=
        if enable then data ||| (fc.irq_mask % 256)
        else data &&& (255 - fc.irq_mask % 256)
      let w := dev.write hw1.st addr [data1] 1
      let hw2 : hw_state σ := { st := w.2, calls := hw1.calls ++ [.write addr [data1] 1] }
      (if w.1 < 0 then w.1 else 0, hw2)

/-- Writing through the pointer `rmi4_core_driver_get_function_container`
returned: the first function object with the id is replaced by its image. -/
def update_function_container (g : rmi4_function_container → rmi4_function_container) :
    List rmi4_function_container → Nat → List rmi4_function_container
  | [], _ => []
  | f :: rest, func_id =>
    if f.function_id == func_id then g f :: rest
    else f :: update_function_container g rest func_id

/-- What an operation on the registry leaves: its return value, the registry and
the hardware. -/
structure driver_result (σ : Type) where
  retval : Int
  function_list : List rmi4_function_container
  hw : hw_state σ

/-- `rmi4_core_driver_request_irq`; `alloc_ok` tells whether the `kzalloc` of the
subscriber succeeds, `data` is the subscriber's context and `fn` its callback. -/
def rmi4_core_driver_request_irq {σ : Type} (dev : register_device σ) (alloc_ok : Bool)
    (pdt_list : List rmi4_pdt_container) (function_list : List rmi4_function_container)
    (func_id data fn : Nat) (hw : hw_state σ) : driver_result σ :=
  match rmi4_core_driver_get_function_container function_list func_id with
  | none => { retval := -ENODEV, function_list := function_list, hw := hw }
  | some fc =>
    if !alloc_ok then { retval := -ENOMEM, function_list := function_list, hw := hw }
    else
      let added := update_function_container
        (fun f => { f with irq_client_list := f.irq_client_list ++ [{ func := fn, func_data := data }] })
        function_list func_id
      if fc.irq_client_list.isEmpty then
        let r := rmi4_core_driver_set_irq_state dev pdt_list fc true hw
        if r.1 ≠ 0 then { retval := r.1, function_list := function_list, hw := r.2 }
        else { retval := 0, function_list := added, hw := r.2 }
      else { retval := 0, function_list := added, hw := hw }

/-- The loop of `rmi4_core_driver_free_irq` over the subscribers: every one whose
context is `data` is unlinked and freed. -/
def free_irq_loop (data : Nat) : List rmi4_irq_client → List rmi4_irq_client
  | [] => []
  | c :: rest => if c.func_data == data then free_irq_loop data rest
    else c :: free_irq_loop data rest

/-- `rmi4_core_driver_free_irq`. -/
def rmi4_core_driver_free_irq {σ : Type} (dev : register_device σ)
    (pdt_list : List rmi4_pdt_container) (function_list : List rmi4_function_container)
    (func_id data : Nat) (hw : hw_state σ) : driver_result σ :=
  match rmi4_core_driver_get_function_container function_list func_id with
  | none => { retval := -ENODEV, function_list := function_list, hw := hw }
  | some fc =>
    if fc.irq_client_list.isEmpty then
      { retval := -EINVAL, function_list := function_list, hw := hw }
    else
      let fc1 : rmi4_function_container :=
        { fc with irq_client_list := free_irq_loop data fc.irq_client_list }
      let removed := update_function_container
        (fun f => { f with irq_client_list := free_irq_loop data f.irq_client_list })
        function_list func_id
      if fc1.irq_client_list.isEmpty then
        let r := rmi4_core_driver_set_irq_state dev pdt_list fc1 false hw
        { retval := r.1, function_list := removed, hw := r.2 }
      else { retval := 0, function_list := removed, hw := hw }

/-- The test for the essential functions in
`rmi4_core_driver_set_non_essential_irq_status`. -/
def is_essential (function_id : Nat) : Bool :=
  function_id == 0x01 || function_id == 0x34 || function_id == 0x54

/-- The loop of `rmi4_core_driver_set_non_essential_irq_status` over the
registry; `err` is the local variable of that name. -/
def non_essential_loop {σ : Type} (dev : register_device σ)
    (pdt_list : List rmi4_pdt_container) (disable : Bool) :
    List rmi4_function_container → Int → hw_state σ →
      List rmi4_function_container × Int × hw_state σ
  | [], err, hw => ([], err, hw)
  | fc :: rest, err, hw =>
    let count := fc.force_irq_disabled
    if is_essential fc.function_id then
      let r := non_essential_loop dev pdt_list disable rest err hw
      (fc :: r.1, r.2)
    else if disable then
      let s :=
        if count = 0 ∧ ¬ fc.irq_client_list.isEmpty then
          rmi4_core_driver_set_irq_state dev pdt_list fc (!disable) hw
        else (err, hw)
      let r := non_essential_loop dev pdt_list disable rest s.1 s.2
      ({ fc with force_irq_disabled := fc.force_irq_disabled + 1 } :: r.1, r.2)
    else if count = 0 then
      let r := non_essential_loop dev pdt_list disable rest err hw
      (fc :: r.1, r.2)
    else
      let s :=
        if count = 1 ∧ ¬ fc.irq_client_list.isEmpty then
          rmi4_core_driver_set_irq_state dev pdt_list fc (!disable) hw
        else (err, hw)
      let r := non_essential_loop dev pdt_list disable rest s.1 s.2
      ({ fc with force_irq_disabled := fc.force_irq_disabled - 1 } :: r.1, r.2)

/-- `rmi4_core_driver_set_non_essential_irq_status`. -/
def rmi4_core_driver_set_non_essential_irq_status {σ : Type} (dev : register_device σ)
    (pdt_list : List rmi4_pdt_container) (function_list : List rmi4_function_container)
    (disable : Bool) (hw : hw_state σ) : driver_result σ :=
  { retval := (non_essential_loop dev pdt_list disable function_list 0 hw).2.1
    function_list := (non_essential_loop dev pdt_list disable function_list 0 hw).1
    hw := (non_essential_loop dev pdt_list disable function_list 0 hw).2.2 }

/-- One callback made by the interrupt handler: `client->func(fn_irq, data)`. -/
structure irq_callback where
  func : Nat
  fn_irq : Nat
  data : Nat
  deriving DecidableEq, Repr

/-- The loop of `rmi4_core_drv_process_irq` over the subscribers of a function:
a subscriber whose callback pointer is null (0) is passed over. -/
def process_irq_loop (function_id : Nat) : List rmi4_irq_client → List irq_callback
  | [] => []
  | client :: rest =>
    if client.func ≠ 0 then
      { func := client.func, fn_irq := function_id, data := client.func_data }
        :: process_irq_loop function_id rest
    else process_irq_loop function_id rest

/-- `rmi4_core_drv_process_irq`: the callbacks it makes. -/
def rmi4_core_drv_process_irq (fc : rmi4_function_container) : List irq_callback :=
  if fc.irq_client_list.isEmpty then [] else process_irq_loop fc.function_id fc.irq_client_list

/-- The loop of `rmi4_core_drv_irq_handler` over the registry. -/
def irq_handler_loop (irq_bits : Nat) : List rmi4_function_container → List irq_callback
  | [] => []
  | fc :: rest =>
    if (fc.irq_mask % 256) &&& irq_bits = fc.irq_mask % 256 ∧ fc.force_irq_disabled = 0 then
      rmi4_core_drv_process_irq fc ++ irq_handler_loop irq_bits rest
    else irq_handler_loop irq_bits rest

/-- `rmi4_core_drv_irq_handler`: the callbacks it makes, in order, and the
hardware afterwards. -/
def rmi4_core_drv_irq_handler {σ : Type} (dev : register_device σ)
    (pdt_list : List rmi4_pdt_container) (function_list : List rmi4_function_container)
    (hw : hw_state σ) : List irq_callback × hw_state σ :=
  match rmi4_core_driver_get_pdt_container pdt_list F01_FUNCTION_ID with
  | none => ([], hw)
  | some pdt =>
    let addr := pdt.pdt.data_base_addr + F01_IRQ_ADDR_OFFSET + pdt.bank
    let r := dev.read hw.st addr 1
    let hw1 : hw_state σ := { st := r.2.2, calls := hw.calls ++ [.read addr 1] }
    if r.1 ≠ 1 then ([], hw1)
    else (irq_handler_loop (r.2.1.headD 0 % 256) function_list, hw1)

/-- A register device that stores what is written and returns it on reads, byte
by byte, and reports the full length as result. -/
def memory_device : register_device (Nat → Nat) where
  read := fun mem addr len =>
    (len, (List.range len.toNat).map (fun i => mem (addr + i) % 256), mem)
  write := fun mem addr data len =>
    (len, fun a => if addr ≤ a ∧ a < addr + len.toNat then data.getD (a - addr) 0 % 256
      else mem a)

/-- A register device on which every access fails with `-EIO`. -/
def dead_device : register_device Unit where
  read := fun _ _ _ => (- EIO, [], ())
  write := fun _ _ _ _ => (- EIO, ())

/-- Memory with the byte at one address replaced. -/
def mem_set (mem : Nat → Nat) (addr value : Nat) : Nat → Nat :=
  fun a => if a = addr then value else mem a

/-- The address of the interrupt enable register, from the catalog entry of
function 0x01: `control_base_addr + bank + F01_IRQ_CONTROL_OFFSET`. -/
def irq_enable_addr (e : rmi4_pdt_container) : Nat :=
  e.pdt.control_base_addr + e.bank + F01_IRQ_CONTROL_OFFSET

/-- The byte of the interrupt enable register after the bits of `mask` have been
switched on or off in the byte `data`. -/
def irq_enable_byte (enable : Bool) (data mask : Nat) : Nat :=
  if enable then data % 256 ||| mask % 256 else data % 256 &&& (255 - mask % 256)

/-- The base address of a region in a directory entry, `none` for a selector
that names no region. -/
def region_base (cmd : rmi4_data_command) (pdt : rmi4_pdt_entry) : Option Nat :=
  match cmd with
  | .QUERY => some pdt.query_base_addr
  | .COMMAND => some pdt.command_base_addr
  | .CONTROL => some pdt.control_base_addr
  | .DATA => some pdt.data_base_addr
  | .other _ => none

/-- What `rmi4_core_driver_set_non_essential_irq_status` is to do to the
force-disable count of a function object: nothing for an essential function,
one more on disable, one less on enable if the count is positive. -/
def force_count_update (disable : Bool) (fc : rmi4_function_container) :
    rmi4_function_container :=
  if is_essential fc.function_id then fc
  else if disable then { fc with force_irq_disabled := fc.force_irq_disabled + 1 }
  else if 0 < fc.force_irq_disabled then
    { fc with force_irq_disabled := fc.force_irq_disabled - 1 }
  else fc

/-- Whether `rmi4_core_driver_set_non_essential_irq_status` switches the
hardware enable state of a function object: it is not essential, has a
subscriber, and its count is 0 on disable, 1 on enable. -/
def switches_irq (disable : Bool) (fc : rmi4_function_container) : Prop :=
  is_essential fc.function_id = false ∧ fc.irq_client_list ≠ [] ∧
    fc.force_irq_disabled = if disable then 0 else 1

/-- The callbacks the interrupt handler is to make for the status byte `s`: for
every function object, in registry order, whose mask (low byte) lies within `s`
and that is not force-disabled, one callback per subscriber that has a callback,
in list order, with the function number and the subscriber's context. -/
def expected_callbacks (s : Nat) (function_list : List rmi4_function_container) :
    List irq_callback :=
  function_list.flatMap (fun fc =>
    if (fc.irq_mask % 256) &&& s = fc.irq_mask % 256 ∧ fc.force_irq_disabled = 0 then
      (fc.irq_client_list.filter (fun c => c.func != 0)).map
        (fun c => { func := c.func, fn_irq := fc.function_id, data := c.func_data })
    else [])

/-- Example hardware: the memory device with every byte zero and no access made
yet. -/
def hw_zero : hw_state (Nat → Nat) := { st := fun _ => 0, calls := [] }

/-- Example device with a function on the second page, for
`PDT_START_SCAN_LOCATION = 0xE9`: page 0 holds function 0x01 at 0xE9, page 1 holds
function 0x54 (query base 0x10) at 0x1E9; every other record is a terminator. -/
def dev_page_one (i : Nat) : read_result :=
  if i = 0xE9 then rec_ok 0x10 0x20 0x30 0x40 1 0x01
  else if i = 0x1E9 then rec_ok 0x10 0x20 0x30 0x40 1 0x54
  else rec_ok 0 0 0 0 0 0

/-- The operations of the interrupt interface a function driver can call. -/
inductive irq_op where
  | request_irq (func_id data fn : Nat)
  | free_irq (func_id data : Nat)
  | set_non_essential (disable : Bool)
  deriving DecidableEq, Repr

/-- One operation applied to the registry and hardware an earlier operation left
(its return value is not looked at); the allocation of `request_irq` succeeds. -/
def apply_irq_op {σ : Type} (dev : register_device σ) (pdt_list : List rmi4_pdt_container)
    (op : irq_op) (s : driver_result σ) : driver_result σ :=
  match op with
  | .request_irq func_id data fn =>
    rmi4_core_driver_request_irq dev true pdt_list s.function_list func_id data fn s.hw
  | .free_irq func_id data =>
    rmi4_core_driver_free_irq dev pdt_list s.function_list func_id data s.hw
  | .set_non_essential disable =>
    rmi4_core_driver_set_non_essential_irq_status dev pdt_list s.function_list disable s.hw

/-- A registry and hardware as the starting point of a sequence of operations. -/
def driver_start {σ : Type} (function_list : List rmi4_function_container)
    (hw : hw_state σ) : driver_result σ :=
  { retval := 0, function_list := function_list, hw := hw }

/-- A sequence of operations applied one after the other. -/
def run_irq_ops {σ : Type} (dev : register_device σ) (pdt_list : List rmi4_pdt_container) :
    List irq_op → driver_result σ → driver_result σ
  | [], s => s
  | op :: rest, s => run_irq_ops dev pdt_list rest (apply_irq_op dev pdt_list op s)

/-- Example catalog with a non-essential function: function 0x01 and function
0x11, one interrupt source each. -/
def catalog_touch : List rmi4_pdt_container := [pdt_entry_of 0x01 1, pdt_entry_of 0x11 1]

/-- Example driver data before the first populate of that catalog. -/
def drv_data_touch : rmi4_core_drv_data :=
  { pdt_list := catalog_touch, function_list := [], num_supported_irqs := 2, irq_read_len := 1 }

/-- The function object of function 0x01 in the registry the first populate
builds from `catalog_touch`. -/
def fc_touch_f01 : rmi4_function_container :=
  { function_id := 0x01
    function_data := [{ is_local := true, data := { func_id := 0x01, func_name := "f01" } }]
    is_registered := false, irq_client_list := [], irq_mask := 0b01
    force_irq_disabled := 0 }

/-- The function object of function 0x11 in that registry. -/
def fc_touch_f11 : rmi4_function_container :=
  { function_id := 0x11
    function_data := [{ is_local := true, data := { func_id := 0x11, func_name := "f11" } }]
    is_registered := false, irq_client_list := [], irq_mask := 0b10
    force_irq_disabled := 0 }

/-- The registry the first populate builds from `catalog_touch`: no subscribers,
no force-disable, masks 0b01 and 0b10. -/
def registry_touch : List rmi4_function_container := [fc_touch_f01, fc_touch_f11]

/-- Function 0x11 of the example registry with one subscriber. -/
def fc_touch_f11_in_use : rmi4_function_container :=
  { fc_touch_f11 with irq_client_list := [{ func := 0xC0DE, func_data := 0xDA7A }] }

/-- Example hardware for `dead_device`: no access made yet. -/
def hw_dead : hw_state Unit := { st := (), calls := [] }

/-- The example registry with function 0x11 in use. -/
def registry_touch_in_use : List rmi4_function_container :=
  [fc_touch_f01, fc_touch_f11_in_use]

/-- The example registry of `catalog_two` in use: one subscriber for function
0x01 and one for function 0x34. -/
def registry_two_in_use : List rmi4_function_container :=
  [{ function_id := 0x01
     function_data := [{ is_local := true, data := { func_id := 0x01, func_name := "f01" } }]
     is_registered := true, irq_client_list := [{ func := 0xC0DE, func_data := 0xDA7A }]
     irq_mask := 0b011, force_irq_disabled := 0 },
   { function_id := 0x34
     function_data := [{ is_local := true, data := { func_id := 0x34, func_name := "f34" } }]
     is_registered := true, irq_client_list := [{ func := 0xBEEF, func_data := 0xF00D }]
     irq_mask := 0b100, force_irq_disabled := 0 }]

/-- The example registry of `catalog_two` after `request_irq` with a null
callback for function 0x01. -/
def registry_null_callback : List rmi4_function_container :=
  [{ function_id := 0x01
     function_data := [{ is_local := true, data := { func_id := 0x01, func_name := "f01" } }]
     is_registered := false, irq_client_list := [{ func := 0, func_data := 0xDA7A }]
     irq_mask := 0b011, force_irq_disabled := 0 },
   { function_id := 0x34
     function_data := [{ is_local := true, data := { func_id := 0x34, func_name := "f34" } }]
     is_registered := false, irq_client_list := [], irq_mask := 0b100
     force_irq_disabled := 0 }]

/-- Example hardware: the memory device whose interrupt status register (0x41
for the example catalogs) holds `s`, every other byte zero. -/
def hw_status (s : Nat) : hw_state (Nat → Nat) :=
  { st := fun a => if a = 0x41 then s else 0, calls := [] }

/-- Example catalog with 35 interrupt sources: the functions 0x01, 0x11, 0x12,
0x13 and 0x34 with 7 sources each. -/
def catalog_thirty_five : List rmi4_pdt_container :=
  [pdt_entry_of 0x01 7, pdt_entry_of 0x11 7, pdt_entry_of 0x12 7, pdt_entry_of 0x13 7,
   pdt_entry_of 0x34 7]

/-- Example driver data before the first populate of that catalog. -/
def drv_data_thirty_five : rmi4_core_drv_data :=
  { pdt_list := catalog_thirty_five, function_list := [], num_supported_irqs := 35
    irq_read_len := 4 }

/-- Example driver data at a reset that found that catalog, with the functions
0x01 and 0x34 in use. -/
def drv_data_thirty_five_in_use : rmi4_core_drv_data :=
  { pdt_list := catalog_thirty_five, function_list := registry_two_in_use
    num_supported_irqs := 35, irq_read_len := 4 }

/-- Example device with function 0x01 on two pages: page 0 holds the functions
0x01 and 0x34, page 1 the functions 0x01 and 0x54; every other record is a
terminator. -/
def dev_repeat (i : Nat) : read_result :=
  if i = 0xE9 then rec_ok 0x10 0x20 0x30 0x40 2 0x01
  else if i = 0xE3 then rec_ok 0x11 0x21 0x31 0x41 1 0x34
  else if i = 0x1E9 then rec_ok 0x12 0x22 0x32 0x42 1 0x01
  else if i = 0x1E3 then rec_ok 0x13 0x23 0x33 0x43 1 0x54
  else rec_ok 0 0 0 0 0 0

/-- The catalog the first scan of `dev_seventeen` leaves: the functions 0x01 (7
interrupt sources), 0x11 (7) and 0x34 (3). -/
def catalog_seventeen : List rmi4_pdt_container :=
  (rmi4_read_pdt 0xE9 alloc_always (some dev_seventeen) drv_data_init).data.pdt_list

/-- The registry the first populate builds from that catalog: masks 0x7F, 0x3F80
and 0x1C000. -/
def registry_seventeen : List rmi4_function_container :=
  [{ function_id := 0x01
     function_data := [{ is_local := true, data := { func_id := 0x01, func_name := "f01" } }]
     is_registered := false, irq_client_list := [], irq_mask := 0x7F
     force_irq_disabled := 0 },
   { function_id := 0x11
     function_data := [{ is_local := true, data := { func_id := 0x11, func_name := "f11" } }]
     is_registered := false, irq_client_list := [], irq_mask := 0x3F80
     force_irq_disabled := 0 },
   { function_id := 0x34
     function_data := [{ is_local := true, data := { func_id := 0x34, func_name := "f34" } }]
     is_registered := false, irq_client_list := [], irq_mask := 0x1C000
     force_irq_disabled := 0 }]

/-- That registry with one subscriber for function 0x34. -/
def registry_seventeen_in_use : List rmi4_function_container :=
  update_function_container
    (fun f => { f with irq_client_list := [{ func := 0xC0DE, func_data := 0xDA7A }] })
    registry_seventeen 0x34

/-- Example driver data of a driver in use on `dev_seventeen`: the catalog of its
first scan and the registry with the subscriber for function 0x34. -/
def drv_data_seventeen_in_use : rmi4_core_drv_data :=
  { (rmi4_read_pdt 0xE9 alloc_always (some dev_seventeen) drv_data_init).data with
    function_list := registry_seventeen_in_use }

/-! ## Registration and reset -/

/-- A call to the function bus, which is outside the driver file:
`rmi4_bus_register_function_core(&cdev->dev, data)` or
`rmi4_bus_unregister_function_core(&cdev->dev, data)`. -/
inductive bus_call where
  | register_function (data : rmi4_function_data)
  | unregister_function (data : rmi4_function_data)
  deriving DecidableEq, Repr

/-- The loop of `rmi4_core_driver_register_function_list` over the function data
of a function object. `reg k data` is what the `k`-th call of
`rmi4_bus_register_function_core` made so far returns for `data`; the
unregistration returns nothing and leaves `err` at 0. The result is the return
value and the bus calls made, in order. -/
def register_function_list_loop (reg : Nat → rmi4_function_data → Int)
    (register_function : Bool) :
    List rmi4_function_data_container → Nat → Int × List bus_call
  | [], _ => (0, [])
  | fdc :: rest, k =>
    if register_function then
      let err := reg k fdc.data
      if err ≠ 0 then (err, [.register_function fdc.data])
      else
        let r := register_function_list_loop reg register_function rest (k + 1)
        (r.1, .register_function fdc.data :: r.2)
    else
      let r := register_function_list_loop reg register_function rest k
      (r.1, .unregister_function fdc.data :: r.2)

/-- `rmi4_core_driver_register_function_list`. -/
def rmi4_core_driver_register_function_list (reg : Nat → rmi4_function_data → Int)
    (c : rmi4_function_container) (register_function : Bool) (k : Nat) :
    Int × List bus_call :=
  register_function_list_loop reg register_function c.function_data k

/-- The loop of `rmi4_core_driver_register_functions` over the registry: the
registry it leaves, the last value of `err`, and for every function object handed
to `rmi4_core_driver_register_function_list` its id and the bus calls made for
it. `k` counts the registration calls made so far. -/
def register_functions_loop (reg : Nat → rmi4_function_data → Int) :
    List rmi4_function_container → Int → Nat →
      List rmi4_function_container × Int × List (Nat × List bus_call)
  | [], err, _ => ([], err, [])
  | fc :: rest, err, k =>
    if fc.is_registered = true then
      let r := register_functions_loop reg rest err k
      (fc :: r.1, r.2)
    else
      let a := rmi4_core_driver_register_function_list reg fc true k
      let r := register_functions_loop reg rest a.1 (k + a.2.length)
      ({ fc with is_registered := true } :: r.1, r.2.1, (fc.function_id, a.2) :: r.2.2)

/-- What `rmi4_core_driver_register_functions` leaves: its return value, the
registry, and the registration attempts function object by function object. -/
structure register_result where
  retval : Int
  function_list : List rmi4_function_container
  attempts : List (Nat × List bus_call)
  deriving DecidableEq, Repr

/-- `rmi4_core_driver_register_functions`. -/
def rmi4_core_driver_register_functions (reg : Nat → rmi4_function_data → Int)
    (function_list : List rmi4_function_container) : register_result :=
  if function_list.isEmpty then
    { retval := -ENODEV, function_list := function_list, attempts := [] }
  else
    { retval := (register_functions_loop reg function_list 0 0).2.1
      function_list := (register_functions_loop reg function_list 0 0).1
      attempts := (register_functions_loop reg function_list 0 0).2.2 }

/-- The loop of `rmi4_core_disable_all_irqs` over the registry: every function is
switched off; the result of `rmi4_core_driver_set_irq_state` is not looked at. -/
def disable_all_irqs_loop {σ : Type} (dev : register_device σ)
    (pdt_list : List rmi4_pdt_container) :
    List rmi4_function_container → hw_state σ → hw_state σ
  | [], hw => hw
  | fc :: rest, hw =>
    disable_all_irqs_loop dev pdt_list rest
      (rmi4_core_driver_set_irq_state dev pdt_list fc false hw).2

/-- `rmi4_core_disable_all_irqs`: after the loop the interrupt status register of
function 0x01 is read once and the result of that read is dropped. -/
def rmi4_core_disable_all_irqs {σ : Type} (dev : register_device σ)
    (pdt_list : List rmi4_pdt_container) (function_list : List rmi4_function_container)
    (hw : hw_state σ) : Int × hw_state σ :=
  let hw1 := disable_all_irqs_loop dev pdt_list function_list hw
  match rmi4_core_driver_get_pdt_container pdt_list F01_FUNCTION_ID with
  | none => (-ENODEV, hw1)
  | some pdt =>
    let addr := pdt.pdt.data_base_addr + F01_IRQ_ADDR_OFFSET + pdt.bank
    let r := dev.read hw1.st addr 1
    (0, { st := r.2.2, calls := hw1.calls ++ [.read addr 1] })

/-- The loop "Re-enabling all subscribed IRQ's" of `rmi4_core_driver_reset`. -/
def reset_enable_loop {σ : Type} (dev : register_device σ)
    (pdt_list : List rmi4_pdt_container) :
    List rmi4_function_container → hw_state σ → hw_state σ
  | [], hw => hw
  | fc :: rest, hw =>
    if ¬ fc.irq_client_list.isEmpty then
      reset_enable_loop dev pdt_list rest
        (rmi4_core_driver_set_irq_state dev pdt_list fc true hw).2
    else reset_enable_loop dev pdt_list rest hw

/-- What `rmi4_core_driver_reset` leaves: the driver data, the hardware and the
registration attempts it made. -/
structure reset_result (σ : Type) where
  data : rmi4_core_drv_data
  hw : hw_state σ
  attempts : List (Nat × List bus_call)

/-- `rmi4_core_driver_reset`. The directory reads of the re-scan are seen as in
`rmi4_read_pdt` (`cdev_read`, with the allocator `alloc_scan`), the accesses to
the interrupt registers go through `dev`; `alloc` is the allocator of the
populate and `reg` the outcome of the registrations. The result is `none` when
the populate makes an invalid memory access. -/
def rmi4_core_driver_reset {σ : Type} (start bits_per_long : Nat)
    (plat : List rmi4_function_data) (alloc_scan alloc : Nat → Bool)
    (reg : Nat → rmi4_function_data → Int) (cdev_read : Option (Nat → read_result))
    (dev : register_device σ) (data : rmi4_core_drv_data) (hw : hw_state σ) :
    Option (reset_result σ) :=
  let s := rmi4_read_pdt start alloc_scan cdev_read data
  if s.retval ≠ 0 then some { data := s.data, hw := hw, attempts := [] }
  else
    match rmi4_core_driver_populate_functiondata bits_per_long plat alloc s.data with
    | .invalid_access => none
    | .enomem function_list _ =>
      some { data := { s.data with function_list := function_list }, hw := hw, attempts := [] }
    | .ok function_list =>
      let hw1 := (rmi4_core_disable_all_irqs dev s.data.pdt_list function_list hw).2
      let hw2 := reset_enable_loop dev s.data.pdt_list function_list hw1
      let r := rmi4_core_driver_register_functions reg function_list
      some { data := { s.data with function_list := r.function_list }, hw := hw2
             attempts := r.attempts }

/-- The registration that always succeeds. -/
def reg_always : Nat → rmi4_function_data → Int := fun _ _ => 0

/-- A registration that fails (`-EINVAL`) at the first call and succeeds
afterwards. -/
def reg_fail_first : Nat → rmi4_function_data → Int :=
  fun k _ => if k = 0 then -EINVAL else 0

/-- Example device presenting the functions of `dev_two` in the other order:
function 0x34 (1 interrupt source) at 0xE9 and function 0x01 (2 sources) at
0xE3. -/
def dev_swapped (i : Nat) : read_result :=
  if i = 0xE9 then rec_ok 0x11 0x21 0x31 0x41 1 0x34
  else if i = 0xE3 then rec_ok 0x10 0x20 0x30 0x40 2 0x01
  else rec_ok 0 0 0 0 0 0

/-- Example device on which function 0x11 has taken the place of function 0x34
of `dev_two`. -/
def dev_replaced (i : Nat) : read_result :=
  if i = 0xE9 then rec_ok 0x10 0x20 0x30 0x40 2 0x01
  else if i = 0xE3 then rec_ok 0x11 0x21 0x31 0x41 1 0x11
  else rec_ok 0 0 0 0 0 0

/-- Example device that presents no function at all. -/
def dev_empty (_ : Nat) : read_result := rec_ok 0 0 0 0 0 0

/-- Example driver data of a driver in use: the catalog scanned from `dev_two`,
both functions registered, each with one subscriber. -/
def drv_data_two_subscribed : rmi4_core_drv_data :=
  { (rmi4_read_pdt 0xE9 alloc_always (some dev_two) drv_data_init).data with
    function_list := registry_two_in_use }

/-- A register device like `memory_device` whose first `n` accesses fail with
`-EIO`; `n` is the first component of its state. -/
def flaky_device : register_device (Nat × (Nat → Nat)) where
  read := fun st addr len =>
    if 0 < st.1 then (- EIO, [], (st.1 - 1, st.2))
    else (len, (List.range len.toNat).map (fun i => st.2 (addr + i) % 256), st)
  write := fun st addr data len =>
    if 0 < st.1 then (- EIO, (st.1 - 1, st.2))
    else (len, (st.1, fun a => if addr ≤ a ∧ a < addr + len.toNat then data.getD (a - addr) 0 % 256
      else st.2 a))

/-- Example catalog with two non-essential functions: 0x01, 0x11 and 0x12, one
interrupt source each. -/
def catalog_three : List rmi4_pdt_container :=
  [pdt_entry_of 0x01 1, pdt_entry_of 0x11 1, pdt_entry_of 0x12 1]

/-- The registry of `catalog_three` with one subscriber each for the functions
0x11 and 0x12. -/
def registry_three_in_use : List rmi4_function_container :=
  [fc_touch_f01, fc_touch_f11_in_use,
   { function_id := 0x12
     function_data := [{ is_local := true, data := { func_id := 0x12, func_name := "f12" } }]
     is_registered := false, irq_client_list := [{ func := 0xBEEF, func_data := 0xF00D }]
     irq_mask := 0b100, force_irq_disabled := 0 }]

/-- Example hardware for `flaky_device`: the next access fails, every byte is
0xFF. -/
def hw_flaky : hw_state (Nat × (Nat → Nat)) := { st := (1, fun _ => 0xFF), calls := [] }

/-- Example registry: function 0x01 and a function 0x11 without interrupt
sources (mask 0) that has one subscriber, whose callback is null. -/
def registry_no_source_null : List rmi4_function_container :=
  [fc_touch_f01,
   { function_id := 0x11
     function_data := [{ is_local := true, data := { func_id := 0x11, func_name := "f11" } }]
     is_registered := false, irq_client_list := [{ func := 0, func_data := 0xDA7A }]
     irq_mask := 0, force_irq_disabled := 0 }]

/-- Example registry: function 0x01 and a function 0x11 without interrupt
sources (mask 0) that has one subscriber with a callback. -/
def registry_no_source : List rmi4_function_container :=
  [fc_touch_f01,
   { function_id := 0x11
     function_data := [{ is_local := true, data := { func_id := 0x11, func_name := "f11" } }]
     is_registered := false, irq_client_list := [{ func := 0xC0DE, func_data := 0xDA7A }]
     irq_mask := 0, force_irq_disabled := 0 }]

/-! ## AB8500 debugfs (`drivers/mfd/ab8500-debugfs.c`) -/

/-- `struct hwreg_cfg`: `bank`, `addr`, `fmt` and `mask` are 32-bit unsigned,
`shift` is an `int`. -/
structure hwreg_cfg where
  bank : Nat
  addr : Nat
  fmt : Nat
  mask : Nat
  shift : Int
  deriving DecidableEq, Repr

/-- The computation of the `if (write)` block of `hwreg_common_write`: from the
configuration and the value the parse left (`uint val`) and the `u8 regvalue` the
register read gave, the byte `(u8)val` handed to
`abx500_set_register_interruptible`. `uint` arithmetic is modulo 2^32, `~x` is
`0xFFFFFFFF - x`; a shift count of 32 or more is undefined in C and gives
`none`. -/
def hwreg_write_byte (cfg : hwreg_cfg) (val regvalue : Nat) : Option Nat :=
  if 0 ≤ cfg.shift then
    if cfg.shift < 32 then
      let regvalue1 :=
        (regvalue % 256 &&& (0xFFFFFFFF - (cfg.mask <<< cfg.shift.toNat) % 2 ^ 32)) % 256
      let val1 := ((val &&& cfg.mask) <<< cfg.shift.toNat) % 2 ^ 32
      some ((val1 ||| regvalue1) % 256)
    else none
  else
    if -cfg.shift < 32 then
      let regvalue1 :=
        (regvalue % 256 &&& (0xFFFFFFFF - (cfg.mask >>> (-cfg.shift).toNat) % 2 ^ 32)) % 256
      let val1 := ((val &&& cfg.mask) >>> (-cfg.shift).toNat) % 2 ^ 32
      some ((val1 ||| regvalue1) % 256)
    else none

/-- The write rule as the header of the file documents it, for a shift that is
not negative: "read data, data &= ~(MASK<<SHIFT), data |= (VALUE<<SHIFT), write
data", on 32-bit data read from an 8-bit register and written back to it. -/
def hwreg_documented_write_byte (mask shift value r : Nat) : Nat :=
  (((r % 256) &&& (0xFFFFFFFF - (mask <<< shift) % 2 ^ 32)) ||| ((value <<< shift) % 2 ^ 32))
    % 256

/-- Modelled from the spec: `isdigit` of `linux/ctype.h`, which is not among the
sources: the decimal digits. -/
def isdigit (c : Char) : Bool := 0x30 ≤ c.toNat && c.toNat ≤ 0x39

/-- Modelled from the spec: `isxdigit` of `linux/ctype.h`, which is not among the
sources: the decimal digits and the letters a to f in either case. -/
def isxdigit (c : Char) : Bool :=
  isdigit c || (0x61 ≤ c.toNat && c.toNat ≤ 0x66) || (0x41 ≤ c.toNat && c.toNat ≤ 0x46)

/-- The two loops of `strval_len`,
`for (; *s && (*s != ' ') && (*s != '\n'); s++) if (!is_ok(*s)) return 0;`
followed by `return (int) (s-b)`: `n` is `s - b`. The string is the list of its
characters; beyond the list stands the terminating NUL. -/
def strval_len_loop (is_ok : Char → Bool) : List Char → Nat → Int
  | [], n => n
  | c :: rest, n =>
    if c.toNat = 0 ∨ c.toNat = 0x20 ∨ c.toNat = 0x0A then n
    else if !is_ok c then 0
    else strval_len_loop is_ok rest (n + 1)

/-- `strval_len`. The characters are compared by their codes: 0x30 is `0`, 0x78
and 0x58 are `x` and `X`, 0x2D is `-`. -/
def strval_len (b : List Char) : Int :=
  let s0 := (b.getD 0 (Char.ofNat 0)).toNat
  let s1 := (b.getD 1 (Char.ofNat 0)).toNat
  if s0 = 0x30 ∧ (s1 = 0x78 ∨ s1 = 0x58) then strval_len_loop isxdigit (b.drop 2) 2
  else if s0 = 0x2D then strval_len_loop isdigit (b.drop 1) 1
  else strval_len_loop isdigit b 0

/-! ## Properties of the scan -/

theorem get_pdt_container_isSome_iff (l : List rmi4_pdt_container) (n : Nat) :
    (rmi4_core_driver_get_pdt_container l n).isSome = true ↔
      n ∈ l.map (fun c => c.pdt.function_number) := by
  unfold rmi4_core_driver_get_pdt_container
  induction l with
  | nil => simp
  | cons c l ih =>
    by_cases h : c.pdt.function_number = n
    · simp [List.find?_cons, h]
    · have h2 : n ≠ c.pdt.function_number := fun e => h e.symm
      simp [List.find?_cons, h, h2, ih]

theorem catalog_keep_first_cons (acc : List rmi4_pdt_container) (c : rmi4_pdt_container)
    (cs : List rmi4_pdt_container) :
    catalog_keep_first acc (c :: cs) =
      catalog_keep_first
        (if (rmi4_core_driver_get_pdt_container acc c.pdt.function_number).isSome then acc
         else acc ++ [c]) cs := by
  simp [catalog_keep_first]

theorem catalog_keep_first_append (acc cs ds : List rmi4_pdt_container) :
    catalog_keep_first acc (cs ++ ds) = catalog_keep_first (catalog_keep_first acc cs) ds := by
  simp [catalog_keep_first, List.foldl_append]

/-- Where the inner loop is left normally, the catalog has been extended by the
entries of the window that precede the first terminator, duplicates skipped. -/
theorem pdt_page_loop_catalog (read : Nat → read_result) (alloc : Nat → Bool) (page : Nat)
    (addrs : List Nat) (s s1 : scan_state)
    (h : pdt_page_loop read alloc page addrs s = (s1, none)) :
    s1.data.pdt_list =
      catalog_keep_first s.data.pdt_list
        (((addrs.map (fun i => pdt_of_bytes (read i))).takeWhile
          (fun e => !RMI4_END_OF_PDT e.function_number)).map
          (fun e => { bank := page % 256, pdt := e })) := by
  induction addrs generalizing s with
  | nil =>
    simp [pdt_page_loop] at h
    subst h
    simp [catalog_keep_first]
  | cons i rest ih =>
    simp only [pdt_page_loop] at h
    split at h
    · simp at h
    · split at h
      · rename_i hterm
        simp at h
        subst h
        simp [List.takeWhile_cons, hterm, catalog_keep_first]
      · rename_i hterm
        split at h
        · rename_i hfound
          have := ih _ h
          simp [List.takeWhile_cons, hterm, catalog_keep_first_cons] at this ⊢
          rw [if_pos hfound]
          exact this
        · rename_i hfound
          unfold rmi4_core_driver_add_pdt_entry at h
          split at h
          · simp at h
          · rename_i d hd
            split at hd
            · simp at hd
              have := ih _ h
              simp [List.takeWhile_cons, hterm, catalog_keep_first_cons] at this ⊢
              rw [if_neg hfound, this, ← hd]
            · simp at hd

/-- Over a list of pages left without error the catalog has been extended by
their entries, duplicates skipped. -/
theorem pdt_pages_loop_catalog (start : Nat) (read : Nat → read_result) (alloc : Nat → Bool)
    (pages : List Nat) (hpages : ∀ p ∈ pages, p < 256) (s s1 : scan_state)
    (h : pdt_pages_loop start read alloc pages s = (s1, none)) :
    s1.data.pdt_list =
      catalog_keep_first s.data.pdt_list (directory_of start read pages) := by
  induction pages generalizing s with
  | nil =>
    simp [pdt_pages_loop] at h
    subst h
    simp [directory_of, catalog_keep_first]
  | cons page rest ih =>
    simp only [pdt_pages_loop] at h
    split at h
    · simp at h
    · rename_i s2 hs2
      have h1 := pdt_page_loop_catalog read alloc page _ s s2 hs2
      have h2 := ih (fun p hp => hpages p (List.mem_cons_of_mem _ hp)) s2 h
      have hp : page % 256 = page := Nat.mod_eq_of_lt (hpages page (List.mem_cons_self _ _))
      rw [h2, h1, hp]
      simp only [directory_of, List.flatMap_cons, catalog_keep_first_append]
      rfl

/-- With every read succeeding and every allocation succeeding the inner loop is
never left through `goto error`. -/
theorem pdt_page_loop_no_error (read : Nat → read_result) (alloc : Nat → Bool) (page : Nat)
    (hread : ∀ i, (read i).retval = 6) (halloc : ∀ k, alloc k = true)
    (addrs : List Nat) (s : scan_state) :
    (pdt_page_loop read alloc page addrs s).2 = none := by
  induction addrs generalizing s with
  | nil => simp [pdt_page_loop]
  | cons i rest ih =>
    simp only [pdt_page_loop, hread, halloc, rmi4_core_driver_add_pdt_entry, PDT_ENTRY_SIZE]
    split
    · rename_i h
      simp at h
    · split
      · rfl
      · split
        · exact ih _
        · exact ih _

theorem pdt_pages_loop_no_error (start : Nat) (read : Nat → read_result) (alloc : Nat → Bool)
    (hread : ∀ i, (read i).retval = 6) (halloc : ∀ k, alloc k = true)
    (pages : List Nat) (s : scan_state) :
    (pdt_pages_loop start read alloc pages s).2 = none := by
  induction pages generalizing s with
  | nil => simp [pdt_pages_loop]
  | cons page rest ih =>
    simp only [pdt_pages_loop]
    split
    · rename_i s1 rv hs1
      have := pdt_page_loop_no_error read alloc page hread halloc
        (pdt_scan_addrs ((RMI4_PAGE_SIZE * page % 65536 + start) % 65536)
          ((RMI4_PAGE_SIZE * page % 65536 + PDT_END_SCAN_LOCATION) % 65536)) s
      rw [hs1] at this
      simp at this
    · exact ih _

theorem irq_total_append (l : List rmi4_pdt_container) (c : rmi4_pdt_container) :
    irq_total (l ++ [c]) = irq_total l + (c.pdt.interrupt_source_count : Int) := by
  simp [irq_total, List.sum_append]

/-- The inner loop keeps the interrupt counter in step with the catalog and
leaves the function registry alone, however it is left. -/
theorem pdt_page_loop_counter (read : Nat → read_result) (alloc : Nat → Bool) (page : Nat)
    (addrs : List Nat) (s : scan_state) :
    (pdt_page_loop read alloc page addrs s).1.data.num_supported_irqs
        - irq_total (pdt_page_loop read alloc page addrs s).1.data.pdt_list
      = s.data.num_supported_irqs - irq_total s.data.pdt_list ∧
    (pdt_page_loop read alloc page addrs s).1.data.function_list = s.data.function_list := by
  induction addrs generalizing s with
  | nil => simp [pdt_page_loop]
  | cons i rest ih =>
    simp only [pdt_page_loop]
    split
    · simp
    · split
      · simp
      · split
        · exact ih _
        · unfold rmi4_core_driver_add_pdt_entry
          split
          · simp
          · rename_i d hd
            split at hd
            · simp at hd
              subst hd
              constructor
              · rw [(ih _).1]
                simp only [irq_total_append]
                ring
              · rw [(ih _).2]
            · simp at hd

theorem pdt_pages_loop_counter (start : Nat) (read : Nat → read_result) (alloc : Nat → Bool)
    (pages : List Nat) (s : scan_state) :
    (pdt_pages_loop start read alloc pages s).1.data.num_supported_irqs
        - irq_total (pdt_pages_loop start read alloc pages s).1.data.pdt_list
      = s.data.num_supported_irqs - irq_total s.data.pdt_list ∧
    (pdt_pages_loop start read alloc pages s).1.data.function_list = s.data.function_list := by
  induction pages generalizing s with
  | nil => simp [pdt_pages_loop]
  | cons page rest ih =>
    simp only [pdt_pages_loop]
    split
    · rename_i s1 rv hs1
      have := pdt_page_loop_counter read alloc page
        (pdt_scan_addrs ((RMI4_PAGE_SIZE * page % 65536 + start) % 65536)
          ((RMI4_PAGE_SIZE * page % 65536 + PDT_END_SCAN_LOCATION) % 65536)) s
      rw [hs1] at this
      exact this
    · rename_i s1 hs1
      have h1 := pdt_page_loop_counter read alloc page
        (pdt_scan_addrs ((RMI4_PAGE_SIZE * page % 65536 + start) % 65536)
          ((RMI4_PAGE_SIZE * page % 65536 + PDT_END_SCAN_LOCATION) % 65536)) s
      rw [hs1] at h1
      have h2 := ih s1
      exact ⟨h2.1.trans h1.1, h2.2.trans h1.2⟩

/-- An error exit of the inner loop never carries the value 0. -/
theorem pdt_page_loop_error_ne_zero (read : Nat → read_result) (alloc : Nat → Bool)
    (page : Nat) (addrs : List Nat) (s s1 : scan_state) (rv : Int)
    (h : pdt_page_loop read alloc page addrs s = (s1, some rv)) : rv ≠ 0 := by
  induction addrs generalizing s with
  | nil => simp [pdt_page_loop] at h
  | cons i rest ih =>
    simp only [pdt_page_loop] at h
    split at h
    · simp [EINVAL] at h
      omega
    · rename_i hr
      split at h
      · simp at h
      · split at h
        · exact ih _ h
        · split at h
          · simp [PDT_ENTRY_SIZE] at h hr
            omega
          · exact ih _ h

theorem pdt_pages_loop_error_ne_zero (start : Nat) (read : Nat → read_result)
    (alloc : Nat → Bool) (pages : List Nat) (s s1 : scan_state) (rv : Int)
    (h : pdt_pages_loop start read alloc pages s = (s1, some rv)) : rv ≠ 0 := by
  induction pages generalizing s with
  | nil => simp [pdt_pages_loop] at h
  | cons page rest ih =>
    simp only [pdt_pages_loop] at h
    split at h
    · rename_i s2 rv2 hs2
      simp at h
      rw [← h.2]
      exact pdt_page_loop_error_ne_zero read alloc page _ s s2 rv2 hs2
    · exact ih _ h

/-- The reads of the inner loop go well up to a possible failing read, at which
the loop is left with `-EINVAL`. -/
theorem pdt_page_loop_trace (read : Nat → read_result) (alloc : Nat → Bool) (page : Nat)
    (addrs : List Nat) (s : scan_state) (hs : ∀ b ∈ s.reads, (read b).retval = 6) :
    scan_trace_ok read (pdt_page_loop read alloc page addrs s).1.reads
      (pdt_page_loop read alloc page addrs s).2 := by
  induction addrs generalizing s with
  | nil => exact Or.inl (by simpa [pdt_page_loop] using hs)
  | cons i rest ih =>
    simp only [pdt_page_loop]
    split
    · rename_i hr
      refine Or.inr ⟨rfl, s.reads, i, rfl, hs, ?_⟩
      simpa [PDT_ENTRY_SIZE] using hr
    · rename_i hr
      have hi : (read i).retval = 6 := by simpa [PDT_ENTRY_SIZE] using hr
      have hs1 : ∀ b ∈ s.reads ++ [i], (read b).retval = 6 := by
        intro b hb
        rcases List.mem_append.1 hb with hb | hb
        · exact hs b hb
        · simp at hb
          rw [hb]
          exact hi
      split
      · exact Or.inl hs1
      · split
        · exact ih _ hs1
        · split
          · exact Or.inl hs1
          · exact ih _ hs1

theorem pdt_pages_loop_trace (start : Nat) (read : Nat → read_result) (alloc : Nat → Bool)
    (pages : List Nat) (s : scan_state) (hs : ∀ b ∈ s.reads, (read b).retval = 6) :
    scan_trace_ok read (pdt_pages_loop start read alloc pages s).1.reads
      (pdt_pages_loop start read alloc pages s).2 := by
  induction pages generalizing s with
  | nil => exact Or.inl (by simpa [pdt_pages_loop] using hs)
  | cons page rest ih =>
    have h1 := pdt_page_loop_trace read alloc page
      (pdt_scan_addrs ((RMI4_PAGE_SIZE * page % 65536 + start) % 65536)
        ((RMI4_PAGE_SIZE * page % 65536 + PDT_END_SCAN_LOCATION) % 65536)) s hs
    simp only [pdt_pages_loop]
    split
    · rename_i s1 rv hs1
      rw [hs1] at h1
      exact h1
    · rename_i s1 hs1
      rw [hs1] at h1
      rcases h1 with h1 | h1
      · exact ih s1 h1
      · simp at h1

/-- For a start offset inside the page the scan of page `page` reads at
`page * 256 + start` and then at addresses descending by 6 down to the end
location; no `u16` computation wraps. -/
theorem pdt_scan_addrs_of_page (start page : Nat) (hs : PDT_END_SCAN_LOCATION ≤ start)
    (hs2 : start < RMI4_PAGE_SIZE) (hp : page ≤ RMI4_MAX_PAGE) :
    pdt_scan_addrs ((RMI4_PAGE_SIZE * page % 65536 + start) % 65536)
        ((RMI4_PAGE_SIZE * page % 65536 + PDT_END_SCAN_LOCATION) % 65536)
      = (List.range ((start - PDT_END_SCAN_LOCATION) / PDT_ENTRY_SIZE + 1)).map
          (fun k => RMI4_PAGE_SIZE * page + start - PDT_ENTRY_SIZE * k) := by
  simp only [PDT_END_SCAN_LOCATION, RMI4_PAGE_SIZE, RMI4_MAX_PAGE, PDT_ENTRY_SIZE] at *
  have h1 : 256 * page % 65536 = 256 * page := Nat.mod_eq_of_lt (by omega)
  have h2 : (256 * page + start) % 65536 = 256 * page + start := Nat.mod_eq_of_lt (by omega)
  have h3 : (256 * page + 5) % 65536 = 256 * page + 5 := Nat.mod_eq_of_lt (by omega)
  have h4 : 256 * page + start - (256 * page + 5) = start - 5 := by omega
  rw [h1, h2, h3]
  unfold pdt_scan_addrs
  rw [if_pos (by omega), h4]
  rfl

/-! ### Catalogs built by skipping duplicates -/

theorem get_pdt_container_eq_none_iff (l : List rmi4_pdt_container) (n : Nat) :
    rmi4_core_driver_get_pdt_container l n = none ↔
      n ∉ l.map (fun c => c.pdt.function_number) := by
  rw [← get_pdt_container_isSome_iff]
  cases rmi4_core_driver_get_pdt_container l n <;> simp

theorem catalog_keep_first_mem_fn (acc cs : List rmi4_pdt_container) (n : Nat) :
    n ∈ (catalog_keep_first acc cs).map (fun c => c.pdt.function_number) ↔
      n ∈ acc.map (fun c => c.pdt.function_number) ∨
      n ∈ cs.map (fun c => c.pdt.function_number) := by
  induction cs generalizing acc with
  | nil => simp [catalog_keep_first]
  | cons d cs ih =>
    rw [catalog_keep_first_cons, ih]
    split
    · rename_i hf
      rw [get_pdt_container_isSome_iff] at hf
      constructor
      · rintro (h | h)
        · exact Or.inl h
        · exact Or.inr (by simp at h ⊢; exact Or.inr h)
      · rintro (h | h)
        · exact Or.inl h
        · simp only [List.map_cons, List.mem_cons] at h
          rcases h with h | h
          · exact Or.inl (h ▸ hf)
          · exact Or.inr h
    · simp only [List.map_append, List.map_cons, List.map_nil, List.mem_append, List.mem_cons,
        List.mem_singleton, List.not_mem_nil, or_false]
      tauto

theorem catalog_keep_first_nodup (acc cs : List rmi4_pdt_container)
    (h : (acc.map (fun c => c.pdt.function_number)).Nodup) :
    ((catalog_keep_first acc cs).map (fun c => c.pdt.function_number)).Nodup := by
  induction cs generalizing acc with
  | nil => simpa [catalog_keep_first] using h
  | cons d cs ih =>
    rw [catalog_keep_first_cons]
    apply ih
    split
    · exact h
    · rename_i hf
      rw [get_pdt_container_isSome_iff] at hf
      rw [List.map_append, List.nodup_append]
      refine ⟨h, by simp, ?_⟩
      intro x hx hx2
      simp at hx2
      rw [hx2] at hx
      exact hf hx

theorem catalog_keep_first_of_nodup (acc cs : List rmi4_pdt_container)
    (h : ((acc ++ cs).map (fun c => c.pdt.function_number)).Nodup) :
    catalog_keep_first acc cs = acc ++ cs := by
  induction cs generalizing acc with
  | nil => simp [catalog_keep_first]
  | cons d cs ih =>
    rw [catalog_keep_first_cons]
    have hnf : ¬ (rmi4_core_driver_get_pdt_container acc d.pdt.function_number).isSome = true := by
      rw [get_pdt_container_isSome_iff]
      intro hmem
      rw [List.map_append, List.nodup_append] at h
      exact h.2.2 hmem (by simp)
    rw [if_neg hnf, ih (acc ++ [d]) (by simpa using h)]
    simp

theorem catalog_keep_first_nil_of_nodup (cs : List rmi4_pdt_container)
    (h : (cs.map (fun c => c.pdt.function_number)).Nodup) :
    catalog_keep_first [] cs = cs := by
  rw [catalog_keep_first_of_nodup [] cs (by simpa using h)]
  simp

/-- Every entry of a catalog built by skipping duplicates was either there from
the start or is the first candidate with its function number. -/
theorem catalog_keep_first_first (acc cs : List rmi4_pdt_container) (c : rmi4_pdt_container)
    (hc : c ∈ catalog_keep_first acc cs) :
    c ∈ acc ∨
      (rmi4_core_driver_get_pdt_container acc c.pdt.function_number = none ∧
        cs.find? (fun e => e.pdt.function_number == c.pdt.function_number) = some c) := by
  induction cs generalizing acc with
  | nil => exact Or.inl (by simpa [catalog_keep_first] using hc)
  | cons d cs ih =>
    rw [catalog_keep_first_cons] at hc
    split at hc
    · rename_i hf
      rcases ih acc hc with h | ⟨h1, h2⟩
      · exact Or.inl h
      · refine Or.inr ⟨h1, ?_⟩
        have hne : d.pdt.function_number ≠ c.pdt.function_number := by
          intro e
          rw [e, h1] at hf
          simp at hf
        simp [List.find?_cons, hne, h2]
    · rename_i hf
      have hf2 : rmi4_core_driver_get_pdt_container acc d.pdt.function_number = none := by
        cases hq : rmi4_core_driver_get_pdt_container acc d.pdt.function_number with
        | none => rfl
        | some x => simp [hq] at hf
      rcases ih (acc ++ [d]) hc with h | ⟨h1, h2⟩
      · rcases List.mem_append.1 h with h | h
        · exact Or.inl h
        · simp at h
          subst h
          exact Or.inr ⟨hf2, by simp [List.find?_cons]⟩
      · rw [get_pdt_container_eq_none_iff] at h1
        simp only [List.map_append, List.map_cons, List.map_nil, List.mem_append,
          List.mem_singleton, not_or] at h1
        refine Or.inr ⟨(get_pdt_container_eq_none_iff _ _).2 h1.1, ?_⟩
        have hne : d.pdt.function_number ≠ c.pdt.function_number := fun e => h1.2 e.symm
        simp [List.find?_cons, hne, h2]

theorem catalog_keep_first_eq_nil (cs : List rmi4_pdt_container) :
    catalog_keep_first [] cs = [] ↔ cs = [] := by
  constructor
  · intro h
    cases cs with
    | nil => rfl
    | cons d cs =>
      have := (catalog_keep_first_mem_fn [] (d :: cs) d.pdt.function_number).2
        (Or.inr (by simp))
      rw [h] at this
      simp at this
  · intro h
    subst h
    rfl

theorem range_pages_lt : ∀ p ∈ List.range (RMI4_MAX_PAGE + 1), p < 256 := by
  intro p hp
  simpa [RMI4_MAX_PAGE] using hp

/-- A scan that returns 0 leaves the entries of the device, duplicates skipped,
as a non-empty catalog; the interrupt counter has grown by their interrupt
sources and the function registry is untouched. -/
theorem rmi4_read_pdt_success (start : Nat) (alloc : Nat → Bool) (read : Nat → read_result)
    (data : rmi4_core_drv_data)
    (h : (rmi4_read_pdt start alloc (some read) data).retval = 0) :
    (rmi4_read_pdt start alloc (some read) data).data.pdt_list
        = catalog_keep_first [] (directory start read) ∧
    (rmi4_read_pdt start alloc (some read) data).data.pdt_list ≠ [] ∧
    (rmi4_read_pdt start alloc (some read) data).data.num_supported_irqs
        = data.num_supported_irqs
          + irq_total (rmi4_read_pdt start alloc (some read) data).data.pdt_list ∧
    (rmi4_read_pdt start alloc (some read) data).data.function_list = data.function_list := by
  have hcat := pdt_pages_loop_catalog start read alloc (List.range (RMI4_MAX_PAGE + 1))
    range_pages_lt
    { data := rmi4_core_driver_clear_pdt_list data, allocs := 0, reads := [] }
  have hcnt := pdt_pages_loop_counter start read alloc (List.range (RMI4_MAX_PAGE + 1))
    { data := rmi4_core_driver_clear_pdt_list data, allocs := 0, reads := [] }
  have herr := pdt_pages_loop_error_ne_zero start read alloc (List.range (RMI4_MAX_PAGE + 1))
    { data := rmi4_core_driver_clear_pdt_list data, allocs := 0, reads := [] }
  simp only [rmi4_read_pdt] at h ⊢
  rcases hloop : pdt_pages_loop start read alloc (List.range (RMI4_MAX_PAGE + 1))
    { data := rmi4_core_driver_clear_pdt_list data, allocs := 0, reads := [] } with ⟨s, ex⟩
  rw [hloop] at h hcnt
  cases ex with
  | some rv =>
    simp only at h
    exact absurd h (herr s rv hloop)
  | none =>
    have hc := hcat s hloop
    simp only at h ⊢
    split at h
    · simp [ENOENT] at h
    · rename_i hne
      rw [if_neg hne]
      simp only [rmi4_core_driver_clear_pdt_list, irq_total, List.map_nil, List.sum_nil,
        sub_zero] at hcnt hc
      refine ⟨hc, ?_, ?_, hcnt.2⟩
      · simpa using hne
      · have := hcnt.1
        simp only [irq_total]
        omega

/-- Whatever the device returns, the catalog a scan leaves holds no function
number twice. -/
theorem rmi4_read_pdt_nodup (start : Nat) (alloc : Nat → Bool) (read : Nat → read_result)
    (data : rmi4_core_drv_data) :
    ((rmi4_read_pdt start alloc (some read) data).data.pdt_list.map
      (fun c => c.pdt.function_number)).Nodup := by
  have hcat := pdt_pages_loop_catalog start read alloc (List.range (RMI4_MAX_PAGE + 1))
    range_pages_lt
    { data := rmi4_core_driver_clear_pdt_list data, allocs := 0, reads := [] }
  simp only [rmi4_read_pdt]
  rcases hloop : pdt_pages_loop start read alloc (List.range (RMI4_MAX_PAGE + 1))
    { data := rmi4_core_driver_clear_pdt_list data, allocs := 0, reads := [] } with ⟨s, ex⟩
  cases ex with
  | some rv => simp [rmi4_core_driver_clear_pdt_list]
  | none =>
    simp only
    split
    · simp [rmi4_core_driver_clear_pdt_list]
    · simp only
      rw [hcat s hloop]
      exact catalog_keep_first_nodup _ _ (by simp [rmi4_core_driver_clear_pdt_list])

/-- With every read and every allocation succeeding the scan fails exactly when
the device presents no entry, with `-ENOENT`, and returns 0 otherwise. -/
theorem rmi4_read_pdt_retval (start : Nat) (alloc : Nat → Bool) (read : Nat → read_result)
    (data : rmi4_core_drv_data)
    (hread : ∀ i, (read i).retval = 6) (halloc : ∀ k, alloc k = true) :
    (rmi4_read_pdt start alloc (some read) data).retval
      = if directory start read = [] then -ENOENT else 0 := by
  have hcat := pdt_pages_loop_catalog start read alloc (List.range (RMI4_MAX_PAGE + 1))
    range_pages_lt
    { data := rmi4_core_driver_clear_pdt_list data, allocs := 0, reads := [] }
  have hok := pdt_pages_loop_no_error start read alloc hread halloc
    (List.range (RMI4_MAX_PAGE + 1))
    { data := rmi4_core_driver_clear_pdt_list data, allocs := 0, reads := [] }
  simp only [rmi4_read_pdt]
  rcases hloop : pdt_pages_loop start read alloc (List.range (RMI4_MAX_PAGE + 1))
    { data := rmi4_core_driver_clear_pdt_list data, allocs := 0, reads := [] } with ⟨s, ex⟩
  rw [hloop] at hok
  simp only at hok
  subst hok
  have hc := hcat s hloop
  simp only [rmi4_core_driver_clear_pdt_list] at hc
  simp only
  have hd : directory start read = directory_of start read (List.range (RMI4_MAX_PAGE + 1)) := rfl
  by_cases hdir : directory start read = []
  · have : s.data.pdt_list = [] := by
      rw [hc, ← hd, hdir]
      rfl
    simp [this, hdir]
  · have : s.data.pdt_list ≠ [] := by
      rw [hc, ← hd]
      intro e
      exact hdir ((catalog_keep_first_eq_nil _).1 e)
    simp [this, hdir]

theorem rmi4_read_pdt_trace (start : Nat) (alloc : Nat → Bool) (read : Nat → read_result)
    (data : rmi4_core_drv_data) (a : Nat)
    (ha : a ∈ (rmi4_read_pdt start alloc (some read) data).reads)
    (hfail : (read a).retval ≠ 6) :
    (rmi4_read_pdt start alloc (some read) data).retval = -EINVAL ∧
    (rmi4_read_pdt start alloc (some read) data).data.pdt_list = [] ∧
    ∃ pre, (rmi4_read_pdt start alloc (some read) data).reads = pre ++ [a] ∧
      ∀ b ∈ pre, (read b).retval = 6 := by
  have htr := pdt_pages_loop_trace start read alloc (List.range (RMI4_MAX_PAGE + 1))
    { data := rmi4_core_driver_clear_pdt_list data, allocs := 0, reads := [] } (by simp)
  simp only [rmi4_read_pdt] at ha ⊢
  rcases hloop : pdt_pages_loop start read alloc (List.range (RMI4_MAX_PAGE + 1))
    { data := rmi4_core_driver_clear_pdt_list data, allocs := 0, reads := [] } with ⟨s, ex⟩
  rw [hloop] at htr ha
  have hreads : a ∈ s.reads := by
    cases ex with
    | some rv => simpa using ha
    | none =>
      simp only at ha
      split at ha <;> simpa using ha
  rcases htr with hall | ⟨hex, pre, a2, hpre, hok, hbad⟩
  · exact absurd (hall a hreads) hfail
  · simp only at hex hpre
    subst hex
    have haa : a = a2 := by
      rw [hpre] at hreads
      rcases List.mem_append.1 hreads with h | h
      · exact absurd (hok a h) hfail
      · simpa using h
    subst haa
    exact ⟨rfl, rfl, pre, hpre, hok⟩

theorem dev_two_reads_ok : ∀ i, (dev_two i).retval = 6 := by
  intro i
  unfold dev_two
  split_ifs <;> rfl

/-! ## Properties of the registry population -/

theorem irq_mask_loop_testBit (bits_per_long count irq mask m : Nat) (force f : Int)
    (h : irq_mask_loop bits_per_long count irq mask force = some (m, f)) (b : Nat) :
    m.testBit b = true ↔
      mask.testBit b = true ∨ (irq ≤ b ∧ b < irq + count ∧ b < bits_per_long) := by
  induction count generalizing irq mask force with
  | zero =>
    simp [irq_mask_loop] at h
    rw [← h.1]
    constructor
    · exact Or.inl
    · rintro (h | h)
      · exact h
      · omega
  | succ n ih =>
    simp only [irq_mask_loop] at h
    split at h
    · rw [ih (irq + 1) (mask ||| 2 ^ irq) force h, Nat.testBit_or, Nat.testBit_two_pow]
      simp only [Bool.or_eq_true, decide_eq_true_eq]
      constructor
      · rintro ((h1 | h1) | h1)
        · exact Or.inl h1
        · exact Or.inr (by omega)
        · exact Or.inr (by omega)
      · rintro (h1 | h1)
        · exact Or.inl (Or.inl h1)
        · by_cases hb : irq = b
          · exact Or.inl (Or.inr hb)
          · exact Or.inr (by omega)
    · split at h
      · rw [ih (irq + 1) mask _ h]
        constructor
        · rintro (h1 | h1)
          · exact Or.inl h1
          · exact Or.inr (by omega)
        · rintro (h1 | h1)
          · exact Or.inl h1
          · exact Or.inr (by omega)
      · split at h
        · rw [ih (irq + 1) mask _ h]
          constructor
          · rintro (h1 | h1)
            · exact Or.inl h1
            · exact Or.inr (by omega)
          · rintro (h1 | h1)
            · exact Or.inl h1
            · exact Or.inr (by omega)
        · simp at h

/-- While the bit counter stays within the mask word the loop leaves the count
alone. -/
theorem irq_mask_loop_force (bits_per_long count irq mask m : Nat) (force f : Int)
    (h : irq_mask_loop bits_per_long count irq mask force = some (m, f))
    (hfit : irq + count ≤ bits_per_long) : f = force := by
  induction count generalizing irq mask with
  | zero =>
    simp [irq_mask_loop] at h
    exact h.2.symm
  | succ n ih =>
    simp only [irq_mask_loop] at h
    rw [if_pos (by omega)] at h
    exact ih (irq + 1) _ h (by omega)

theorem get_function_container_isSome_iff (l : List rmi4_function_container) (n : Nat) :
    (rmi4_core_driver_get_function_container l n).isSome = true ↔
      n ∈ l.map (fun f => f.function_id) := by
  unfold rmi4_core_driver_get_function_container
  induction l with
  | nil => simp
  | cons c l ih =>
    by_cases h : c.function_id = n
    · simp [List.find?_cons, h]
    · have h2 : n ≠ c.function_id := fun e => h e.symm
      simp [List.find?_cons, h, h2, ih]

theorem set_irq_mask_ids (l : List rmi4_function_container) (x m : Nat) (force : Int) :
    (set_irq_mask l x m force).map (fun f => f.function_id)
      = l.map (fun f => f.function_id) := by
  induction l with
  | nil => rfl
  | cons f l ih =>
    simp only [set_irq_mask]
    split
    · simp
    · simp [ih]

theorem get_set_irq_mask_ne (l : List rmi4_function_container) (x y m : Nat) (force : Int)
    (h : x ≠ y) :
    rmi4_core_driver_get_function_container (set_irq_mask l x m force) y
      = rmi4_core_driver_get_function_container l y := by
  unfold rmi4_core_driver_get_function_container
  induction l with
  | nil => rfl
  | cons f l ih =>
    simp only [set_irq_mask]
    split
    · rename_i hf
      have hf2 : f.function_id = x := by simpa using hf
      have : ¬ f.function_id = y := fun e => h (hf2.symm.trans e)
      simp [List.find?_cons, this]
    · by_cases hy : f.function_id = y
      · simp [List.find?_cons, hy]
      · simp [List.find?_cons, hy, ih]

theorem get_set_irq_mask_same (l : List rmi4_function_container) (x m : Nat) (force : Int)
    (f : rmi4_function_container)
    (h : rmi4_core_driver_get_function_container l x = some f) :
    rmi4_core_driver_get_function_container (set_irq_mask l x m force) x
      = some { f with irq_mask := m, force_irq_disabled := force } := by
  unfold rmi4_core_driver_get_function_container at h ⊢
  induction l with
  | nil => simp at h
  | cons g l ih =>
    simp only [set_irq_mask]
    by_cases hg : g.function_id = x
    · simp [List.find?_cons, hg] at h ⊢
      subst h
      simp [hg]
    · simp [List.find?_cons, hg] at h ⊢
      exact ih h

theorem add_plat_data_function_id (alloc : Nat → Bool) (plat : List rmi4_function_data)
    (c c1 : rmi4_function_container) (k k1 : Nat)
    (h : rmi4_core_driver_add_plat_data alloc plat c k = some (c1, k1)) :
    c1.function_id = c.function_id ∧ c1.irq_client_list = c.irq_client_list ∧
      c1.force_irq_disabled = c.force_irq_disabled := by
  induction plat generalizing c k with
  | nil =>
    simp [rmi4_core_driver_add_plat_data] at h
    rw [← h.1]
    exact ⟨rfl, rfl, rfl⟩
  | cons fd rest ih =>
    simp only [rmi4_core_driver_add_plat_data] at h
    split at h
    · split at h
      · exact ih { c with function_data := c.function_data ++ [{ is_local := false, data := fd }] }
          (k + 1) h
      · simp at h
    · exact ih c k h

/-- One successful turn of the populate loop: the mask of the entry could be
computed and went either to the function object found for the entry or to a new
function object appended to the registry. -/
theorem populate_loop_cons_ok (bits_per_long : Nat) (plat : List rmi4_function_data)
    (alloc : Nat → Bool) (e : rmi4_pdt_container) (rest : List rmi4_pdt_container)
    (fl fl2 : List rmi4_function_container) (irq k : Nat)
    (h : populate_loop bits_per_long plat alloc (e :: rest) fl irq k = .ok fl2) :
    ∃ mask fl1 k1,
      (∃ force0 force : Int,
        irq_mask_loop bits_per_long e.pdt.interrupt_source_count irq 0 force0
          = some (mask, force)) ∧
      populate_loop bits_per_long plat alloc rest fl1
        (irq + e.pdt.interrupt_source_count) k1 = .ok fl2 ∧
      populate_step fl e.pdt.function_number mask fl1 := by
  unfold populate_step
  simp only [populate_loop] at h
  split at h
  · rename_i f hf
    split at h
    · simp at h
    · rename_i mask force hmask
      exact ⟨mask, _, k, ⟨_, force, hmask⟩, h, Or.inl ⟨by simp [hf], force, rfl⟩⟩
  · rename_i hf
    split at h
    · simp [populate_fail] at h
    · split at h
      · simp at h
      · split at h
        · simp [populate_fail] at h
        · split at h
          · simp [populate_fail] at h
          · split at h
            · simp at h
            · rename_i fc1 k1 hplat
              split at h
              · simp at h
              · rename_i mask force hmask
                have hid := add_plat_data_function_id alloc plat _ fc1 _ k1 hplat
                exact ⟨mask, _, k1, ⟨_, force, hmask⟩, h,
                  Or.inr ⟨hf, { fc1 with irq_mask := mask, force_irq_disabled := force },
                    hid.1, rfl, hid.2.1, rfl⟩⟩

theorem populate_step_get (fl fl1 : List rmi4_function_container) (fn mask : Nat)
    (h : populate_step fl fn mask fl1) :
    ∃ fc, rmi4_core_driver_get_function_container fl1 fn = some fc ∧ fc.irq_mask = mask := by
  rcases h with ⟨hs, force, rfl⟩ | ⟨hn, fc, hid, hm, _, rfl⟩
  · cases hf : rmi4_core_driver_get_function_container fl fn with
    | none => simp [hf] at hs
    | some f => exact ⟨_, get_set_irq_mask_same fl fn mask force f hf, rfl⟩
  · refine ⟨fc, ?_, hm⟩
    unfold rmi4_core_driver_get_function_container at hn ⊢
    simp [List.find?_append, hn, List.find?_cons, hid]

theorem populate_step_frame (fl fl1 : List rmi4_function_container) (fn mask x : Nat)
    (h : populate_step fl fn mask fl1) (hx : x ≠ fn) :
    rmi4_core_driver_get_function_container fl1 x
      = rmi4_core_driver_get_function_container fl x := by
  rcases h with ⟨_, force, rfl⟩ | ⟨_, fc, hid, _, _, rfl⟩
  · exact get_set_irq_mask_ne fl fn x mask force (Ne.symm hx)
  · unfold rmi4_core_driver_get_function_container
    have : ¬ fc.function_id = x := fun e => hx (e.symm.trans hid)
    simp [List.find?_append, List.find?_cons, this]

theorem erase_mask_set_irq_mask (l : List rmi4_function_container) (x m : Nat) (force : Int) :
    (set_irq_mask l x m force).map erase_mask = l.map erase_mask := by
  induction l with
  | nil => rfl
  | cons f l ih =>
    simp only [set_irq_mask]
    split
    · simp [erase_mask]
    · simp [ih]

theorem populate_step_erase (fl fl1 : List rmi4_function_container) (fn mask : Nat)
    (h : populate_step fl fn mask fl1) :
    ∃ t, fl1.map erase_mask = fl.map erase_mask ++ t := by
  rcases h with ⟨_, force, rfl⟩ | ⟨_, fc, _, _, _, rfl⟩
  · exact ⟨[], by simp [erase_mask_set_irq_mask]⟩
  · exact ⟨[erase_mask fc], by simp⟩

theorem populate_step_mono (fl fl1 : List rmi4_function_container) (fn mask x : Nat)
    (h : populate_step fl fn mask fl1)
    (hx : (rmi4_core_driver_get_function_container fl x).isSome = true) :
    (rmi4_core_driver_get_function_container fl1 x).isSome = true := by
  by_cases hxe : x = fn
  · obtain ⟨fc, hfc, _⟩ := populate_step_get fl fl1 fn mask h
    rw [hxe, hfc]
    rfl
  · rw [populate_step_frame fl fl1 fn mask x h hxe]
    exact hx

/-- A function number that is not in the catalog keeps the function object the
registry finds for it. -/
theorem populate_loop_frame (bits_per_long : Nat) (plat : List rmi4_function_data)
    (alloc : Nat → Bool) (pdts : List rmi4_pdt_container)
    (fl fl2 : List rmi4_function_container) (irq k x : Nat)
    (h : populate_loop bits_per_long plat alloc pdts fl irq k = .ok fl2)
    (hx : x ∉ pdts.map (fun c => c.pdt.function_number)) :
    rmi4_core_driver_get_function_container fl2 x
      = rmi4_core_driver_get_function_container fl x := by
  induction pdts generalizing fl irq k with
  | nil =>
    simp [populate_loop] at h
    rw [h]
  | cons e rest ih =>
    obtain ⟨mask, fl1, k1, _, hrest, hstep⟩ :=
      populate_loop_cons_ok bits_per_long plat alloc e rest fl fl2 irq k h
    simp only [List.map_cons, List.mem_cons, not_or] at hx
    rw [ih fl1 _ k1 hrest hx.2]
    exact populate_step_frame fl fl1 _ mask x hstep hx.1

theorem populate_loop_mono (bits_per_long : Nat) (plat : List rmi4_function_data)
    (alloc : Nat → Bool) (pdts : List rmi4_pdt_container)
    (fl fl2 : List rmi4_function_container) (irq k x : Nat)
    (h : populate_loop bits_per_long plat alloc pdts fl irq k = .ok fl2)
    (hx : (rmi4_core_driver_get_function_container fl x).isSome = true) :
    (rmi4_core_driver_get_function_container fl2 x).isSome = true := by
  induction pdts generalizing fl irq k with
  | nil =>
    simp [populate_loop] at h
    rw [← h]
    exact hx
  | cons e rest ih =>
    obtain ⟨mask, fl1, k1, _, hrest, hstep⟩ :=
      populate_loop_cons_ok bits_per_long plat alloc e rest fl fl2 irq k h
    exact ih fl1 _ k1 hrest (populate_step_mono fl fl1 _ mask x hstep hx)

/-- After a successful populate every function of the catalog has a function
object. -/
theorem populate_loop_present (bits_per_long : Nat) (plat : List rmi4_function_data)
    (alloc : Nat → Bool) (pdts : List rmi4_pdt_container)
    (fl fl2 : List rmi4_function_container) (irq k : Nat)
    (h : populate_loop bits_per_long plat alloc pdts fl irq k = .ok fl2) :
    ∀ e ∈ pdts, (rmi4_core_driver_get_function_container fl2 e.pdt.function_number).isSome
      = true := by
  induction pdts generalizing fl irq k with
  | nil => simp
  | cons e rest ih =>
    obtain ⟨mask, fl1, k1, _, hrest, hstep⟩ :=
      populate_loop_cons_ok bits_per_long plat alloc e rest fl fl2 irq k h
    intro c hc
    rcases List.mem_cons.1 hc with rfl | hc
    · obtain ⟨fc, hfc, _⟩ := populate_step_get fl fl1 _ mask hstep
      exact populate_loop_mono bits_per_long plat alloc rest fl1 fl2 _ k1 _ hrest
        (by rw [hfc]; rfl)
    · exact ih fl1 _ k1 hrest c hc

/-- Populate leaves every function object that existed before where it was,
changing at most its mask. -/
theorem populate_loop_erase (bits_per_long : Nat) (plat : List rmi4_function_data)
    (alloc : Nat → Bool) (pdts : List rmi4_pdt_container)
    (fl fl2 : List rmi4_function_container) (irq k : Nat)
    (h : populate_loop bits_per_long plat alloc pdts fl irq k = .ok fl2) :
    ∃ t, fl2.map erase_mask = fl.map erase_mask ++ t := by
  induction pdts generalizing fl irq k with
  | nil =>
    simp [populate_loop] at h
    exact ⟨[], by simp [h]⟩
  | cons e rest ih =>
    obtain ⟨mask, fl1, k1, _, hrest, hstep⟩ :=
      populate_loop_cons_ok bits_per_long plat alloc e rest fl fl2 irq k h
    obtain ⟨t1, ht1⟩ := populate_step_erase fl fl1 _ mask hstep
    obtain ⟨t2, ht2⟩ := ih fl1 _ k1 hrest
    exact ⟨t1 ++ t2, by rw [ht2, ht1, List.append_assoc]⟩

theorem irq_offset_zero (l : List rmi4_pdt_container) : irq_offset l 0 = 0 := by
  simp [irq_offset]

theorem irq_offset_succ (e : rmi4_pdt_container) (l : List rmi4_pdt_container) (i : Nat) :
    irq_offset (e :: l) (i + 1) = e.pdt.interrupt_source_count + irq_offset l i := by
  simp [irq_offset]

/-- The masks a successful populate leaves, for a catalog without repeated
function numbers, with the bit counter starting at `irq`: the bits of the entry's
range that lie within the mask word. -/
theorem populate_loop_masks (bits_per_long : Nat) (plat : List rmi4_function_data)
    (alloc : Nat → Bool) (pdts : List rmi4_pdt_container)
    (fl fl2 : List rmi4_function_container) (irq k : Nat)
    (h : populate_loop bits_per_long plat alloc pdts fl irq k = .ok fl2)
    (hnodup : (pdts.map (fun c => c.pdt.function_number)).Nodup)
    (i : Nat) (hi : i < pdts.length) :
    ∃ fc, rmi4_core_driver_get_function_container fl2 (pdts.get ⟨i, hi⟩).pdt.function_number
        = some fc ∧
      ∀ b, fc.irq_mask.testBit b = true ↔
        irq + irq_offset pdts i ≤ b ∧
          b < irq + irq_offset pdts i + (pdts.get ⟨i, hi⟩).pdt.interrupt_source_count ∧
          b < bits_per_long := by
  induction pdts generalizing fl irq k i with
  | nil => simp at hi
  | cons e rest ih =>
    obtain ⟨mask, fl1, k1, ⟨force0, force, hmask⟩, hrest, hstep⟩ :=
      populate_loop_cons_ok bits_per_long plat alloc e rest fl fl2 irq k h
    simp only [List.map_cons, List.nodup_cons] at hnodup
    cases i with
    | zero =>
      obtain ⟨fc, hfc, hm⟩ := populate_step_get fl fl1 _ mask hstep
      refine ⟨fc, ?_, ?_⟩
      · simp only [List.get_eq_getElem, List.getElem_cons_zero]
        rw [populate_loop_frame bits_per_long plat alloc rest fl1 fl2 _ k1 _ hrest hnodup.1]
        exact hfc
      · intro b
        rw [hm, irq_mask_loop_testBit bits_per_long _ irq 0 mask force0 force hmask b,
          irq_offset_zero]
        simp
    | succ j =>
      have hj : j < rest.length := by simpa using hi
      obtain ⟨fc, hfc, hbits⟩ := ih fl1 (irq + e.pdt.interrupt_source_count) k1 hrest hnodup.2 j hj
      refine ⟨fc, by simpa using hfc, ?_⟩
      intro b
      rw [hbits b, irq_offset_succ]
      simp only [List.get_eq_getElem, List.getElem_cons_succ]
      omega

theorem erase_irq_mask_set_irq_mask (l : List rmi4_function_container) (x m : Nat)
    (f : rmi4_function_container)
    (h : rmi4_core_driver_get_function_container l x = some f) :
    (set_irq_mask l x m f.force_irq_disabled).map erase_irq_mask = l.map erase_irq_mask := by
  unfold rmi4_core_driver_get_function_container at h
  induction l with
  | nil => rfl
  | cons g l ih =>
    simp only [set_irq_mask]
    by_cases hg : g.function_id = x
    · simp [List.find?_cons, hg] at h
      subst h
      simp [hg, erase_irq_mask]
    · simp [List.find?_cons, hg] at h
      simp [hg, ih h]

/-- While the interrupt sources of the catalog fit in the mask word, populate
leaves every function object that existed before where it was, changing at most
its mask. -/
theorem populate_loop_keeps_count (bits_per_long : Nat) (plat : List rmi4_function_data)
    (alloc : Nat → Bool) (pdts : List rmi4_pdt_container)
    (fl fl2 : List rmi4_function_container) (irq k : Nat)
    (h : populate_loop bits_per_long plat alloc pdts fl irq k = .ok fl2)
    (hfit : irq + irq_offset pdts pdts.length ≤ bits_per_long) :
    ∃ t, fl2.map erase_irq_mask = fl.map erase_irq_mask ++ t := by
  induction pdts generalizing fl irq k with
  | nil =>
    simp [populate_loop] at h
    exact ⟨[], by simp [h]⟩
  | cons e rest ih =>
    rw [List.length_cons, irq_offset_succ] at hfit
    simp only [populate_loop] at h
    split at h
    · rename_i f hf
      split at h
      · simp at h
      · rename_i mask force hmask
        have hforce := irq_mask_loop_force bits_per_long _ irq 0 mask _ force hmask (by omega)
        rw [hforce] at h
        obtain ⟨t, ht⟩ := ih _ _ _ h (by omega)
        exact ⟨t, by rw [ht, erase_irq_mask_set_irq_mask fl _ mask f hf]⟩
    · split at h
      · simp [populate_fail] at h
      · split at h
        · simp at h
        · split at h
          · simp [populate_fail] at h
          · split at h
            · simp [populate_fail] at h
            · split at h
              · simp at h
              · split at h
                · simp at h
                · obtain ⟨t, ht⟩ := ih _ _ _ h (by omega)
                  rw [List.map_append, List.append_assoc] at ht
                  exact ⟨_, ht⟩

theorem irq_mask_loop_ok (bits_per_long count irq mask : Nat) (force : Int)
    (h : irq + count ≤ bits_per_long) :
    ∃ m, irq_mask_loop bits_per_long count irq mask force = some (m, force) := by
  induction count generalizing irq mask with
  | zero => exact ⟨mask, rfl⟩
  | succ n ih =>
    simp only [irq_mask_loop]
    rw [if_pos (by omega)]
    exact ih (irq + 1) _ (by omega)

theorem add_plat_data_ok (alloc : Nat → Bool) (halloc : ∀ k, alloc k = true)
    (plat : List rmi4_function_data) (c : rmi4_function_container) (k : Nat) :
    ∃ c1 k1, rmi4_core_driver_add_plat_data alloc plat c k = some (c1, k1) := by
  induction plat generalizing c k with
  | nil => exact ⟨c, k, rfl⟩
  | cons fd rest ih =>
    simp only [rmi4_core_driver_add_plat_data, halloc, if_true]
    split
    · exact ih _ _
    · exact ih _ _

/-- With no allocation failing and the interrupt sources of the catalog fitting
in the mask word, populate returns 0. -/
theorem populate_loop_ok (bits_per_long : Nat) (plat : List rmi4_function_data)
    (alloc : Nat → Bool) (halloc : ∀ k, alloc k = true) (pdts : List rmi4_pdt_container)
    (fl : List rmi4_function_container) (irq k : Nat)
    (hfit : irq + irq_offset pdts pdts.length ≤ bits_per_long) :
    ∃ fl2, populate_loop bits_per_long plat alloc pdts fl irq k = .ok fl2 := by
  induction pdts generalizing fl irq k with
  | nil => exact ⟨fl, rfl⟩
  | cons e rest ih =>
    rw [List.length_cons, irq_offset_succ] at hfit
    simp only [populate_loop, halloc]
    split
    · rename_i fc hfc
      obtain ⟨mask, hmask⟩ := irq_mask_loop_ok bits_per_long e.pdt.interrupt_source_count irq 0
        fc.force_irq_disabled (by omega)
      simp only [hmask]
      exact ih _ _ _ (by omega)
    · obtain ⟨c1, k1, hplat⟩ := add_plat_data_ok alloc halloc plat
        { function_id := e.pdt.function_number
          function_data :=
            [{ is_local := true
               data := { func_id := e.pdt.function_number
                         func_name := function_name e.pdt.function_number } }]
          is_registered := false
          irq_client_list := []
          irq_mask := 0
          force_irq_disabled := 0 } (k + 4)
      obtain ⟨mask, hmask⟩ := irq_mask_loop_ok bits_per_long e.pdt.interrupt_source_count irq 0
        c1.force_irq_disabled (by omega)
      simp only [Bool.not_true, Bool.false_eq_true, if_false, hplat, hmask]
      exact ih _ _ _ (by omega)

/-! ## The claims about the scan -/

/-- C1 as stated fails: on a device whose reads all succeed and whose pages each
hold entries with pairwise distinct function numbers followed by a terminator,
function 0x01 being an entry of page 0 and of page 1, `rmi4_read_pdt` returns 0
and the catalog lacks the entry of page 1 for function 0x01. -/
theorem rmi4_read_pdt_repeated_function :
    (∀ i, (dev_repeat i).retval = 6) ∧
    (∀ p ∈ List.range (RMI4_MAX_PAGE + 1),
      ((page_functions 0xE9 dev_repeat p).map (fun e => e.function_number)).Nodup ∧
      (page_functions 0xE9 dev_repeat p).length < (page_records 0xE9 dev_repeat p).length) ∧
    (directory 0xE9 dev_repeat).map (fun c => (c.pdt.function_number, c.bank))
      = [(0x01, 0), (0x34, 0), (0x01, 1), (0x54, 1)] ∧
    (rmi4_read_pdt 0xE9 alloc_always (some dev_repeat) drv_data_init).retval = 0 ∧
    (rmi4_read_pdt 0xE9 alloc_always (some dev_repeat) drv_data_init).data.pdt_list.map
      (fun c => (c.pdt.function_number, c.bank)) = [(0x01, 0), (0x34, 0), (0x54, 1)] := by
  refine ⟨?_, by decide!, by decide!, by decide!, by decide!⟩
  intro i
  unfold dev_repeat
  split_ifs <;> rfl

/-- C1, amended: on a device whose directory reads all succeed and whose entries
(the records that precede the terminator of each page) have pairwise distinct
function numbers over the whole device, with at least one entry overall and no
allocation failing, `rmi4_read_pdt` returns 0 and the catalog is exactly those
entries, in page order and then read order, each with the index of its page as
bank; nothing past a terminator is added and every page is scanned. -/
theorem rmi4_read_pdt_well_formed (start : Nat) (alloc : Nat → Bool)
    (read : Nat → read_result) (data : rmi4_core_drv_data)
    (halloc : ∀ k, alloc k = true) (hread : ∀ i, (read i).retval = (PDT_ENTRY_SIZE : Int))
    (hdistinct : ((directory start read).map (fun c => c.pdt.function_number)).Nodup)
    (hne : directory start read ≠ []) :
    (rmi4_read_pdt start alloc (some read) data).retval = 0 ∧
    (rmi4_read_pdt start alloc (some read) data).data.pdt_list = directory start read ∧
    ∀ c, c ∈ (rmi4_read_pdt start alloc (some read) data).data.pdt_list ↔
      c.bank ≤ RMI4_MAX_PAGE ∧ c.pdt ∈ page_functions start read c.bank := by
  have hret := rmi4_read_pdt_retval start alloc read data hread halloc
  rw [if_neg hne] at hret
  have hcat := (rmi4_read_pdt_success start alloc read data hret).1
  rw [catalog_keep_first_nil_of_nodup _ hdistinct] at hcat
  refine ⟨hret, hcat, ?_⟩
  intro c
  rw [hcat]
  simp only [directory, directory_of, List.mem_flatMap, List.mem_range, List.mem_map]
  constructor
  · rintro ⟨page, hp, e, he, rfl⟩
    exact ⟨by simp only [RMI4_MAX_PAGE] at hp ⊢; omega, he⟩
  · rintro ⟨hb, hc⟩
    exact ⟨c.bank, by simp only [RMI4_MAX_PAGE] at hb ⊢; omega, c.pdt, hc, rfl⟩

/-- C1 amended, on the example device with functions 0x01 and 0x34 on page 0. -/
theorem rmi4_read_pdt_well_formed_witness :
    (rmi4_read_pdt 0xE9 alloc_always (some dev_two) drv_data_init).retval = 0 ∧
    (rmi4_read_pdt 0xE9 alloc_always (some dev_two) drv_data_init).data.pdt_list
      = directory 0xE9 dev_two ∧
    ∀ c, c ∈ (rmi4_read_pdt 0xE9 alloc_always (some dev_two) drv_data_init).data.pdt_list ↔
      c.bank ≤ RMI4_MAX_PAGE ∧ c.pdt ∈ page_functions 0xE9 dev_two c.bank :=
  rmi4_read_pdt_well_formed 0xE9 alloc_always dev_two drv_data_init (fun _ => rfl)
    dev_two_reads_ok (by decide!) (by decide!)

/-- C2: whatever bytes the device returns, no two entries of the catalog left by
`rmi4_read_pdt` have the same function number; after a scan that returns 0 the
catalog is the device's entries with every record whose function number was
already present skipped, so each catalog entry is the first record (lowest page,
earliest read) with its function number. Without a read function the call
changes nothing. -/
theorem rmi4_read_pdt_unique (start : Nat) (alloc : Nat → Bool) (data : rmi4_core_drv_data) :
    (∀ read : Nat → read_result,
      ((rmi4_read_pdt start alloc (some read) data).data.pdt_list.map
        (fun c => c.pdt.function_number)).Nodup ∧
      ((rmi4_read_pdt start alloc (some read) data).retval = 0 →
        (rmi4_read_pdt start alloc (some read) data).data.pdt_list
          = catalog_keep_first [] (directory start read) ∧
        ∀ c ∈ (rmi4_read_pdt start alloc (some read) data).data.pdt_list,
          (directory start read).find?
            (fun e => e.pdt.function_number == c.pdt.function_number) = some c)) ∧
    (rmi4_read_pdt start alloc none data).data = data := by
  refine ⟨fun read => ⟨rmi4_read_pdt_nodup start alloc read data, fun h => ?_⟩, rfl⟩
  have hcat := (rmi4_read_pdt_success start alloc read data h).1
  refine ⟨hcat, ?_⟩
  intro c hc
  rw [hcat] at hc
  rcases catalog_keep_first_first [] _ c hc with h1 | h1
  · simp at h1
  · exact h1.2

/-- C2, on the example device with functions 0x01 and 0x34 on page 0. -/
theorem rmi4_read_pdt_unique_witness :
    ((rmi4_read_pdt 0xE9 alloc_always (some dev_two) drv_data_init).data.pdt_list.map
        (fun c => c.pdt.function_number)).Nodup ∧
    (rmi4_read_pdt 0xE9 alloc_always (some dev_two) drv_data_init).data.pdt_list
        = catalog_keep_first [] (directory 0xE9 dev_two) ∧
    ∀ c ∈ (rmi4_read_pdt 0xE9 alloc_always (some dev_two) drv_data_init).data.pdt_list,
      (directory 0xE9 dev_two).find?
        (fun e => e.pdt.function_number == c.pdt.function_number) = some c :=
  ⟨((rmi4_read_pdt_unique 0xE9 alloc_always drv_data_init).1 dev_two).1,
   ((rmi4_read_pdt_unique 0xE9 alloc_always drv_data_init).1 dev_two).2 (by decide!)⟩

/-- C3, counterexample: on a device that presents function 0x11 only the scan
returns 0 and the catalog has no entry for function 0x01. -/
theorem rmi4_read_pdt_without_f01 :
    (rmi4_read_pdt 0xE9 alloc_always (some dev_no_f01) drv_data_init).retval = 0 ∧
    (rmi4_core_driver_get_pdt_container
      (rmi4_read_pdt 0xE9 alloc_always (some dev_no_f01) drv_data_init).data.pdt_list
      F01_FUNCTION_ID).isSome = false := by
  decide!

/-- C3, amended: after a scan that returns 0 the catalog is not empty, and it
has an entry for function 0x01 exactly when some page of the device presents a
record with function number 0x01 before its terminator. -/
theorem rmi4_read_pdt_f01_iff (start : Nat) (alloc : Nat → Bool) (read : Nat → read_result)
    (data : rmi4_core_drv_data)
    (h : (rmi4_read_pdt start alloc (some read) data).retval = 0) :
    (rmi4_read_pdt start alloc (some read) data).data.pdt_list ≠ [] ∧
    ((rmi4_core_driver_get_pdt_container
        (rmi4_read_pdt start alloc (some read) data).data.pdt_list F01_FUNCTION_ID).isSome = true ↔
      ∃ page, page ≤ RMI4_MAX_PAGE ∧
        ∃ e ∈ page_functions start read page, e.function_number = F01_FUNCTION_ID) := by
  have hs := rmi4_read_pdt_success start alloc read data h
  refine ⟨hs.2.1, ?_⟩
  rw [get_pdt_container_isSome_iff, hs.1, catalog_keep_first_mem_fn]
  simp only [List.map_nil, List.not_mem_nil, false_or, directory, directory_of, List.mem_map,
    List.mem_flatMap, List.mem_range]
  constructor
  · rintro ⟨c, ⟨page, hp, e, he, rfl⟩, hc⟩
    exact ⟨page, by simp only [RMI4_MAX_PAGE] at hp ⊢; omega, e, he, hc⟩
  · rintro ⟨page, hp, e, he, hc⟩
    exact ⟨⟨page, e⟩, ⟨page, by simp only [RMI4_MAX_PAGE] at hp ⊢; omega, e, he, rfl⟩, hc⟩

/-- C3 amended, on the example device with functions 0x01 and 0x34 on page 0. -/
theorem rmi4_read_pdt_f01_iff_witness :
    (rmi4_read_pdt 0xE9 alloc_always (some dev_two) drv_data_init).data.pdt_list ≠ [] ∧
    ((rmi4_core_driver_get_pdt_container
        (rmi4_read_pdt 0xE9 alloc_always (some dev_two) drv_data_init).data.pdt_list
        F01_FUNCTION_ID).isSome = true ↔
      ∃ page, page ≤ RMI4_MAX_PAGE ∧
        ∃ e ∈ page_functions 0xE9 dev_two page, e.function_number = F01_FUNCTION_ID) :=
  rmi4_read_pdt_f01_iff 0xE9 alloc_always dev_two drv_data_init (by decide!)

/-- C4: if a directory read issued by `rmi4_read_pdt` returns anything but the
6-byte entry size, the scan stops at that read (it is the last read issued, all
reads before it succeeded), the call returns `-EINVAL` and the catalog is empty
afterwards. -/
theorem rmi4_read_pdt_short_read (start : Nat) (alloc : Nat → Bool)
    (read : Nat → read_result) (data : rmi4_core_drv_data) (a : Nat)
    (ha : a ∈ (rmi4_read_pdt start alloc (some read) data).reads)
    (hfail : (read a).retval ≠ (PDT_ENTRY_SIZE : Int)) :
    (rmi4_read_pdt start alloc (some read) data).retval = -EINVAL ∧
    (rmi4_read_pdt start alloc (some read) data).data.pdt_list = [] ∧
    ∃ pre, (rmi4_read_pdt start alloc (some read) data).reads = pre ++ [a] ∧
      ∀ b ∈ pre, (read b).retval = (PDT_ENTRY_SIZE : Int) :=
  rmi4_read_pdt_trace start alloc read data a ha hfail

/-- C4, on the example device whose page 1 cannot be read although page 0 holds
function 0x01. -/
theorem rmi4_read_pdt_short_read_witness :
    (0x1E9 ∈ (rmi4_read_pdt 0xE9 alloc_always (some dev_short_read) drv_data_init).reads ∧
      (dev_short_read 0x1E9).retval ≠ (PDT_ENTRY_SIZE : Int)) ∧
    (rmi4_read_pdt 0xE9 alloc_always (some dev_short_read) drv_data_init).retval = -EINVAL ∧
    (rmi4_read_pdt 0xE9 alloc_always (some dev_short_read) drv_data_init).data.pdt_list = [] ∧
    ∃ pre, (rmi4_read_pdt 0xE9 alloc_always (some dev_short_read) drv_data_init).reads
        = pre ++ [0x1E9] ∧
      ∀ b ∈ pre, (dev_short_read b).retval = (PDT_ENTRY_SIZE : Int) :=
  ⟨⟨by decide!, by decide!⟩,
   rmi4_read_pdt_short_read 0xE9 alloc_always dev_short_read drv_data_init 0x1E9
    (by decide!) (by decide!)⟩

/-- C6, failing input: a second scan of the same device (functions 0x01 with 2
and 0x34 with 1 interrupt source) over the state the first scan left returns 0
with the same catalog, whose interrupt sources sum to 3, yet
`num_supported_irqs` is 6: the counter is not reset when the catalog is. -/
theorem rmi4_read_pdt_rescan_counter :
    (rmi4_read_pdt 0xE9 alloc_always (some dev_two) drv_data_init).retval = 0 ∧
    (rmi4_read_pdt 0xE9 alloc_always (some dev_two) drv_data_init).data.num_supported_irqs = 3 ∧
    (rmi4_read_pdt 0xE9 alloc_always (some dev_two)
      (rmi4_read_pdt 0xE9 alloc_always (some dev_two) drv_data_init).data).retval = 0 ∧
    (rmi4_read_pdt 0xE9 alloc_always (some dev_two)
      (rmi4_read_pdt 0xE9 alloc_always (some dev_two) drv_data_init).data).data.pdt_list
      = (rmi4_read_pdt 0xE9 alloc_always (some dev_two) drv_data_init).data.pdt_list ∧
    irq_total (rmi4_read_pdt 0xE9 alloc_always (some dev_two)
      (rmi4_read_pdt 0xE9 alloc_always (some dev_two) drv_data_init).data).data.pdt_list = 3 ∧
    (rmi4_read_pdt 0xE9 alloc_always (some dev_two)
      (rmi4_read_pdt 0xE9 alloc_always (some dev_two) drv_data_init).data).data.num_supported_irqs
      = 6 := by
  decide!

/-- C7, failing input: on a first scan of a device with 7 + 7 + 3 = 17 interrupt
sources `num_supported_irqs` is 17 and `irq_read_len` is 17 / 9 + 1 = 2, whereas
17 bits need 3 bytes. -/
theorem rmi4_read_pdt_irq_read_len_seventeen :
    (rmi4_read_pdt 0xE9 alloc_always (some dev_seventeen) drv_data_init).retval = 0 ∧
    (rmi4_read_pdt 0xE9 alloc_always (some dev_seventeen) drv_data_init).data.num_supported_irqs
      = 17 ∧
    (rmi4_read_pdt 0xE9 alloc_always (some dev_seventeen) drv_data_init).data.irq_read_len = 2 ∧
    irq_bytes_needed
      (rmi4_read_pdt 0xE9 alloc_always (some dev_seventeen) drv_data_init).data.num_supported_irqs
      = 3 := by
  decide!

/-! ## The claims about the registry population -/

/-- C8, evaluated: for the catalog of five functions with 7 interrupt sources
each (35 sources) and the 32-bit `unsigned long` of the target, populate returns 0;
the function object of the last entry (function 0x34, `s_4 = 28`) has the mask
`0xF0000000`, without the bits 32 to 34, and the force-disable count 7, where the
three bits went. On the catalog `[{0x01, 2}, {0x34, 1}]` the masks are `0b011`
and `0b100`. -/
theorem populate_mask_overflow :
    (match rmi4_core_driver_populate_functiondata 32 [] alloc_always drv_data_thirty_five with
      | .ok fl => some (fl.map (fun fc => (fc.function_id, fc.irq_mask, fc.force_irq_disabled)))
      | _ => none)
      = some [(0x01, 0x7F, 0), (0x11, 0x3F80, 0), (0x12, 0x1FC000, 0), (0x13, 0xFE00000, 0),
          (0x34, 0xF0000000, 7)] ∧
    irq_offset catalog_thirty_five 4 = 28 ∧
    (catalog_thirty_five.map (fun c => c.pdt.interrupt_source_count)) = [7, 7, 7, 7, 7] ∧
    (0xF0000000 : Nat).testBit 32 = false ∧
    rmi4_core_driver_populate_functiondata 32 [] alloc_always drv_data_two = .ok registry_two ∧
    registry_two.map (fun fc => (fc.function_id, fc.irq_mask)) = [(0x01, 0b011), (0x34, 0b100)] := by
  decide!

/-- C9, evaluated: with the functions 0x01 and 0x34 in the registry, each with a
subscriber and force-disable count 0, populate of the catalog with 35 interrupt
sources (function 0x34 last) returns 0 and leaves function 0x34 with the
force-disable count 7; its subscriber is kept. A second populate leaves the same
registry. -/
theorem populate_overflow_changes_count :
    registry_two_in_use.map (fun fc => (fc.function_id, fc.force_irq_disabled))
      = [(0x01, 0), (0x34, 0)] ∧
    (match rmi4_core_driver_populate_functiondata 32 [] alloc_always
        drv_data_thirty_five_in_use with
      | .ok fl => some (fl.map (fun fc =>
          (fc.function_id, fc.irq_client_list.length, fc.irq_mask, fc.force_irq_disabled)))
      | _ => none)
      = some [(0x01, 1, 0x7F, 0), (0x34, 1, 0xF0000000, 7), (0x11, 0, 0x3F80, 0),
          (0x12, 0, 0x1FC000, 0), (0x13, 0, 0xFE00000, 0)] ∧
    (match rmi4_core_driver_populate_functiondata 32 [] alloc_always
        drv_data_thirty_five_in_use with
      | .ok fl => some (decide (rmi4_core_driver_populate_functiondata 32 [] alloc_always
          { drv_data_thirty_five_in_use with function_list := fl } = .ok fl))
      | _ => none) = some true := by
  decide!

/-- C10, failing input: with function 0x34 in the registry, subscribed to, and a
catalog that adds function 0x01, a failure of the first allocation makes populate
return `-ENOMEM` with the registry empty, function 0x34 and its subscriber
included (the leak warning fires for it); a failure of the second allocation
makes it write through an error pointer instead of returning. -/
theorem populate_enomem_clears_registry :
    rmi4_core_driver_populate_functiondata 32 [] (alloc_fail_at 0) drv_data_in_use
      = .enomem [] [0x34] ∧
    (rmi4_core_driver_populate_functiondata 32 [] (alloc_fail_at 0) drv_data_in_use).retval
      = some (-ENOMEM) ∧
    (rmi4_core_driver_get_function_container drv_data_in_use.function_list 0x34).map
      (fun f => f.irq_client_list) = some [{ func := 0xC0DE, func_data := 0xDA7A }] ∧
    rmi4_core_driver_populate_functiondata 32 [] (alloc_fail_at 1) drv_data_in_use
      = .invalid_access := by
  decide!

/-! ## Properties of register access and interrupt switching -/

theorem byte_or_and_self (d m : Nat) : (d ||| m) &&& m = m := by
  apply Nat.eq_of_testBit_eq
  intro i
  simp only [Nat.testBit_and, Nat.testBit_or]
  cases d.testBit i <;> cases m.testBit i <;> rfl

theorem testBit_byte_not (m : Nat) (hm : m < 256) (i : Nat) :
    (255 - m).testBit i = (decide (i < 8) && !m.testBit i) := by
  have h := Nat.testBit_two_pow_sub_succ (n := 8) (x := m) (by simpa using hm) i
  have e : 2 ^ 8 - (m + 1) = 255 - m := by omega
  rw [e] at h
  exact h

theorem byte_and_not_and_self (d m : Nat) (hm : m < 256) : (d &&& (255 - m)) &&& m = 0 := by
  apply Nat.eq_of_testBit_eq
  intro i
  simp only [Nat.testBit_and, testBit_byte_not m hm, Nat.zero_testBit]
  cases d.testBit i <;> cases m.testBit i <;> simp

theorem irq_enable_byte_lt (enable : Bool) (data mask : Nat) :
    irq_enable_byte enable data mask < 256 := by
  unfold irq_enable_byte
  have hd : data % 256 < 2 ^ 8 := Nat.mod_lt _ (by norm_num)
  have hm : mask % 256 < 2 ^ 8 := Nat.mod_lt _ (by norm_num)
  split
  · exact Nat.or_lt_two_pow hd hm
  · exact lt_of_le_of_lt Nat.and_le_left hd

theorem memory_device_read_one (mem : Nat → Nat) (addr : Nat) :
    memory_device.read mem addr 1 = (1, [mem addr % 256], mem) := rfl

theorem memory_device_write_one (mem : Nat → Nat) (addr b : Nat) :
    memory_device.write mem addr [b] 1 = (1, mem_set mem addr (b % 256)) := by
  have h : (fun a => if addr ≤ a ∧ a < addr + (1 : Int).toNat then [b].getD (a - addr) 0 % 256
      else mem a) = mem_set mem addr (b % 256) := by
    funext a
    unfold mem_set
    by_cases ha : a = addr
    · subst ha
      simp
    · have : ¬ (addr ≤ a ∧ a < addr + 1) := by omega
      simp [ha, this]
  simp only [memory_device, h]

/-- On the memory device, with function 0x01 in the catalog, switching the
interrupt state of a function succeeds with one read and one write of the enable
register, which gets the byte with the low byte of the mask switched. -/
theorem set_irq_state_memory (pdt_list : List rmi4_pdt_container) (e : rmi4_pdt_container)
    (fc : rmi4_function_container) (enable : Bool) (hw : hw_state (Nat → Nat))
    (he : rmi4_core_driver_get_pdt_container pdt_list F01_FUNCTION_ID = some e) :
    rmi4_core_driver_set_irq_state memory_device pdt_list fc enable hw =
      (0, { st := mem_set hw.st (irq_enable_addr e)
              (irq_enable_byte enable (hw.st (irq_enable_addr e)) fc.irq_mask)
            calls := hw.calls ++
              [.read (irq_enable_addr e) 1,
               .write (irq_enable_addr e)
                [irq_enable_byte enable (hw.st (irq_enable_addr e)) fc.irq_mask] 1] }) := by
  have hlt := irq_enable_byte_lt enable (hw.st (irq_enable_addr e)) fc.irq_mask
  have hb : (if enable = true then hw.st (irq_enable_addr e) % 256 % 256 ||| fc.irq_mask % 256
      else hw.st (irq_enable_addr e) % 256 % 256 &&& (255 - fc.irq_mask % 256))
      = irq_enable_byte enable (hw.st (irq_enable_addr e)) fc.irq_mask := by
    simp [irq_enable_byte]
  unfold rmi4_core_driver_set_irq_state
  simp only [he]
  show (if (memory_device.read hw.st (irq_enable_addr e) 1).1 < 0 then _ else _) = _
  simp only [memory_device_read_one, List.headD_cons, hb, memory_device_write_one,
    Nat.mod_eq_of_lt hlt]
  simp
  refine ⟨?_, rfl, rfl⟩
  simp only [irq_enable_addr, irq_enable_byte] at hlt ⊢
  rw [Nat.mod_eq_of_lt hlt]

theorem update_function_container_get_same
    (g : rmi4_function_container → rmi4_function_container)
    (hg : ∀ f, (g f).function_id = f.function_id)
    (l : List rmi4_function_container) (x : Nat) :
    rmi4_core_driver_get_function_container (update_function_container g l x) x
      = (rmi4_core_driver_get_function_container l x).map g := by
  unfold rmi4_core_driver_get_function_container
  induction l with
  | nil => rfl
  | cons f l ih =>
    by_cases hf : f.function_id = x
    · simp [update_function_container, List.find?_cons, hf, hg]
    · simp [update_function_container, List.find?_cons, hf, ih]

theorem update_function_container_get_ne
    (g : rmi4_function_container → rmi4_function_container)
    (hg : ∀ f, (g f).function_id = f.function_id)
    (l : List rmi4_function_container) (x y : Nat) (hxy : x ≠ y) :
    rmi4_core_driver_get_function_container (update_function_container g l x) y
      = rmi4_core_driver_get_function_container l y := by
  unfold rmi4_core_driver_get_function_container
  induction l with
  | nil => rfl
  | cons f l ih =>
    by_cases hf : f.function_id = x
    · have hy : ¬ f.function_id = y := fun e => hxy (hf.symm.trans e)
      have hy2 : ¬ (g f).function_id = y := by rw [hg]; exact hy
      simp [update_function_container, List.find?_cons, hf, hy, hy2, hxy]
    · by_cases hy : f.function_id = y
      · simp [update_function_container, List.find?_cons, hf, hy, Ne.symm hxy]
      · simp [update_function_container, List.find?_cons, hf, hy, ih]

theorem update_clients_get (h : List rmi4_irq_client → List rmi4_irq_client)
    (l : List rmi4_function_container) (x : Nat) :
    rmi4_core_driver_get_function_container
        (update_function_container (fun g => { g with irq_client_list := h g.irq_client_list })
          l x) x
      = (rmi4_core_driver_get_function_container l x).map
          (fun g => { g with irq_client_list := h g.irq_client_list }) :=
  update_function_container_get_same
    (fun g => { g with irq_client_list := h g.irq_client_list }) (fun _ => rfl) l x

theorem free_irq_loop_eq_filter (data : Nat) (l : List rmi4_irq_client) :
    free_irq_loop data l = l.filter (fun c => c.func_data != data) := by
  induction l with
  | nil => rfl
  | cons c l ih =>
    by_cases hc : c.func_data = data
    · simp [free_irq_loop, hc, ih]
    · simp [free_irq_loop, hc, ih]

theorem request_irq_first {σ : Type} (dev : register_device σ)
    (pdt_list : List rmi4_pdt_container) (fl : List rmi4_function_container)
    (f data fn : Nat) (hw : hw_state σ) (fc : rmi4_function_container)
    (hf : rmi4_core_driver_get_function_container fl f = some fc)
    (hempty : fc.irq_client_list = []) :
    rmi4_core_driver_request_irq dev true pdt_list fl f data fn hw
      = if (rmi4_core_driver_set_irq_state dev pdt_list fc true hw).1 ≠ 0 then
          { retval := (rmi4_core_driver_set_irq_state dev pdt_list fc true hw).1
            function_list := fl
            hw := (rmi4_core_driver_set_irq_state dev pdt_list fc true hw).2 }
        else
          { retval := 0
            function_list := update_function_container
              (fun g => { g with irq_client_list :=
                            g.irq_client_list ++ [{ func := fn, func_data := data }] }) fl f
            hw := (rmi4_core_driver_set_irq_state dev pdt_list fc true hw).2 } := by
  simp [rmi4_core_driver_request_irq, hf, hempty]

theorem request_irq_more {σ : Type} (dev : register_device σ)
    (pdt_list : List rmi4_pdt_container) (fl : List rmi4_function_container)
    (f data fn : Nat) (hw : hw_state σ) (fc : rmi4_function_container)
    (hf : rmi4_core_driver_get_function_container fl f = some fc)
    (hne : fc.irq_client_list ≠ []) :
    rmi4_core_driver_request_irq dev true pdt_list fl f data fn hw
      = { retval := 0
          function_list := update_function_container
            (fun g => { g with irq_client_list :=
                          g.irq_client_list ++ [{ func := fn, func_data := data }] }) fl f
          hw := hw } := by
  simp [rmi4_core_driver_request_irq, hf, hne]

theorem free_irq_found {σ : Type} (dev : register_device σ)
    (pdt_list : List rmi4_pdt_container) (fl : List rmi4_function_container)
    (f data : Nat) (hw : hw_state σ) (fc : rmi4_function_container)
    (hf : rmi4_core_driver_get_function_container fl f = some fc)
    (hne : fc.irq_client_list ≠ []) :
    rmi4_core_driver_free_irq dev pdt_list fl f data hw
      = if fc.irq_client_list.filter (fun c => c.func_data != data) = [] then
          { retval := (rmi4_core_driver_set_irq_state dev pdt_list
              { fc with irq_client_list := [] } false hw).1
            function_list := update_function_container
              (fun g => { g with irq_client_list :=
                            g.irq_client_list.filter (fun c => c.func_data != data) }) fl f
            hw := (rmi4_core_driver_set_irq_state dev pdt_list
              { fc with irq_client_list := [] } false hw).2 }
        else
          { retval := 0
            function_list := update_function_container
              (fun g => { g with irq_client_list :=
                            g.irq_client_list.filter (fun c => c.func_data != data) }) fl f
            hw := hw } := by
  simp only [rmi4_core_driver_free_irq, hf, free_irq_loop_eq_filter]
  by_cases hfil : fc.irq_client_list.filter (fun c => c.func_data != data) = []
  · simp [hne, hfil]
  · simp [hne, hfil]

/-- A first `request_irq` on the memory device, with function 0x01 in the
catalog: the bits of the function are switched on and the subscriber is added. -/
theorem request_irq_memory_first (pdt_list : List rmi4_pdt_container) (e : rmi4_pdt_container)
    (fl : List rmi4_function_container) (f data fn : Nat) (hw : hw_state (Nat → Nat))
    (fc : rmi4_function_container)
    (he : rmi4_core_driver_get_pdt_container pdt_list F01_FUNCTION_ID = some e)
    (hf : rmi4_core_driver_get_function_container fl f = some fc)
    (hempty : fc.irq_client_list = []) :
    rmi4_core_driver_request_irq memory_device true pdt_list fl f data fn hw
      = { retval := 0
          function_list := update_function_container
            (fun g => { g with irq_client_list :=
                          g.irq_client_list ++ [{ func := fn, func_data := data }] }) fl f
          hw := { st := mem_set hw.st (irq_enable_addr e)
                    (irq_enable_byte true (hw.st (irq_enable_addr e)) fc.irq_mask)
                  calls := hw.calls ++
                    [.read (irq_enable_addr e) 1,
                     .write (irq_enable_addr e)
                      [irq_enable_byte true (hw.st (irq_enable_addr e)) fc.irq_mask] 1] } } := by
  rw [request_irq_first memory_device pdt_list fl f data fn hw fc hf hempty,
    set_irq_state_memory pdt_list e fc true hw he]
  simp

/-- The registry the pass leaves does not depend on the hardware: every function
object gets its count updated, nothing else changes. -/
theorem non_essential_loop_counts {σ : Type} (dev : register_device σ)
    (pdt_list : List rmi4_pdt_container) (disable : Bool)
    (fl : List rmi4_function_container) (err : Int) (hw : hw_state σ)
    (hnn : ∀ g ∈ fl, 0 ≤ g.force_irq_disabled) :
    (non_essential_loop dev pdt_list disable fl err hw).1
      = fl.map (force_count_update disable) := by
  induction fl generalizing err hw with
  | nil => rfl
  | cons fc rest ih =>
    have hrest : ∀ g ∈ rest, 0 ≤ g.force_irq_disabled :=
      fun g hg => hnn g (List.mem_cons_of_mem _ hg)
    have hfc := hnn fc (List.mem_cons_self _ _)
    simp only [non_essential_loop, List.map_cons, force_count_update]
    split
    · simp only [ih _ _ hrest]
    · split
      · simp only [ih _ _ hrest]
      · split
        · rename_i hz
          have : ¬ 0 < fc.force_irq_disabled := by omega
          simp only [ih _ _ hrest, this, if_false]
        · rename_i hz
          have : 0 < fc.force_irq_disabled := by omega
          simp only [ih _ _ hrest, this, if_true]

theorem force_count_update_nonneg (disable : Bool) (fl : List rmi4_function_container)
    (hnn : ∀ g ∈ fl, 0 ≤ g.force_irq_disabled) :
    ∀ g ∈ fl.map (force_count_update disable), 0 ≤ g.force_irq_disabled := by
  intro g hg
  obtain ⟨g0, hg0, rfl⟩ := List.mem_map.1 hg
  have := hnn g0 hg0
  unfold force_count_update
  split
  · exact this
  · split
    · simp only
      omega
    · split
      · simp only
        omega
      · exact this

/-- A pass in which no function object switches makes no hardware access and
keeps the error value. -/
theorem non_essential_loop_quiet {σ : Type} (dev : register_device σ)
    (pdt_list : List rmi4_pdt_container) (disable : Bool)
    (fl : List rmi4_function_container) (err : Int) (hw : hw_state σ)
    (hq : ∀ g ∈ fl, ¬ switches_irq disable g) :
    (non_essential_loop dev pdt_list disable fl err hw).2 = (err, hw) := by
  induction fl generalizing err hw with
  | nil => rfl
  | cons fc rest ih =>
    have hrest : ∀ g ∈ rest, ¬ switches_irq disable g :=
      fun g hg => hq g (List.mem_cons_of_mem _ hg)
    have hfc := hq fc (List.mem_cons_self _ _)
    simp only [non_essential_loop]
    split
    · exact ih _ _ hrest
    · rename_i hess
      have hess2 : is_essential fc.function_id = false := by simpa using hess
      split
      · rename_i hd
        have hnot : ¬ (fc.force_irq_disabled = 0 ∧ ¬ fc.irq_client_list.isEmpty = true) := by
          rintro ⟨h0, hl⟩
          exact hfc ⟨hess2, by simpa using hl, by simp [hd, h0]⟩
        simp only [hnot, if_false]
        exact ih _ _ hrest
      · rename_i hd
        split
        · exact ih _ _ hrest
        · have hnot : ¬ (fc.force_irq_disabled = 1 ∧ ¬ fc.irq_client_list.isEmpty = true) := by
            rintro ⟨h0, hl⟩
            exact hfc ⟨hess2, by simpa using hl, by simp [hd, h0]⟩
          simp only [hnot, if_false]
          exact ih _ _ hrest

/-- The hardware accesses and the error value of the pass are those of the pass
over the registry without its essential functions. -/
theorem non_essential_loop_filter {σ : Type} (dev : register_device σ)
    (pdt_list : List rmi4_pdt_container) (disable : Bool)
    (fl : List rmi4_function_container) (err : Int) (hw : hw_state σ) :
    (non_essential_loop dev pdt_list disable fl err hw).2
      = (non_essential_loop dev pdt_list disable
          (fl.filter (fun fc => !is_essential fc.function_id)) err hw).2 := by
  induction fl generalizing err hw with
  | nil => rfl
  | cons fc rest ih =>
    by_cases hess : is_essential fc.function_id = true
    · simp only [non_essential_loop, hess, if_true, List.filter_cons, Bool.not_true,
        Bool.false_eq_true, if_false]
      exact ih _ _
    · have hess2 : is_essential fc.function_id = false := by simpa using hess
      simp only [non_essential_loop, hess2, Bool.false_eq_true, if_false, List.filter_cons,
        Bool.not_false, if_true]
      split
      · exact ih _ _
      · split
        · exact ih _ _
        · exact ih _ _

theorem non_essential_loop_append {σ : Type} (dev : register_device σ)
    (pdt_list : List rmi4_pdt_container) (disable : Bool)
    (l1 l2 : List rmi4_function_container) (err : Int) (hw : hw_state σ) :
    (non_essential_loop dev pdt_list disable (l1 ++ l2) err hw).2
      = (non_essential_loop dev pdt_list disable l2
          (non_essential_loop dev pdt_list disable l1 err hw).2.1
          (non_essential_loop dev pdt_list disable l1 err hw).2.2).2 := by
  induction l1 generalizing err hw with
  | nil => rfl
  | cons fc rest ih =>
    simp only [List.cons_append, non_essential_loop]
    split
    · exact ih _ _
    · split
      · exact ih _ _
      · split
        · exact ih _ _
        · exact ih _ _

theorem byte_and_keeps_clear (x y m : Nat) (h : x &&& m = 0) :
    (x % 256 &&& y) &&& m = 0 := by
  apply Nat.eq_of_testBit_eq
  intro i
  have hi := congrArg (fun z => z.testBit i) h
  simp only [Nat.testBit_and, Nat.zero_testBit] at hi
  have e : (256 : Nat) = 2 ^ 8 := by norm_num
  rw [e]
  simp only [Nat.testBit_and, Nat.testBit_mod_two_pow, Nat.zero_testBit]
  cases hx : x.testBit i <;> cases hm : m.testBit i <;> simp_all

theorem byte_or_keeps_set (x y m : Nat) (hm : m < 256) (h : x &&& m = m) :
    (x % 256 ||| y) &&& m = m := by
  apply Nat.eq_of_testBit_eq
  intro i
  have hi := congrArg (fun z => z.testBit i) h
  simp only [Nat.testBit_and] at hi
  have e : (256 : Nat) = 2 ^ 8 := by norm_num
  rw [e]
  simp only [Nat.testBit_and, Nat.testBit_or, Nat.testBit_mod_two_pow]
  by_cases h8 : i < 8
  · cases hx : x.testBit i <;> cases hmi : m.testBit i <;> simp_all
  · have hlt : m < 2 ^ i :=
      lt_of_lt_of_le hm (by
        have : (2:Nat) ^ 8 ≤ 2 ^ i := Nat.pow_le_pow_right (by norm_num) (by omega)
        simpa using this)
    have hmi : m.testBit i = false := Nat.testBit_lt_two_pow hlt
    simp [hmi]

/-- A disable pass leaves cleared bits of the enable register cleared. -/
theorem non_essential_disable_keeps_clear (pdt_list : List rmi4_pdt_container)
    (e : rmi4_pdt_container)
    (he : rmi4_core_driver_get_pdt_container pdt_list F01_FUNCTION_ID = some e) (m : Nat)
    (fl : List rmi4_function_container) (err : Int) (hw : hw_state (Nat → Nat))
    (h : hw.st (irq_enable_addr e) &&& m = 0) :
    (non_essential_loop memory_device pdt_list true fl err hw).2.2.st (irq_enable_addr e)
      &&& m = 0 := by
  induction fl generalizing err hw with
  | nil => exact h
  | cons fc rest ih =>
    simp only [non_essential_loop, if_true]
    split
    · exact ih _ _ h
    · split
      · apply ih
        simp only [set_irq_state_memory pdt_list e fc _ hw he, mem_set, if_true, irq_enable_byte,
          Bool.not_true, Bool.false_eq_true, if_false]
        exact byte_and_keeps_clear _ _ _ h
      · exact ih _ _ h

/-- An enable pass leaves set bits of the enable register set. -/
theorem non_essential_enable_keeps_set (pdt_list : List rmi4_pdt_container)
    (e : rmi4_pdt_container)
    (he : rmi4_core_driver_get_pdt_container pdt_list F01_FUNCTION_ID = some e) (m : Nat)
    (hm : m < 256)
    (fl : List rmi4_function_container) (err : Int) (hw : hw_state (Nat → Nat))
    (h : hw.st (irq_enable_addr e) &&& m = m) :
    (non_essential_loop memory_device pdt_list false fl err hw).2.2.st (irq_enable_addr e)
      &&& m = m := by
  induction fl generalizing err hw with
  | nil => exact h
  | cons fc rest ih =>
    simp only [non_essential_loop, Bool.false_eq_true, if_false]
    split
    · exact ih _ _ h
    · split
      · exact ih _ _ h
      · split
        · apply ih
          simp only [set_irq_state_memory pdt_list e fc _ hw he, mem_set, if_true,
            irq_enable_byte, Bool.not_false]
          exact byte_or_keeps_set _ _ _ hm h
        · exact ih _ _ h

/-- A disable pass clears the bits of a function that switches. -/
theorem non_essential_disable_clears (pdt_list : List rmi4_pdt_container)
    (e : rmi4_pdt_container)
    (he : rmi4_core_driver_get_pdt_container pdt_list F01_FUNCTION_ID = some e)
    (pre post : List rmi4_function_container) (f : rmi4_function_container)
    (err : Int) (hw : hw_state (Nat → Nat)) (hsw : switches_irq true f) :
    (non_essential_loop memory_device pdt_list true (pre ++ f :: post) err hw).2.2.st
      (irq_enable_addr e) &&& (f.irq_mask % 256) = 0 := by
  obtain ⟨hess, hsub, hcount⟩ := hsw
  have hcond : f.force_irq_disabled = 0 ∧ ¬ f.irq_client_list.isEmpty = true :=
    ⟨by simpa using hcount, by simpa using hsub⟩
  rw [non_essential_loop_append]
  simp only [non_essential_loop, hess, Bool.false_eq_true, if_false, if_true, hcond, and_self,
    not_false_eq_true]
  apply non_essential_disable_keeps_clear pdt_list e he
  simp only [set_irq_state_memory pdt_list e f _ _ he, mem_set, if_true, irq_enable_byte,
    Bool.not_true, Bool.false_eq_true, if_false]
  exact byte_and_not_and_self _ _ (Nat.mod_lt _ (by norm_num))

/-- An enable pass sets the bits of a function that switches. -/
theorem non_essential_enable_sets (pdt_list : List rmi4_pdt_container)
    (e : rmi4_pdt_container)
    (he : rmi4_core_driver_get_pdt_container pdt_list F01_FUNCTION_ID = some e)
    (pre post : List rmi4_function_container) (f : rmi4_function_container)
    (err : Int) (hw : hw_state (Nat → Nat)) (hsw : switches_irq false f) :
    (non_essential_loop memory_device pdt_list false (pre ++ f :: post) err hw).2.2.st
      (irq_enable_addr e) &&& (f.irq_mask % 256) = f.irq_mask % 256 := by
  obtain ⟨hess, hsub, hcount⟩ := hsw
  have hc1 : f.force_irq_disabled = 1 := by simpa using hcount
  have hcond : f.force_irq_disabled = 1 ∧ ¬ f.irq_client_list.isEmpty = true :=
    ⟨hc1, by simpa using hsub⟩
  have hne : ¬ f.force_irq_disabled = 0 := by omega
  rw [non_essential_loop_append]
  simp only [non_essential_loop, hess, Bool.false_eq_true, if_false, hne, hcond, and_self,
    not_false_eq_true, if_true]
  apply non_essential_enable_keeps_set pdt_list e he _ (Nat.mod_lt _ (by norm_num))
  simp only [set_irq_state_memory pdt_list e f _ _ he, mem_set, if_true, irq_enable_byte,
    Bool.not_false]
  exact byte_or_and_self _ _

theorem force_count_update_function_id (disable : Bool) (g : rmi4_function_container) :
    (force_count_update disable g).function_id = g.function_id := by
  unfold force_count_update
  split
  · rfl
  · split
    · rfl
    · split <;> rfl

theorem force_count_update_irq_client_list (disable : Bool) (g : rmi4_function_container) :
    (force_count_update disable g).irq_client_list = g.irq_client_list := by
  unfold force_count_update
  split
  · rfl
  · split
    · rfl
    · split <;> rfl

theorem force_count_update_irq_mask (disable : Bool) (g : rmi4_function_container) :
    (force_count_update disable g).irq_mask = g.irq_mask := by
  unfold force_count_update
  split
  · rfl
  · split
    · rfl
    · split <;> rfl

theorem force_count_update_essential (disable : Bool) (g : rmi4_function_container)
    (hess : is_essential g.function_id = true) : force_count_update disable g = g := by
  simp only [force_count_update, hess, if_true]

theorem force_count_update_disable (g : rmi4_function_container)
    (hess : is_essential g.function_id = false) :
    force_count_update true g = { g with force_irq_disabled := g.force_irq_disabled + 1 } := by
  simp only [force_count_update, hess, Bool.false_eq_true, if_false, if_true]

theorem force_count_update_enable (g : rmi4_function_container)
    (hess : is_essential g.function_id = false) (hpos : 0 < g.force_irq_disabled) :
    force_count_update false g = { g with force_irq_disabled := g.force_irq_disabled - 1 } := by
  simp only [force_count_update, hess, Bool.false_eq_true, if_false, hpos, if_true]

theorem force_count_update_enable_zero (g : rmi4_function_container)
    (hzero : g.force_irq_disabled = 0) : force_count_update false g = g := by
  simp only [force_count_update, hzero, Bool.false_eq_true, if_false, lt_self_iff_false,
    ite_self]

/-- After a disable pass over a registry with counts that are not negative, no
function object is at the transition of a further disable pass. -/
theorem no_switch_after_disable (fl : List rmi4_function_container)
    (hnn : ∀ g ∈ fl, 0 ≤ g.force_irq_disabled) :
    ∀ g ∈ fl.map (force_count_update true), ¬ switches_irq true g := by
  intro g hg hs
  obtain ⟨g0, hg0, rfl⟩ := List.mem_map.1 hg
  obtain ⟨hge, -, hgc⟩ := hs
  rw [force_count_update_function_id] at hge
  rw [force_count_update_disable g0 hge] at hgc
  have := hnn g0 hg0
  simp only [if_true] at hgc
  omega

/-- After two disable passes over a registry with counts that are not negative,
no function object is at the transition of an enable pass. -/
theorem no_switch_after_two_disables (fl : List rmi4_function_container)
    (hnn : ∀ g ∈ fl, 0 ≤ g.force_irq_disabled) :
    ∀ g ∈ (fl.map (force_count_update true)).map (force_count_update true),
      ¬ switches_irq false g := by
  intro g hg hs
  obtain ⟨g1, hg1, rfl⟩ := List.mem_map.1 hg
  obtain ⟨g0, hg0, rfl⟩ := List.mem_map.1 hg1
  obtain ⟨hge, -, hgc⟩ := hs
  rw [force_count_update_function_id, force_count_update_function_id] at hge
  have hge1 : is_essential (force_count_update true g0).function_id = false := by
    rw [force_count_update_function_id]
    exact hge
  rw [force_count_update_disable _ hge1, force_count_update_disable g0 hge] at hgc
  have := hnn g0 hg0
  simp only [Bool.false_eq_true, if_false] at hgc
  omega

theorem getElem?_append_cons_length {α : Type} (l1 l2 : List α) (a : α) (n : Nat)
    (hn : n = l1.length) : (l1 ++ a :: l2)[n]? = some a := by
  subst hn
  induction l1 with
  | nil => simp
  | cons b rest ih => simpa using ih

/-! ### The interrupt handler -/

theorem process_irq_loop_eq (function_id : Nat) (l : List rmi4_irq_client) :
    process_irq_loop function_id l
      = (l.filter (fun c => c.func != 0)).map
          (fun c => { func := c.func, fn_irq := function_id, data := c.func_data }) := by
  induction l with
  | nil => rfl
  | cons c rest ih =>
    by_cases hc : c.func = 0
    · simp [process_irq_loop, hc, ih]
    · simp [process_irq_loop, hc, ih]

theorem process_irq_eq (fc : rmi4_function_container) :
    rmi4_core_drv_process_irq fc
      = (fc.irq_client_list.filter (fun c => c.func != 0)).map
          (fun c => { func := c.func, fn_irq := fc.function_id, data := c.func_data }) := by
  unfold rmi4_core_drv_process_irq
  split
  · rename_i h
    rw [List.isEmpty_iff.1 h]
    rfl
  · exact process_irq_loop_eq _ _

theorem irq_handler_loop_eq (s : Nat) (fl : List rmi4_function_container) :
    irq_handler_loop s fl = expected_callbacks s fl := by
  induction fl with
  | nil => rfl
  | cons fc rest ih =>
    simp only [irq_handler_loop, expected_callbacks, List.flatMap_cons, process_irq_eq]
    rw [ih]
    split
    · rfl
    · rfl

/-! ### Registration of the functions -/

/-- The registration calls for one function object are an initial stretch of its
function data, not empty unless the data are, and all of them when the result is
0. -/
theorem register_function_list_loop_calls (reg : Nat → rmi4_function_data → Int)
    (l : List rmi4_function_data_container) (k : Nat) :
    (∃ t, l.map (fun d => bus_call.register_function d.data)
        = (register_function_list_loop reg true l k).2 ++ t) ∧
    (l ≠ [] → (register_function_list_loop reg true l k).2 ≠ []) ∧
    ((register_function_list_loop reg true l k).1 = 0 →
      (register_function_list_loop reg true l k).2
        = l.map (fun d => bus_call.register_function d.data)) := by
  induction l generalizing k with
  | nil => exact ⟨⟨[], rfl⟩, fun h => absurd rfl h, fun _ => rfl⟩
  | cons fdc rest ih =>
    simp only [register_function_list_loop, if_true]
    split
    · rename_i herr
      exact ⟨⟨rest.map (fun d : rmi4_function_data_container =>
          bus_call.register_function d.data), rfl⟩,
        fun _ => by simp, fun h => absurd h herr⟩
    · obtain ⟨⟨t, ht⟩, -, hall⟩ := ih (k + 1)
      refine ⟨⟨t, ?_⟩, fun _ => by simp, fun h => ?_⟩
      · simp only [List.map_cons, List.cons_append, ht]
      · simp only [List.map_cons, hall h]

theorem set_registered_of_registered (fc : rmi4_function_container)
    (h : fc.is_registered = true) : { fc with is_registered := true } = fc := by
  cases fc
  simp only at h
  simp [h]

theorem register_functions_loop_list (reg : Nat → rmi4_function_data → Int)
    (fl : List rmi4_function_container) (err : Int) (k : Nat) :
    (register_functions_loop reg fl err k).1
      = fl.map (fun fc => { fc with is_registered := true }) := by
  induction fl generalizing err k with
  | nil => rfl
  | cons fc rest ih =>
    simp only [register_functions_loop, List.map_cons]
    split
    · rename_i h
      simp only [ih, set_registered_of_registered fc h]
    · simp only [ih]

theorem register_functions_loop_attempts (reg : Nat → rmi4_function_data → Int)
    (fl : List rmi4_function_container) (err : Int) (k : Nat) :
    List.Forall₂
      (fun (a : Nat × List bus_call) (fc : rmi4_function_container) =>
        a.1 = fc.function_id ∧
        (∃ t, fc.function_data.map (fun d => bus_call.register_function d.data) = a.2 ++ t) ∧
        (fc.function_data ≠ [] → a.2 ≠ []))
      (register_functions_loop reg fl err k).2.2
      (fl.filter (fun fc => !fc.is_registered)) := by
  induction fl generalizing err k with
  | nil => exact List.Forall₂.nil
  | cons fc rest ih =>
    simp only [register_functions_loop, List.filter_cons]
    split
    · rename_i h
      simp only [h, Bool.not_true, Bool.false_eq_true, if_false]
      exact ih _ _
    · rename_i h
      have h2 : fc.is_registered = false := by simpa using h
      simp only [h2, Bool.not_false, if_true]
      have hc := register_function_list_loop_calls reg fc.function_data k
      exact List.Forall₂.cons ⟨rfl, hc.1, hc.2.1⟩ (ih _ _)

theorem register_functions_loop_registered (reg : Nat → rmi4_function_data → Int)
    (fl : List rmi4_function_container) (err : Int) (k : Nat)
    (h : ∀ fc ∈ fl, fc.is_registered = true) :
    register_functions_loop reg fl err k = (fl, err, []) := by
  induction fl generalizing err k with
  | nil => rfl
  | cons fc rest ih =>
    have hfc := h fc (List.mem_cons_self _ _)
    simp only [register_functions_loop, hfc, if_true,
      ih err k (fun g hg => h g (List.mem_cons_of_mem _ hg))]

theorem register_functions_registered (reg : Nat → rmi4_function_data → Int)
    (fl : List rmi4_function_container) (h : ∀ fc ∈ fl, fc.is_registered = true) :
    (rmi4_core_driver_register_functions reg fl).attempts = [] ∧
    (rmi4_core_driver_register_functions reg fl).function_list = fl := by
  unfold rmi4_core_driver_register_functions
  split
  · exact ⟨rfl, rfl⟩
  · simp only [register_functions_loop_registered reg fl 0 0 h, and_self]

/-! ### Reset: the re-scan and the masks after the populate -/

/-- A scan that fails leaves an empty catalog and the registry as it was. -/
theorem rmi4_read_pdt_failed (start : Nat) (alloc : Nat → Bool) (read : Nat → read_result)
    (data : rmi4_core_drv_data)
    (h : (rmi4_read_pdt start alloc (some read) data).retval ≠ 0) :
    (rmi4_read_pdt start alloc (some read) data).data.pdt_list = [] ∧
    (rmi4_read_pdt start alloc (some read) data).data.function_list = data.function_list := by
  have hcnt := pdt_pages_loop_counter start read alloc (List.range (RMI4_MAX_PAGE + 1))
    { data := rmi4_core_driver_clear_pdt_list data, allocs := 0, reads := [] }
  simp only [rmi4_read_pdt] at h ⊢
  rcases hloop : pdt_pages_loop start read alloc (List.range (RMI4_MAX_PAGE + 1))
    { data := rmi4_core_driver_clear_pdt_list data, allocs := 0, reads := [] } with ⟨s, ex⟩
  rw [hloop] at h hcnt
  cases ex with
  | some rv =>
    simp only [rmi4_core_driver_clear_pdt_list] at hcnt ⊢
    exact ⟨trivial, hcnt.2⟩
  | none =>
    simp only at h ⊢
    split at h
    · rename_i hemp
      rw [if_pos hemp]
      simp only [rmi4_core_driver_clear_pdt_list] at hcnt ⊢
      exact ⟨trivial, hcnt.2⟩
    · exact absurd rfl h

theorem irq_offset_mono (l : List rmi4_pdt_container) (i j : Nat) (hi : i < l.length)
    (hij : i < j) :
    irq_offset l i + (l.get ⟨i, hi⟩).pdt.interrupt_source_count ≤ irq_offset l j := by
  induction l generalizing i j with
  | nil => simp at hi
  | cons e rest ih =>
    cases j with
    | zero => omega
    | succ j1 =>
      cases i with
      | zero =>
        rw [irq_offset_zero, irq_offset_succ]
        simp only [List.get_eq_getElem, List.getElem_cons_zero]
        omega
      | succ i1 =>
        have hi1 : i1 < rest.length := by simpa using hi
        have := ih i1 j1 hi1 (by omega)
        rw [irq_offset_succ, irq_offset_succ]
        simp only [List.get_eq_getElem, List.getElem_cons_succ] at this ⊢
        omega

theorem irq_offset_le_total (l : List rmi4_pdt_container) (i : Nat) (hi : i < l.length) :
    irq_offset l i + (l.get ⟨i, hi⟩).pdt.interrupt_source_count ≤ irq_offset l l.length :=
  irq_offset_mono l i l.length hi hi

theorem populate_step_ids (fl fl1 : List rmi4_function_container) (fn mask : Nat)
    (h : populate_step fl fn mask fl1) :
    (fl1.map (fun f => f.function_id) = fl.map (fun f => f.function_id) ∧
        fn ∈ fl.map (fun f => f.function_id)) ∨
      (fl1.map (fun f => f.function_id) = fl.map (fun f => f.function_id) ++ [fn] ∧
        fn ∉ fl.map (fun f => f.function_id)) := by
  rcases h with ⟨hsome, force, rfl⟩ | ⟨hnone, fc, hid, -, -, rfl⟩
  · exact Or.inl ⟨set_irq_mask_ids _ _ _ _, (get_function_container_isSome_iff _ _).1 hsome⟩
  · refine Or.inr ⟨by simp [hid], ?_⟩
    intro hmem
    have := (get_function_container_isSome_iff _ _).2 hmem
    rw [hnone] at this
    exact Bool.false_ne_true this

/-- The ids of the registry a successful populate leaves: those it had, followed
by the function numbers of the catalog it did not have, each once, in catalog
order. -/
theorem populate_loop_ids (bits_per_long : Nat) (plat : List rmi4_function_data)
    (alloc : Nat → Bool) (pdts : List rmi4_pdt_container)
    (fl fl2 : List rmi4_function_container) (irq k : Nat)
    (h : populate_loop bits_per_long plat alloc pdts fl irq k = .ok fl2) :
    fl2.map (fun f => f.function_id)
      = pdts.foldl (fun ids c => if c.pdt.function_number ∈ ids then ids
          else ids ++ [c.pdt.function_number]) (fl.map (fun f => f.function_id)) := by
  induction pdts generalizing fl irq k with
  | nil =>
    simp only [populate_loop, populate_result.ok.injEq] at h
    subst h
    rfl
  | cons e rest ih =>
    obtain ⟨mask, fl1, k1, -, hrest, hstep⟩ :=
      populate_loop_cons_ok bits_per_long plat alloc e rest fl fl2 irq k h
    rw [ih fl1 _ k1 hrest, List.foldl_cons]
    rcases populate_step_ids fl fl1 _ mask hstep with ⟨hids, hmem⟩ | ⟨hids, hmem⟩
    · rw [hids, if_pos hmem]
    · rw [hids, if_neg hmem]

theorem foldl_ids_nodup (pdts : List rmi4_pdt_container) (ids : List Nat) (h : ids.Nodup) :
    (pdts.foldl (fun ids c => if c.pdt.function_number ∈ ids then ids
      else ids ++ [c.pdt.function_number]) ids).Nodup ∧
    ∀ x, x ∈ pdts.foldl (fun ids c => if c.pdt.function_number ∈ ids then ids
        else ids ++ [c.pdt.function_number]) ids ↔
      x ∈ ids ∨ x ∈ pdts.map (fun c => c.pdt.function_number) := by
  induction pdts generalizing ids with
  | nil => simp [h]
  | cons e rest ih =>
    simp only [List.foldl_cons, List.map_cons, List.mem_cons]
    by_cases hm : e.pdt.function_number ∈ ids
    · rw [if_pos hm]
      refine ⟨(ih ids h).1, fun x => ?_⟩
      rw [(ih ids h).2 x]
      constructor
      · rintro (hx | hx)
        · exact Or.inl hx
        · exact Or.inr (Or.inr hx)
      · rintro (hx | hx | hx)
        · exact Or.inl hx
        · exact Or.inl (hx ▸ hm)
        · exact Or.inr hx
    · rw [if_neg hm]
      have hnd : (ids ++ [e.pdt.function_number]).Nodup := by
        rw [List.nodup_append]
        refine ⟨h, List.nodup_singleton _, ?_⟩
        intro a ha hb
        simp only [List.mem_singleton] at hb
        exact hm (hb ▸ ha)
      refine ⟨(ih _ hnd).1, fun x => ?_⟩
      rw [(ih _ hnd).2 x]
      simp only [List.mem_append, List.mem_singleton]
      tauto

theorem populate_loop_ids_nodup (bits_per_long : Nat) (plat : List rmi4_function_data)
    (alloc : Nat → Bool) (pdts : List rmi4_pdt_container)
    (fl fl2 : List rmi4_function_container) (irq k : Nat)
    (h : populate_loop bits_per_long plat alloc pdts fl irq k = .ok fl2)
    (hids : (fl.map (fun f => f.function_id)).Nodup) :
    (fl2.map (fun f => f.function_id)).Nodup ∧
    ∀ x, x ∈ fl2.map (fun f => f.function_id) ↔
      x ∈ fl.map (fun f => f.function_id) ∨ x ∈ pdts.map (fun c => c.pdt.function_number) := by
  rw [populate_loop_ids bits_per_long plat alloc pdts fl fl2 irq k h]
  exact foldl_ids_nodup pdts _ hids

theorem get_function_container_of_mem (fl : List rmi4_function_container)
    (hids : (fl.map (fun f => f.function_id)).Nodup) (g : rmi4_function_container)
    (hg : g ∈ fl) : rmi4_core_driver_get_function_container fl g.function_id = some g := by
  unfold rmi4_core_driver_get_function_container
  induction fl with
  | nil => simp at hg
  | cons f rest ih =>
    simp only [List.map_cons, List.nodup_cons] at hids
    rcases List.mem_cons.1 hg with rfl | hmem
    · simp [List.find?_cons]
    · have hne : f.function_id ≠ g.function_id := by
        intro he
        exact hids.1 (he ▸ List.mem_map.2 ⟨g, hmem, rfl⟩)
      have hb : (f.function_id == g.function_id) = false := by simpa using hne
      simp only [List.find?_cons, hb]
      exact ih hids.2 hmem

/-- After a successful populate, in a registry without repeated ids and for a
catalog without repeated function numbers, two function objects with different
ids that are both in the catalog have no mask bit in common. -/
theorem populate_loop_disjoint (bits_per_long : Nat) (plat : List rmi4_function_data)
    (alloc : Nat → Bool) (pdts : List rmi4_pdt_container)
    (fl fl2 : List rmi4_function_container) (irq k : Nat)
    (h : populate_loop bits_per_long plat alloc pdts fl irq k = .ok fl2)
    (hnodup : (pdts.map (fun c => c.pdt.function_number)).Nodup)
    (hids : (fl.map (fun f => f.function_id)).Nodup)
    (g1 g2 : rmi4_function_container) (h1 : g1 ∈ fl2) (h2 : g2 ∈ fl2)
    (hne : g1.function_id ≠ g2.function_id)
    (hc1 : g1.function_id ∈ pdts.map (fun c => c.pdt.function_number))
    (hc2 : g2.function_id ∈ pdts.map (fun c => c.pdt.function_number)) :
    ∀ b, (g1.irq_mask.testBit b && g2.irq_mask.testBit b) = false := by
  have hids2 := (populate_loop_ids_nodup bits_per_long plat alloc pdts fl fl2 irq k h hids).1
  obtain ⟨c1, hc1m, hc1e⟩ := List.mem_map.1 hc1
  obtain ⟨c2, hc2m, hc2e⟩ := List.mem_map.1 hc2
  obtain ⟨⟨i, hi⟩, hgi⟩ := List.mem_iff_get.1 hc1m
  obtain ⟨⟨j, hj⟩, hgj⟩ := List.mem_iff_get.1 hc2m
  obtain ⟨f1, hf1, hb1⟩ := populate_loop_masks bits_per_long plat alloc pdts fl fl2 irq k h
    hnodup i hi
  obtain ⟨f2, hf2, hb2⟩ := populate_loop_masks bits_per_long plat alloc pdts fl fl2 irq k h
    hnodup j hj
  rw [hgi, hc1e, get_function_container_of_mem fl2 hids2 g1 h1] at hf1
  rw [hgj, hc2e, get_function_container_of_mem fl2 hids2 g2 h2] at hf2
  simp only [Option.some.injEq] at hf1 hf2
  subst hf1
  subst hf2
  have hij : i ≠ j := by
    intro e
    subst e
    rw [hgi] at hgj
    exact hne (by rw [← hc1e, ← hc2e, hgj])
  intro b
  cases hm1 : g1.irq_mask.testBit b
  · rfl
  · cases hm2 : g2.irq_mask.testBit b
    · rfl
    · exfalso
      have r1 := (hb1 b).1 hm1
      have r2 := (hb2 b).1 hm2
      rcases Nat.lt_or_gt_of_ne hij with hlt | hgt
      · have := irq_offset_mono pdts i j hi hlt
        omega
      · have := irq_offset_mono pdts j i hj hgt
        omega

/-! ### Reset: the interrupt enable register on the memory device -/

theorem byte_or_keeps_clear (x y m : Nat) (h : x &&& m = 0) (hy : y &&& m = 0) :
    (x % 256 ||| y) &&& m = 0 := by
  apply Nat.eq_of_testBit_eq
  intro i
  have hi := congrArg (fun z => z.testBit i) h
  have hyi := congrArg (fun z => z.testBit i) hy
  simp only [Nat.testBit_and, Nat.zero_testBit] at hi hyi
  have e : (256 : Nat) = 2 ^ 8 := by norm_num
  rw [e]
  simp only [Nat.testBit_and, Nat.testBit_or, Nat.testBit_mod_two_pow, Nat.zero_testBit]
  cases hx : x.testBit i <;> cases hm : m.testBit i <;> cases hyy : y.testBit i <;> simp_all

theorem byte_and_of_disjoint (a c : Nat)
    (h : ∀ b, (a.testBit b && c.testBit b) = false) : (a % 256) &&& (c % 256) = 0 := by
  apply Nat.eq_of_testBit_eq
  intro i
  have e : (256 : Nat) = 2 ^ 8 := by norm_num
  rw [e]
  simp only [Nat.testBit_and, Nat.testBit_mod_two_pow, Nat.zero_testBit]
  have := h i
  cases ha : a.testBit i <;> cases hc : c.testBit i <;> simp_all

theorem disable_all_irqs_loop_keeps_clear (pdt_list : List rmi4_pdt_container)
    (e : rmi4_pdt_container)
    (he : rmi4_core_driver_get_pdt_container pdt_list F01_FUNCTION_ID = some e) (m : Nat)
    (fl : List rmi4_function_container) (hw : hw_state (Nat → Nat))
    (h : hw.st (irq_enable_addr e) &&& m = 0) :
    (disable_all_irqs_loop memory_device pdt_list fl hw).st (irq_enable_addr e) &&& m = 0 := by
  induction fl generalizing hw with
  | nil => exact h
  | cons fc rest ih =>
    simp only [disable_all_irqs_loop]
    apply ih
    simp only [set_irq_state_memory pdt_list e fc _ hw he, mem_set, if_true, irq_enable_byte,
      Bool.false_eq_true, if_false]
    exact byte_and_keeps_clear _ _ _ h

/-- After the loop of `rmi4_core_disable_all_irqs` the bits of every function of
the registry are cleared in the enable register. -/
theorem disable_all_irqs_loop_clears (pdt_list : List rmi4_pdt_container)
    (e : rmi4_pdt_container)
    (he : rmi4_core_driver_get_pdt_container pdt_list F01_FUNCTION_ID = some e)
    (fl : List rmi4_function_container) (hw : hw_state (Nat → Nat))
    (g : rmi4_function_container) (hg : g ∈ fl) :
    (disable_all_irqs_loop memory_device pdt_list fl hw).st (irq_enable_addr e)
      &&& (g.irq_mask % 256) = 0 := by
  induction fl generalizing hw with
  | nil => simp at hg
  | cons fc rest ih =>
    simp only [disable_all_irqs_loop]
    rcases List.mem_cons.1 hg with rfl | hmem
    · apply disable_all_irqs_loop_keeps_clear pdt_list e he
      simp only [set_irq_state_memory pdt_list e g _ hw he, mem_set, if_true, irq_enable_byte,
        Bool.false_eq_true, if_false]
      exact byte_and_not_and_self _ _ (Nat.mod_lt _ (by norm_num))
    · exact ih _ hmem

theorem disable_all_irqs_memory_st (pdt_list : List rmi4_pdt_container)
    (e : rmi4_pdt_container)
    (he : rmi4_core_driver_get_pdt_container pdt_list F01_FUNCTION_ID = some e)
    (fl : List rmi4_function_container) (hw : hw_state (Nat → Nat)) :
    (rmi4_core_disable_all_irqs memory_device pdt_list fl hw).2.st
      = (disable_all_irqs_loop memory_device pdt_list fl hw).st := by
  simp only [rmi4_core_disable_all_irqs, he]
  rfl

theorem reset_enable_loop_keeps_set (pdt_list : List rmi4_pdt_container)
    (e : rmi4_pdt_container)
    (he : rmi4_core_driver_get_pdt_container pdt_list F01_FUNCTION_ID = some e) (m : Nat)
    (hm : m < 256) (fl : List rmi4_function_container) (hw : hw_state (Nat → Nat))
    (h : hw.st (irq_enable_addr e) &&& m = m) :
    (reset_enable_loop memory_device pdt_list fl hw).st (irq_enable_addr e) &&& m = m := by
  induction fl generalizing hw with
  | nil => exact h
  | cons fc rest ih =>
    simp only [reset_enable_loop]
    split
    · apply ih
      simp only [set_irq_state_memory pdt_list e fc _ hw he, mem_set, if_true, irq_enable_byte]
      exact byte_or_keeps_set _ _ _ hm h
    · exact ih _ h

/-- After the re-enabling loop of the reset the bits of every function with a
subscriber are set in the enable register. -/
theorem reset_enable_loop_sets (pdt_list : List rmi4_pdt_container)
    (e : rmi4_pdt_container)
    (he : rmi4_core_driver_get_pdt_container pdt_list F01_FUNCTION_ID = some e)
    (fl : List rmi4_function_container) (hw : hw_state (Nat → Nat))
    (g : rmi4_function_container) (hg : g ∈ fl) (hsub : g.irq_client_list ≠ []) :
    (reset_enable_loop memory_device pdt_list fl hw).st (irq_enable_addr e)
      &&& (g.irq_mask % 256) = g.irq_mask % 256 := by
  induction fl generalizing hw with
  | nil => simp at hg
  | cons fc rest ih =>
    simp only [reset_enable_loop]
    rcases List.mem_cons.1 hg with rfl | hmem
    · have hcond : ¬ g.irq_client_list.isEmpty = true := by simpa using hsub
      rw [if_pos hcond]
      apply reset_enable_loop_keeps_set pdt_list e he _ (Nat.mod_lt _ (by norm_num))
      simp only [set_irq_state_memory pdt_list e g _ hw he, mem_set, if_true, irq_enable_byte]
      exact byte_or_and_self _ _
    · split
      · exact ih _ hmem
      · exact ih _ hmem

/-- The re-enabling loop leaves cleared the bits that no function with a
subscriber has in its mask. -/
theorem reset_enable_loop_keeps_clear (pdt_list : List rmi4_pdt_container)
    (e : rmi4_pdt_container)
    (he : rmi4_core_driver_get_pdt_container pdt_list F01_FUNCTION_ID = some e) (m : Nat)
    (fl : List rmi4_function_container) (hw : hw_state (Nat → Nat))
    (h : hw.st (irq_enable_addr e) &&& m = 0)
    (hdis : ∀ g ∈ fl, g.irq_client_list ≠ [] → (g.irq_mask % 256) &&& m = 0) :
    (reset_enable_loop memory_device pdt_list fl hw).st (irq_enable_addr e) &&& m = 0 := by
  induction fl generalizing hw with
  | nil => exact h
  | cons fc rest ih =>
    have hrest : ∀ g ∈ rest, g.irq_client_list ≠ [] → (g.irq_mask % 256) &&& m = 0 :=
      fun g hg => hdis g (List.mem_cons_of_mem _ hg)
    simp only [reset_enable_loop]
    split
    · rename_i hcond
      have hsub : fc.irq_client_list ≠ [] := by simpa using hcond
      apply ih _ _ hrest
      simp only [set_irq_state_memory pdt_list e fc _ hw he, mem_set, if_true, irq_enable_byte]
      exact byte_or_keeps_clear _ _ _ h (hdis fc (List.mem_cons_self _ _) hsub)
    · exact ih _ h hrest

theorem register_functions_function_list (reg : Nat → rmi4_function_data → Int)
    (fl : List rmi4_function_container) :
    (rmi4_core_driver_register_functions reg fl).function_list
      = fl.map (fun fc => { fc with is_registered := true }) := by
  unfold rmi4_core_driver_register_functions
  split
  · rename_i h
    rw [List.isEmpty_iff.1 h]
    rfl
  · exact register_functions_loop_list reg fl 0 0

/-! ## The claims about register access -/

/-- C11: for a function present in the catalog, each of the four regions and
every offset, `rmi4_core_driver_read_data` and `rmi4_core_driver_write_data` make
exactly one accessor call each, both at the address
`(base + offset + bank) mod 2^16` with `base` the entry's base address of the
region and `bank` its stored bank, and return what the accessor returned. -/
theorem read_write_data_address {σ : Type} (read : σ → Nat → Int → Int × List Nat × σ)
    (write : σ → Nat → List Nat → Int → Int × σ) (pdt_list : List rmi4_pdt_container)
    (func_id : Nat) (fentry : rmi4_pdt_container) (cmd : rmi4_data_command) (base : Nat)
    (addr_offset data_len : Int) (data : List Nat) (hw : hw_state σ)
    (hf : rmi4_core_driver_get_pdt_container pdt_list func_id = some fentry)
    (hbase : region_base cmd fentry.pdt = some base) :
    rmi4_core_driver_read_data (some read) pdt_list func_id cmd addr_offset data_len hw
      = ((read hw.st (((base : Int) + addr_offset + fentry.bank) % 65536).toNat data_len).1,
         (read hw.st (((base : Int) + addr_offset + fentry.bank) % 65536).toNat data_len).2.1,
         { st := (read hw.st (((base : Int) + addr_offset + fentry.bank) % 65536).toNat
                   data_len).2.2
           calls := hw.calls ++
             [.read (((base : Int) + addr_offset + fentry.bank) % 65536).toNat data_len] }) ∧
    rmi4_core_driver_write_data (some write) pdt_list func_id cmd addr_offset data data_len hw
      = ((write hw.st (((base : Int) + addr_offset + fentry.bank) % 65536).toNat data
            data_len).1,
         { st := (write hw.st (((base : Int) + addr_offset + fentry.bank) % 65536).toNat data
                   data_len).2
           calls := hw.calls ++
             [.write (((base : Int) + addr_offset + fentry.bank) % 65536).toNat data
               data_len] }) := by
  cases cmd <;> simp only [region_base, Option.some.injEq] at hbase <;>
    first
    | (subst hbase
       simp only [rmi4_core_driver_read_data, rmi4_core_driver_write_data, hf,
         data_command_addr, and_self])
    | exact absurd hbase (by simp)

/-- C11, on the example catalog: function 0x34, query region (base 0x10, bank 0),
offset 2. -/
theorem read_write_data_address_witness :
    (rmi4_core_driver_get_pdt_container catalog_two 0x34 = some (pdt_entry_of 0x34 1) ∧
      region_base .QUERY (pdt_entry_of 0x34 1).pdt = some 0x10) ∧
    (rmi4_core_driver_read_data (some memory_device.read) catalog_two 0x34 .QUERY 2 1 hw_zero).1
      = (memory_device.read hw_zero.st 0x12 1).1 ∧
    (rmi4_core_driver_read_data (some memory_device.read) catalog_two 0x34 .QUERY 2 1
      hw_zero).2.2.calls = [.read 0x12 1] ∧
    (rmi4_core_driver_write_data (some memory_device.write) catalog_two 0x34 .QUERY 2 [7] 1
      hw_zero).2.calls = [.write 0x12 [7] 1] := by
  have h := read_write_data_address memory_device.read memory_device.write catalog_two 0x34
    (pdt_entry_of 0x34 1) .QUERY 0x10 2 1 [7] hw_zero (by decide!) (by decide!)
  refine ⟨⟨by decide!, by decide!⟩, ?_, ?_, ?_⟩
  · rw [h.1]
    rfl
  · rw [h.1]
    rfl
  · rw [h.2]
    rfl

/-- C12, failing input: function 0x54 is found on page 1 with query base 0x10,
so the claim puts its query register 0 at `1 * 256 + 0x10 + 0 = 0x110`; read and
write pass `0x10 + 0 + 1 = 0x11` to the accessor, an address of page 0. -/
theorem read_write_data_page_one :
    (rmi4_read_pdt 0xE9 alloc_always (some dev_page_one) drv_data_init).retval = 0 ∧
    (rmi4_core_driver_get_pdt_container
      (rmi4_read_pdt 0xE9 alloc_always (some dev_page_one) drv_data_init).data.pdt_list
      0x54).map (fun c => (c.bank, c.pdt.query_base_addr)) = some (1, 0x10) ∧
    (rmi4_core_driver_read_data (some memory_device.read)
      (rmi4_read_pdt 0xE9 alloc_always (some dev_page_one) drv_data_init).data.pdt_list
      0x54 .QUERY 0 1 hw_zero).2.2.calls = [.read 0x11 1] ∧
    (rmi4_core_driver_write_data (some memory_device.write)
      (rmi4_read_pdt 0xE9 alloc_always (some dev_page_one) drv_data_init).data.pdt_list
      0x54 .QUERY 0 [7] 1 hw_zero).2.calls = [.write 0x11 [7] 1] ∧
    1 * RMI4_PAGE_SIZE + 0x10 + 0 = 0x110 := by
  decide!

/-- C13: `rmi4_core_driver_read_data` and `rmi4_core_driver_write_data` return
`-ENODEV` without an accessor call when the function id is not in the catalog,
`-EINVAL` without an accessor call when the function is there but the selector
is none of the four regions, and otherwise make one accessor call and return its
result unchanged. -/
theorem read_write_data_errors {σ : Type}
    (cdev_read : Option (σ → Nat → Int → Int × List Nat × σ))
    (cdev_write : Option (σ → Nat → List Nat → Int → Int × σ))
    (read : σ → Nat → Int → Int × List Nat × σ)
    (write : σ → Nat → List Nat → Int → Int × σ) (pdt_list : List rmi4_pdt_container)
    (func_id : Nat) (cmd : rmi4_data_command) (addr_offset data_len : Int) (data : List Nat)
    (hw : hw_state σ) :
    (rmi4_core_driver_get_pdt_container pdt_list func_id = none →
      rmi4_core_driver_read_data cdev_read pdt_list func_id cmd addr_offset data_len hw
        = (-ENODEV, [], hw) ∧
      rmi4_core_driver_write_data cdev_write pdt_list func_id cmd addr_offset data data_len hw
        = (-ENODEV, hw)) ∧
    ((rmi4_core_driver_get_pdt_container pdt_list func_id).isSome = true →
      (cmd ≠ .QUERY ∧ cmd ≠ .COMMAND ∧ cmd ≠ .CONTROL ∧ cmd ≠ .DATA) →
      rmi4_core_driver_read_data cdev_read pdt_list func_id cmd addr_offset data_len hw
        = (-EINVAL, [], hw) ∧
      rmi4_core_driver_write_data cdev_write pdt_list func_id cmd addr_offset data data_len hw
        = (-EINVAL, hw)) ∧
    ((rmi4_core_driver_get_pdt_container pdt_list func_id).isSome = true →
      (cmd = .QUERY ∨ cmd = .COMMAND ∨ cmd = .CONTROL ∨ cmd = .DATA) →
      ∃ addr,
        rmi4_core_driver_read_data (some read) pdt_list func_id cmd addr_offset data_len hw
          = ((read hw.st addr data_len).1, (read hw.st addr data_len).2.1,
             { st := (read hw.st addr data_len).2.2
               calls := hw.calls ++ [.read addr data_len] }) ∧
        rmi4_core_driver_write_data (some write) pdt_list func_id cmd addr_offset data
            data_len hw
          = ((write hw.st addr data data_len).1,
             { st := (write hw.st addr data data_len).2
               calls := hw.calls ++ [.write addr data data_len] })) := by
  refine ⟨fun h => ?_, fun h hc => ?_, fun h hc => ?_⟩
  · simp [rmi4_core_driver_read_data, rmi4_core_driver_write_data, h]
  · cases hf : rmi4_core_driver_get_pdt_container pdt_list func_id with
    | none => simp [hf] at h
    | some fentry =>
      cases cmd <;> simp at hc
      simp [rmi4_core_driver_read_data, rmi4_core_driver_write_data, hf, data_command_addr]
  · cases hf : rmi4_core_driver_get_pdt_container pdt_list func_id with
    | none => simp [hf] at h
    | some fentry =>
      cases hd : data_command_addr fentry cmd addr_offset with
      | none => rcases hc with rfl | rfl | rfl | rfl <;> simp [data_command_addr] at hd
      | some addr =>
        exact ⟨addr, by
          simp only [rmi4_core_driver_read_data, rmi4_core_driver_write_data, hf, hd,
            and_self]⟩

/-- C13, on the example catalog with a device on which every access fails:
function 0x99 is not in the catalog, selector 7 is none of the four regions, and a
query access of function 0x34 hands the error of the accessor back. -/
theorem read_write_data_errors_witness :
    (rmi4_core_driver_get_pdt_container catalog_two 0x99 = none ∧
      rmi4_core_driver_read_data (some dead_device.read) catalog_two 0x99 .QUERY 2 1 hw_dead
        = (-ENODEV, [], hw_dead) ∧
      rmi4_core_driver_write_data (some dead_device.write) catalog_two 0x99 .QUERY 2 [7] 1
        hw_dead = (-ENODEV, hw_dead)) ∧
    (((rmi4_core_driver_get_pdt_container catalog_two 0x34).isSome = true ∧
        rmi4_data_command.other 7 ≠ .QUERY ∧ rmi4_data_command.other 7 ≠ .COMMAND ∧
        rmi4_data_command.other 7 ≠ .CONTROL ∧ rmi4_data_command.other 7 ≠ .DATA) ∧
      rmi4_core_driver_read_data (some dead_device.read) catalog_two 0x34 (.other 7) 2 1
        hw_dead = (-EINVAL, [], hw_dead) ∧
      rmi4_core_driver_write_data (some dead_device.write) catalog_two 0x34 (.other 7) 2 [7] 1
        hw_dead = (-EINVAL, hw_dead)) ∧
    (rmi4_core_driver_read_data (some dead_device.read) catalog_two 0x34 .QUERY 2 1
        hw_dead).1 = - EIO ∧
    (rmi4_core_driver_write_data (some dead_device.write) catalog_two 0x34 .QUERY 2 [7] 1
        hw_dead).1 = - EIO := by
  refine ⟨⟨by decide!, ?_⟩, ⟨⟨by decide!, by decide, by decide, by decide, by decide⟩, ?_⟩, ?_⟩
  · exact (read_write_data_errors (some dead_device.read) (some dead_device.write)
      dead_device.read dead_device.write catalog_two 0x99 .QUERY 2 1 [7] hw_dead).1
      (by decide!)
  · exact (read_write_data_errors (some dead_device.read) (some dead_device.write)
      dead_device.read dead_device.write catalog_two 0x34 (.other 7) 2 1 [7] hw_dead).2.1
      (by decide!) ⟨by decide, by decide, by decide, by decide⟩
  · obtain ⟨addr, h1, h2⟩ :=
      (read_write_data_errors (some dead_device.read) (some dead_device.write)
        dead_device.read dead_device.write catalog_two 0x34 .QUERY 2 1 [7] hw_dead).2.2
        (by decide!) (Or.inl rfl)
    rw [h1, h2]
    exact ⟨rfl, rfl⟩

/-! ## The claims about interrupt subscriptions -/

/-- C14, evaluated: from the freshly populated example registry on the memory
device with every byte zero, `set_non_essential_irq_status(true)` and then
`request_irq` for function 0x11 both return 0; function 0x11 then has a subscriber
and force-disable count 1, and the bit of its mask is set in the interrupt enable
register of function 0x01 at 0x31. -/
theorem request_irq_while_force_disabled :
    rmi4_core_driver_populate_functiondata 32 [] alloc_always drv_data_touch
      = .ok registry_touch ∧
    irq_enable_addr (pdt_entry_of 0x01 1) = 0x31 ∧
    (run_irq_ops memory_device catalog_touch [.set_non_essential true]
      (driver_start registry_touch hw_zero)).retval = 0 ∧
    (run_irq_ops memory_device catalog_touch
      [.set_non_essential true, .request_irq 0x11 0xDA7A 0xC0DE]
      (driver_start registry_touch hw_zero)).retval = 0 ∧
    (run_irq_ops memory_device catalog_touch
      [.set_non_essential true, .request_irq 0x11 0xDA7A 0xC0DE]
      (driver_start registry_touch hw_zero)).function_list
      = [fc_touch_f01, { fc_touch_f11_in_use with force_irq_disabled := 1 }] ∧
    (run_irq_ops memory_device catalog_touch
      [.set_non_essential true, .request_irq 0x11 0xDA7A 0xC0DE]
      (driver_start registry_touch hw_zero)).hw.st 0x31 &&& 0b10 = 0b10 := by
  decide!

/-- C16 as stated fails: function 0x34 of the registry of `dev_seventeen` has the
mask 0x1C000, all of it above the low byte. After `request_irq` with two contexts
and `free_irq` of the first, all returning 0, one subscriber remains and the
one-byte interrupt enable register (0x31) holds 0: no bit of the mask is set. -/
theorem free_irq_mask_beyond_byte :
    rmi4_core_driver_populate_functiondata 32 [] alloc_always
      (rmi4_read_pdt 0xE9 alloc_always (some dev_seventeen) drv_data_init).data
      = .ok registry_seventeen ∧
    irq_enable_addr <$> rmi4_core_driver_get_pdt_container catalog_seventeen F01_FUNCTION_ID
      = some 0x31 ∧
    (run_irq_ops memory_device catalog_seventeen
      [.request_irq 0x34 0xDA7A 0xC0DE, .request_irq 0x34 0xF00D 0xBEEF]
      (driver_start registry_seventeen hw_zero)).retval = 0 ∧
    (run_irq_ops memory_device catalog_seventeen
      [.request_irq 0x34 0xDA7A 0xC0DE, .request_irq 0x34 0xF00D 0xBEEF, .free_irq 0x34 0xDA7A]
      (driver_start registry_seventeen hw_zero)).retval = 0 ∧
    (rmi4_core_driver_get_function_container
      (run_irq_ops memory_device catalog_seventeen
        [.request_irq 0x34 0xDA7A 0xC0DE, .request_irq 0x34 0xF00D 0xBEEF,
         .free_irq 0x34 0xDA7A]
        (driver_start registry_seventeen hw_zero)).function_list 0x34).map
        (fun f => (f.irq_mask, f.irq_client_list))
      = some (0x1C000, [{ func := 0xBEEF, func_data := 0xF00D }]) ∧
    (run_irq_ops memory_device catalog_seventeen
      [.request_irq 0x34 0xDA7A 0xC0DE, .request_irq 0x34 0xF00D 0xBEEF, .free_irq 0x34 0xDA7A]
      (driver_start registry_seventeen hw_zero)).hw.st 0x31 = 0 ∧
    0 &&& 0x1C000 ≠ 0x1C000 := by
  decide!

/-- C16, amended to the low byte of the mask: for a function `f` with a non-empty
subscriber list, `free_irq(f, ctx)` leaves `f` with exactly its subscribers whose
context differs from `ctx`, in their original order, whatever their callbacks; if
that list is empty the call is `rmi4_core_driver_set_irq_state(f, false)` on the
hardware (on the memory device with function 0x01 in the catalog: return 0 and
the bits of the low byte of the mask of `f` cleared in the enable register),
otherwise it returns 0 without any hardware access. After `request_irq` with two
different contexts and `free_irq` of the first, on the memory device, the second
subscriber alone remains and the bits of the low byte of the mask of `f` are
still set. -/
theorem free_irq_removes_context {σ : Type} (dev : register_device σ)
    (pdt_list : List rmi4_pdt_container) (fl : List rmi4_function_container) (f ctx : Nat)
    (fc : rmi4_function_container) (hw : hw_state σ)
    (hf : rmi4_core_driver_get_function_container fl f = some fc)
    (hne : fc.irq_client_list ≠ []) :
    rmi4_core_driver_get_function_container
        (rmi4_core_driver_free_irq dev pdt_list fl f ctx hw).function_list f
      = some { fc with irq_client_list :=
                 fc.irq_client_list.filter (fun c => c.func_data != ctx) } ∧
    (fc.irq_client_list.filter (fun c => c.func_data != ctx) = [] →
      ((rmi4_core_driver_free_irq dev pdt_list fl f ctx hw).retval,
          (rmi4_core_driver_free_irq dev pdt_list fl f ctx hw).hw)
        = rmi4_core_driver_set_irq_state dev pdt_list { fc with irq_client_list := [] }
            false hw) ∧
    (fc.irq_client_list.filter (fun c => c.func_data != ctx) ≠ [] →
      (rmi4_core_driver_free_irq dev pdt_list fl f ctx hw).retval = 0 ∧
      (rmi4_core_driver_free_irq dev pdt_list fl f ctx hw).hw = hw) ∧
    (∀ (pl : List rmi4_pdt_container) (e : rmi4_pdt_container)
        (l : List rmi4_function_container) (g : rmi4_function_container)
        (hwm : hw_state (Nat → Nat)),
      rmi4_core_driver_get_pdt_container pl F01_FUNCTION_ID = some e →
      rmi4_core_driver_get_function_container l f = some g →
      g.irq_client_list ≠ [] →
      g.irq_client_list.filter (fun c => c.func_data != ctx) = [] →
      (rmi4_core_driver_free_irq memory_device pl l f ctx hwm).retval = 0 ∧
      (rmi4_core_driver_free_irq memory_device pl l f ctx hwm).hw.st (irq_enable_addr e)
        &&& (g.irq_mask % 256) = 0) ∧
    (∀ (pl : List rmi4_pdt_container) (e : rmi4_pdt_container)
        (l : List rmi4_function_container) (g : rmi4_function_container)
        (hwm : hw_state (Nat → Nat)) (ctx2 cb1 cb2 : Nat),
      rmi4_core_driver_get_pdt_container pl F01_FUNCTION_ID = some e →
      rmi4_core_driver_get_function_container l f = some g →
      g.irq_client_list = [] → ctx ≠ ctx2 →
      (apply_irq_op memory_device pl (.free_irq f ctx)
        (apply_irq_op memory_device pl (.request_irq f ctx2 cb2)
          (apply_irq_op memory_device pl (.request_irq f ctx cb1)
            (driver_start l hwm)))).retval = 0 ∧
      rmi4_core_driver_get_function_container
        (apply_irq_op memory_device pl (.free_irq f ctx)
          (apply_irq_op memory_device pl (.request_irq f ctx2 cb2)
            (apply_irq_op memory_device pl (.request_irq f ctx cb1)
              (driver_start l hwm)))).function_list f
        = some { g with irq_client_list := [{ func := cb2, func_data := ctx2 }] } ∧
      (apply_irq_op memory_device pl (.free_irq f ctx)
        (apply_irq_op memory_device pl (.request_irq f ctx2 cb2)
          (apply_irq_op memory_device pl (.request_irq f ctx cb1)
            (driver_start l hwm)))).hw.st (irq_enable_addr e) &&& (g.irq_mask % 256)
        = g.irq_mask % 256) := by
  have hfree := free_irq_found dev pdt_list fl f ctx hw fc hf hne
  refine ⟨?_, ?_, ?_, ?_, ?_⟩
  · rw [hfree]
    split <;>
      · simp only
        rw [update_clients_get (fun cl => cl.filter (fun c => c.func_data != ctx)), hf]
        rfl
  · intro hfil
    rw [hfree, if_pos hfil]
  · intro hfil
    rw [hfree, if_neg hfil]
    exact ⟨rfl, rfl⟩
  · intro pl e l g hwm he hg hgne hfil
    have hm : g.irq_mask % 256 < 256 := Nat.mod_lt _ (by norm_num)
    rw [free_irq_found memory_device pl l f ctx hwm g hg hgne, if_pos hfil,
      set_irq_state_memory pl e _ false hwm he]
    simp only [mem_set, if_true, irq_enable_byte, Bool.false_eq_true, if_false]
    exact ⟨trivial, byte_and_not_and_self _ _ hm⟩
  · intro pl e l g hwm ctx2 cb1 cb2 he hg hgempty hctx
    have h1 : apply_irq_op memory_device pl (.request_irq f ctx cb1) (driver_start l hwm)
        = _ := request_irq_memory_first pl e l f ctx cb1 hwm g he hg hgempty
    have hg1 := update_clients_get (fun cl => cl ++ [{ func := cb1, func_data := ctx }]) l f
    rw [hg] at hg1
    simp only [Option.map_some', hgempty, List.nil_append] at hg1
    have h2 := (congrArg (apply_irq_op memory_device pl (.request_irq f ctx2 cb2)) h1).trans
      (request_irq_more memory_device pl _ f ctx2 cb2 _ _ hg1 (by simp))
    have hg2 := update_clients_get (fun cl => cl ++ [{ func := cb2, func_data := ctx2 }])
      (update_function_container
        (fun g => { g with irq_client_list :=
                      g.irq_client_list ++ [{ func := cb1, func_data := ctx }] }) l f) f
    rw [hg1] at hg2
    simp only [Option.map_some', List.singleton_append] at hg2
    have hfil : List.filter (fun c => c.func_data != ctx)
        [{ func := cb1, func_data := ctx }, { func := cb2, func_data := ctx2 }]
        = [({ func := cb2, func_data := ctx2 } : rmi4_irq_client)] := by
      simp [List.filter_cons, Ne.symm hctx]
    have h3 := (congrArg (apply_irq_op memory_device pl (.free_irq f ctx)) h2).trans
      (free_irq_found memory_device pl _ f ctx _ _ hg2 (by simp))
    simp only [hfil] at h3
    rw [h3]
    simp only [List.cons_ne_nil, if_false]
    rw [update_clients_get (fun cl => cl.filter (fun c => c.func_data != ctx)), hg2]
    simp only [Option.map_some', hfil, mem_set, if_true, irq_enable_byte]
    exact ⟨trivial, trivial, byte_or_and_self _ _⟩

/-- C16 amended, on the example registry with function 0x11 in use (one subscriber with
context 0xDA7A): freeing that context empties the list and goes through the
disable; freeing another context leaves the subscriber and the hardware alone; and
the scenario with two contexts on the fresh registry. -/
theorem free_irq_removes_context_witness :
    (rmi4_core_driver_get_function_container registry_touch_in_use 0x11
        = some fc_touch_f11_in_use ∧
      fc_touch_f11_in_use.irq_client_list ≠ [] ∧
      fc_touch_f11_in_use.irq_client_list.filter (fun c => c.func_data != 0xDA7A) = [] ∧
      fc_touch_f11_in_use.irq_client_list.filter (fun c => c.func_data != 0x1234) ≠ [] ∧
      rmi4_core_driver_get_pdt_container catalog_touch F01_FUNCTION_ID
        = some (pdt_entry_of 0x01 1) ∧
      rmi4_core_driver_get_function_container registry_touch 0x11 = some fc_touch_f11 ∧
      fc_touch_f11.irq_client_list = [] ∧ 0xDA7A ≠ 0xF00D) ∧
    rmi4_core_driver_get_function_container
        (rmi4_core_driver_free_irq memory_device catalog_touch registry_touch_in_use 0x11 0xDA7A
          hw_zero).function_list 0x11
      = some { fc_touch_f11_in_use with irq_client_list :=
                 fc_touch_f11_in_use.irq_client_list.filter (fun c => c.func_data != 0xDA7A) } ∧
    ((rmi4_core_driver_free_irq memory_device catalog_touch registry_touch_in_use 0x11 0xDA7A
          hw_zero).retval,
        (rmi4_core_driver_free_irq memory_device catalog_touch registry_touch_in_use 0x11 0xDA7A
          hw_zero).hw)
      = rmi4_core_driver_set_irq_state memory_device catalog_touch
          { fc_touch_f11_in_use with irq_client_list := [] } false hw_zero ∧
    ((rmi4_core_driver_free_irq memory_device catalog_touch registry_touch_in_use 0x11 0x1234
        hw_zero).retval = 0 ∧
      (rmi4_core_driver_free_irq memory_device catalog_touch registry_touch_in_use 0x11 0x1234
        hw_zero).hw = hw_zero) ∧
    ((rmi4_core_driver_free_irq memory_device catalog_touch registry_touch_in_use 0x11 0xDA7A
        hw_zero).retval = 0 ∧
      (rmi4_core_driver_free_irq memory_device catalog_touch registry_touch_in_use 0x11 0xDA7A
        hw_zero).hw.st (irq_enable_addr (pdt_entry_of 0x01 1))
        &&& (fc_touch_f11_in_use.irq_mask % 256) = 0) ∧
    ((apply_irq_op memory_device catalog_touch (.free_irq 0x11 0xDA7A)
        (apply_irq_op memory_device catalog_touch (.request_irq 0x11 0xF00D 0xBEEF)
          (apply_irq_op memory_device catalog_touch (.request_irq 0x11 0xDA7A 0xC0DE)
            (driver_start registry_touch hw_zero)))).retval = 0 ∧
      rmi4_core_driver_get_function_container
        (apply_irq_op memory_device catalog_touch (.free_irq 0x11 0xDA7A)
          (apply_irq_op memory_device catalog_touch (.request_irq 0x11 0xF00D 0xBEEF)
            (apply_irq_op memory_device catalog_touch (.request_irq 0x11 0xDA7A 0xC0DE)
              (driver_start registry_touch hw_zero)))).function_list 0x11
        = some { fc_touch_f11 with irq_client_list := [{ func := 0xBEEF, func_data := 0xF00D }] } ∧
      (apply_irq_op memory_device catalog_touch (.free_irq 0x11 0xDA7A)
        (apply_irq_op memory_device catalog_touch (.request_irq 0x11 0xF00D 0xBEEF)
          (apply_irq_op memory_device catalog_touch (.request_irq 0x11 0xDA7A 0xC0DE)
            (driver_start registry_touch hw_zero)))).hw.st (irq_enable_addr (pdt_entry_of 0x01 1))
        &&& (fc_touch_f11.irq_mask % 256) = fc_touch_f11.irq_mask % 256) :=
  ⟨⟨by decide!, by decide!, by decide!, by decide!, by decide!, by decide!, by decide!,
      by decide⟩,
   (free_irq_removes_context memory_device catalog_touch registry_touch_in_use 0x11 0xDA7A
      fc_touch_f11_in_use hw_zero (by decide!) (by decide!)).1,
   (free_irq_removes_context memory_device catalog_touch registry_touch_in_use 0x11 0xDA7A
      fc_touch_f11_in_use hw_zero (by decide!) (by decide!)).2.1 (by decide!),
   (free_irq_removes_context memory_device catalog_touch registry_touch_in_use 0x11 0x1234
      fc_touch_f11_in_use hw_zero (by decide!) (by decide!)).2.2.1 (by decide!),
   (free_irq_removes_context memory_device catalog_touch registry_touch_in_use 0x11 0xDA7A
      fc_touch_f11_in_use hw_zero (by decide!) (by decide!)).2.2.2.1 catalog_touch
      (pdt_entry_of 0x01 1) registry_touch_in_use fc_touch_f11_in_use hw_zero (by decide!)
      (by decide!) (by decide!) (by decide!),
   (free_irq_removes_context memory_device catalog_touch registry_touch_in_use 0x11 0xDA7A
      fc_touch_f11_in_use hw_zero (by decide!) (by decide!)).2.2.2.2 catalog_touch
      (pdt_entry_of 0x01 1) registry_touch fc_touch_f11 hw_zero 0xF00D 0xC0DE 0xBEEF (by decide!)
      (by decide!) (by decide!) (by decide)⟩

/-- C18 as stated fails: the non-essential function 0x11 of the registry of
`dev_seventeen` has the mask 0x3F80, of which only bit 7 lies in the low byte.
With a subscriber and count 0, after two disable calls and two enable calls its
count is 0 again and the one-byte interrupt enable register (0x31) holds 0x80: of
the seven bits of the mask one is set. -/
theorem set_non_essential_mask_beyond_byte :
    (rmi4_core_driver_get_function_container
      (run_irq_ops memory_device catalog_seventeen [.request_irq 0x11 0xDA7A 0xC0DE]
        (driver_start registry_seventeen hw_zero)).function_list 0x11).map
        (fun f => (is_essential f.function_id, f.irq_mask, f.irq_client_list.length,
          f.force_irq_disabled))
      = some (false, 0x3F80, 1, 0) ∧
    (rmi4_core_driver_get_function_container
      (run_irq_ops memory_device catalog_seventeen
        [.request_irq 0x11 0xDA7A 0xC0DE, .set_non_essential true, .set_non_essential true,
         .set_non_essential false, .set_non_essential false]
        (driver_start registry_seventeen hw_zero)).function_list 0x11).map
        (fun f => (f.irq_mask, f.irq_client_list.length, f.force_irq_disabled))
      = some (0x3F80, 1, 0) ∧
    (run_irq_ops memory_device catalog_seventeen
      [.request_irq 0x11 0xDA7A 0xC0DE, .set_non_essential true, .set_non_essential true,
       .set_non_essential false, .set_non_essential false]
      (driver_start registry_seventeen hw_zero)).hw.st 0x31 = 0x80 ∧
    0x80 &&& 0x3F80 ≠ 0x3F80 := by
  decide!

/-- C18, amended to the low byte of the mask: in a registry whose counts are not
negative, for a non-essential function `f` with a subscriber and count 0, on a
device that stores writes and with function 0x01 in the catalog: after two
disable calls and one enable call the count of `f` is 1 and the bits of the low
byte of its mask are cleared in the enable register; after a second enable call
the count is 0 and those bits are set. The second and third call make no hardware
access at all, and in general a call in which no function object is at the
transition (count 0 on disable, 1 on enable, with a subscriber) leaves the
hardware as it was. -/
theorem set_non_essential_reference_counted (pdt_list : List rmi4_pdt_container)
    (e : rmi4_pdt_container) (pre post : List rmi4_function_container)
    (f : rmi4_function_container) (hw : hw_state (Nat → Nat))
    (he : rmi4_core_driver_get_pdt_container pdt_list F01_FUNCTION_ID = some e)
    (hnn : ∀ g ∈ pre ++ f :: post, 0 ≤ g.force_irq_disabled)
    (hess : is_essential f.function_id = false)
    (hsub : f.irq_client_list ≠ [])
    (hcount : f.force_irq_disabled = 0) :
    ((run_irq_ops memory_device pdt_list
        [.set_non_essential true, .set_non_essential true, .set_non_essential false]
        (driver_start (pre ++ f :: post) hw)).function_list[pre.length]?
        = some { f with force_irq_disabled := 1 } ∧
      (run_irq_ops memory_device pdt_list
        [.set_non_essential true, .set_non_essential true, .set_non_essential false]
        (driver_start (pre ++ f :: post) hw)).hw.st (irq_enable_addr e)
        &&& (f.irq_mask % 256) = 0) ∧
    ((run_irq_ops memory_device pdt_list
        [.set_non_essential true, .set_non_essential true, .set_non_essential false,
         .set_non_essential false]
        (driver_start (pre ++ f :: post) hw)).function_list[pre.length]? = some f ∧
      (run_irq_ops memory_device pdt_list
        [.set_non_essential true, .set_non_essential true, .set_non_essential false,
         .set_non_essential false]
        (driver_start (pre ++ f :: post) hw)).hw.st (irq_enable_addr e)
        &&& (f.irq_mask % 256) = f.irq_mask % 256) ∧
    ((run_irq_ops memory_device pdt_list [.set_non_essential true, .set_non_essential true]
        (driver_start (pre ++ f :: post) hw)).hw
        = (run_irq_ops memory_device pdt_list [.set_non_essential true]
            (driver_start (pre ++ f :: post) hw)).hw ∧
      (run_irq_ops memory_device pdt_list
        [.set_non_essential true, .set_non_essential true, .set_non_essential false]
        (driver_start (pre ++ f :: post) hw)).hw
        = (run_irq_ops memory_device pdt_list [.set_non_essential true]
            (driver_start (pre ++ f :: post) hw)).hw) ∧
    (∀ (fl : List rmi4_function_container) (disable : Bool) (hw0 : hw_state (Nat → Nat)),
      (∀ g ∈ fl, ¬ switches_irq disable g) →
      (rmi4_core_driver_set_non_essential_irq_status memory_device pdt_list fl disable hw0).hw
        = hw0) := by
  have hnn1 := force_count_update_nonneg true _ hnn
  have hnn2 := force_count_update_nonneg true _ hnn1
  have hnn3 := force_count_update_nonneg false _ hnn2
  have c1 := fun err hw0 => non_essential_loop_counts memory_device pdt_list true
    (pre ++ f :: post) err hw0 hnn
  have c2 := fun err hw0 => non_essential_loop_counts memory_device pdt_list true _ err hw0 hnn1
  have c3 := fun err hw0 => non_essential_loop_counts memory_device pdt_list false _ err hw0 hnn2
  have c4 := fun err hw0 => non_essential_loop_counts memory_device pdt_list false _ err hw0 hnn3
  have q2 := fun err hw0 => non_essential_loop_quiet memory_device pdt_list true _ err hw0
    (no_switch_after_disable _ hnn)
  have q3 := fun err hw0 => non_essential_loop_quiet memory_device pdt_list false _ err hw0
    (no_switch_after_two_disables _ hnn)
  have u1 : force_count_update true f = { f with force_irq_disabled := 1 } := by
    rw [force_count_update_disable f hess, hcount]
    rfl
  have u2 : force_count_update true { f with force_irq_disabled := 1 }
      = { f with force_irq_disabled := 2 } := by
    simp [force_count_update, hess]
  have u3 : force_count_update false { f with force_irq_disabled := 2 }
      = { f with force_irq_disabled := 1 } := by
    simp [force_count_update, hess]
  have u4 : force_count_update false { f with force_irq_disabled := 1 } = f := by
    cases f
    simp only at hcount hess
    simp [force_count_update, hess, hcount]
  have hsw1 : switches_irq true f := ⟨hess, hsub, by simp [hcount]⟩
  have hsw4 : switches_irq false
      ({ f with force_irq_disabled := 1 } : rmi4_function_container) := ⟨hess, hsub, rfl⟩
  have hclear := fun err => non_essential_disable_clears pdt_list e he pre post f err hw hsw1
  simp only [run_irq_ops, apply_irq_op, driver_start,
    rmi4_core_driver_set_non_essential_irq_status, c1, c2, c3, c4, q2, q3]
  refine ⟨⟨?_, hclear 0⟩, ⟨?_, ?_⟩, ⟨trivial, trivial⟩, ?_⟩
  · simp only [List.map_append, List.map_cons, u1, u2, u3]
    exact getElem?_append_cons_length _ _ _ _ (by simp)
  · simp only [List.map_append, List.map_cons, u1, u2, u3, u4]
    exact getElem?_append_cons_length _ _ _ _ (by simp)
  · simp only [List.map_append, List.map_cons, u1, u2, u3]
    exact non_essential_enable_sets pdt_list e he _ _ _ 0 _ hsw4
  · intro fl disable hw0 hq
    rw [non_essential_loop_quiet memory_device pdt_list disable fl 0 hw0 hq]

/-- C18 amended, on the example registry with function 0x11 in use and count 0, on the
memory device with every byte zero. -/
theorem set_non_essential_reference_counted_witness :
    (rmi4_core_driver_get_pdt_container catalog_touch F01_FUNCTION_ID
        = some (pdt_entry_of 0x01 1) ∧
      (∀ g ∈ [fc_touch_f01] ++ fc_touch_f11_in_use :: [], 0 ≤ g.force_irq_disabled) ∧
      is_essential fc_touch_f11_in_use.function_id = false ∧
      fc_touch_f11_in_use.irq_client_list ≠ [] ∧
      fc_touch_f11_in_use.force_irq_disabled = 0) ∧
    ((run_irq_ops memory_device catalog_touch
        [.set_non_essential true, .set_non_essential true, .set_non_essential false]
        (driver_start registry_touch_in_use hw_zero)).function_list[1]?
        = some { fc_touch_f11_in_use with force_irq_disabled := 1 } ∧
      (run_irq_ops memory_device catalog_touch
        [.set_non_essential true, .set_non_essential true, .set_non_essential false]
        (driver_start registry_touch_in_use hw_zero)).hw.st (irq_enable_addr (pdt_entry_of 0x01 1))
        &&& (fc_touch_f11_in_use.irq_mask % 256) = 0) ∧
    ((run_irq_ops memory_device catalog_touch
        [.set_non_essential true, .set_non_essential true, .set_non_essential false,
         .set_non_essential false]
        (driver_start registry_touch_in_use hw_zero)).function_list[1]?
        = some fc_touch_f11_in_use ∧
      (run_irq_ops memory_device catalog_touch
        [.set_non_essential true, .set_non_essential true, .set_non_essential false,
         .set_non_essential false]
        (driver_start registry_touch_in_use hw_zero)).hw.st (irq_enable_addr (pdt_entry_of 0x01 1))
        &&& (fc_touch_f11_in_use.irq_mask % 256) = fc_touch_f11_in_use.irq_mask % 256) :=
  ⟨⟨by decide!, by decide!, by decide!, by decide!, by decide!⟩,
   (set_non_essential_reference_counted catalog_touch (pdt_entry_of 0x01 1) [fc_touch_f01] []
      fc_touch_f11_in_use hw_zero (by decide!) (by decide!) (by decide!) (by decide!)
      (by decide!)).1,
   (set_non_essential_reference_counted catalog_touch (pdt_entry_of 0x01 1) [fc_touch_f01] []
      fc_touch_f11_in_use hw_zero (by decide!) (by decide!) (by decide!) (by decide!)
      (by decide!)).2.1⟩

/-- C19: on a registry whose counts are not negative,
`rmi4_core_driver_set_non_essential_irq_status` leaves a registry of the same
length in which every function object is the one it was, except for the count of
the non-essential ones: one more on disable, one less on enable if it was
positive, 0 if it was 0; no count is negative afterwards and every subscriber
list is as before. The return value and the hardware afterwards are those of the
same call on the registry without the functions 0x01, 0x34 and 0x54, and a call on
a registry of essential functions alone returns 0 and makes no hardware access. -/
theorem set_non_essential_frame {σ : Type} (dev : register_device σ)
    (pdt_list : List rmi4_pdt_container) (fl : List rmi4_function_container)
    (disable : Bool) (hw : hw_state σ)
    (hnn : ∀ g ∈ fl, 0 ≤ g.force_irq_disabled) :
    (rmi4_core_driver_set_non_essential_irq_status dev pdt_list fl disable hw).function_list.length
      = fl.length ∧
    (∀ (i : Nat) (g : rmi4_function_container), fl[i]? = some g →
      ∃ g1 : rmi4_function_container,
      (rmi4_core_driver_set_non_essential_irq_status dev pdt_list fl disable
        hw).function_list[i]? = some g1 ∧
      ((g.function_id = 0x01 ∨ g.function_id = 0x34 ∨ g.function_id = 0x54) → g1 = g) ∧
      (¬ (g.function_id = 0x01 ∨ g.function_id = 0x34 ∨ g.function_id = 0x54) →
        disable = true →
        g1 = { g with force_irq_disabled := g.force_irq_disabled + 1 }) ∧
      (¬ (g.function_id = 0x01 ∨ g.function_id = 0x34 ∨ g.function_id = 0x54) →
        disable = false → 0 < g.force_irq_disabled →
        g1 = { g with force_irq_disabled := g.force_irq_disabled - 1 }) ∧
      (disable = false → g.force_irq_disabled = 0 → g1 = g) ∧
      0 ≤ g1.force_irq_disabled ∧
      g1.irq_client_list = g.irq_client_list) ∧
    ((rmi4_core_driver_set_non_essential_irq_status dev pdt_list fl disable hw).retval
        = (rmi4_core_driver_set_non_essential_irq_status dev pdt_list
            (fl.filter (fun fc =>
              !(fc.function_id == 0x01 || fc.function_id == 0x34 || fc.function_id == 0x54)))
            disable hw).retval ∧
      (rmi4_core_driver_set_non_essential_irq_status dev pdt_list fl disable hw).hw
        = (rmi4_core_driver_set_non_essential_irq_status dev pdt_list
            (fl.filter (fun fc =>
              !(fc.function_id == 0x01 || fc.function_id == 0x34 || fc.function_id == 0x54)))
            disable hw).hw) ∧
    ((∀ g ∈ fl, g.function_id = 0x01 ∨ g.function_id = 0x34 ∨ g.function_id = 0x54) →
      (rmi4_core_driver_set_non_essential_irq_status dev pdt_list fl disable hw).retval = 0 ∧
      (rmi4_core_driver_set_non_essential_irq_status dev pdt_list fl disable hw).hw = hw ∧
      (rmi4_core_driver_set_non_essential_irq_status dev pdt_list fl disable hw).function_list
        = fl) := by
  have hiff : ∀ g : rmi4_function_container,
      is_essential g.function_id = true ↔
        (g.function_id = 0x01 ∨ g.function_id = 0x34 ∨ g.function_id = 0x54) := by
    intro g
    simp [is_essential, or_assoc]
  have hfl := non_essential_loop_counts dev pdt_list disable fl 0 hw hnn
  have hfilter := non_essential_loop_filter dev pdt_list disable fl 0 hw
  refine ⟨?_, ?_, ?_, ?_⟩
  · simp only [rmi4_core_driver_set_non_essential_irq_status, hfl, List.length_map]
  · intro i g hg
    refine ⟨force_count_update disable g, ?_, ?_, ?_, ?_, ?_, ?_, ?_⟩
    · simp only [rmi4_core_driver_set_non_essential_irq_status, hfl, List.getElem?_map, hg,
        Option.map_some']
    · intro h
      exact force_count_update_essential disable g ((hiff g).2 h)
    · intro h hd
      have hess : is_essential g.function_id = false := by
        cases hb : is_essential g.function_id
        · rfl
        · exact absurd ((hiff g).1 hb) h
      rw [hd]
      exact force_count_update_disable g hess
    · intro h hd hpos
      have hess : is_essential g.function_id = false := by
        cases hb : is_essential g.function_id
        · rfl
        · exact absurd ((hiff g).1 hb) h
      rw [hd]
      exact force_count_update_enable g hess hpos
    · intro hd hz
      rw [hd]
      exact force_count_update_enable_zero g hz
    · exact force_count_update_nonneg disable fl hnn _
        (List.mem_map.2 ⟨g, List.getElem?_mem hg, rfl⟩)
    · exact force_count_update_irq_client_list disable g
  · have hf : (fun fc : rmi4_function_container =>
          !(fc.function_id == 0x01 || fc.function_id == 0x34 || fc.function_id == 0x54))
        = (fun fc => !is_essential fc.function_id) := rfl
    simp only [rmi4_core_driver_set_non_essential_irq_status, hf, hfilter, and_self]
  · intro hall
    have hq : ∀ g ∈ fl, ¬ switches_irq disable g := by
      intro g hg hs
      have := (hiff g).2 (hall g hg)
      rw [hs.1] at this
      exact Bool.false_ne_true this
    have hmap : fl.map (force_count_update disable) = fl := by
      conv_rhs => rw [← List.map_id fl]
      apply List.map_congr_left
      intro g hg
      exact force_count_update_essential disable g ((hiff g).2 (hall g hg))
    simp only [rmi4_core_driver_set_non_essential_irq_status, hfl,
      non_essential_loop_quiet dev pdt_list disable fl 0 hw hq, hmap, and_self]

/-- C19, on the example registry with function 0x11 in use: a disable call on the
memory device keeps function 0x01 and gives function 0x11 the count 1; on the
registry of function 0x01 alone the call does nothing. -/
theorem set_non_essential_frame_witness :
    ((∀ g ∈ registry_touch_in_use, 0 ≤ g.force_irq_disabled) ∧
      registry_touch_in_use[0]? = some fc_touch_f01 ∧
      registry_touch_in_use[1]? = some fc_touch_f11_in_use ∧
      (fc_touch_f01.function_id = 0x01 ∨ fc_touch_f01.function_id = 0x34 ∨
        fc_touch_f01.function_id = 0x54) ∧
      ¬ (fc_touch_f11_in_use.function_id = 0x01 ∨ fc_touch_f11_in_use.function_id = 0x34 ∨
        fc_touch_f11_in_use.function_id = 0x54)) ∧
    (rmi4_core_driver_set_non_essential_irq_status memory_device catalog_touch
        registry_touch_in_use true hw_zero).function_list[0]? = some fc_touch_f01 ∧
    (rmi4_core_driver_set_non_essential_irq_status memory_device catalog_touch
        registry_touch_in_use true hw_zero).function_list[1]?
      = some { fc_touch_f11_in_use with
                 force_irq_disabled := fc_touch_f11_in_use.force_irq_disabled + 1 } ∧
    ((rmi4_core_driver_set_non_essential_irq_status memory_device catalog_touch
        [fc_touch_f01] true hw_zero).retval = 0 ∧
      (rmi4_core_driver_set_non_essential_irq_status memory_device catalog_touch
        [fc_touch_f01] true hw_zero).hw = hw_zero ∧
      (rmi4_core_driver_set_non_essential_irq_status memory_device catalog_touch
        [fc_touch_f01] true hw_zero).function_list = [fc_touch_f01]) := by
  have h := set_non_essential_frame memory_device catalog_touch registry_touch_in_use true
    hw_zero (by decide!)
  have h1 := set_non_essential_frame memory_device catalog_touch [fc_touch_f01] true
    hw_zero (by decide!)
  refine ⟨⟨by decide!, by decide!, by decide!, by decide!, by decide!⟩, ?_, ?_,
    h1.2.2.2 (by decide!)⟩
  · obtain ⟨g1, hg1, hess, -⟩ := h.2.1 0 fc_touch_f01 (by decide!)
    rw [hg1, hess (by decide!)]
  · obtain ⟨g1, hg1, -, hdis, -⟩ := h.2.1 1 fc_touch_f11_in_use (by decide!)
    rw [hg1, hdis (by decide!) rfl]

/-! ## The claims about the interrupt handler -/

/-- C20 as stated fails: in the example registry function 0x01 (mask 0b011, not
force-disabled) has one subscriber, whose callback is null, as `request_irq` with
a null callback leaves it; for the status byte 0b011, read successfully, the
handler makes no callback. -/
theorem irq_handler_null_callback :
    rmi4_core_driver_get_pdt_container catalog_two F01_FUNCTION_ID
      = some (pdt_entry_of 0x01 2) ∧
    (memory_device.read (hw_status 0b011).st 0x41 1).1 = 1 ∧
    (memory_device.read (hw_status 0b011).st 0x41 1).2.1 = [0b011] ∧
    (∃ fc ∈ registry_null_callback, fc.function_id = 0x01 ∧
      (fc.irq_mask % 256) &&& 0b011 = fc.irq_mask % 256 ∧ fc.force_irq_disabled = 0 ∧
      fc.irq_client_list = [{ func := 0, func_data := 0xDA7A }]) ∧
    (rmi4_core_driver_request_irq memory_device true catalog_two registry_two 0x01 0xDA7A 0
      hw_zero).retval = 0 ∧
    (rmi4_core_driver_request_irq memory_device true catalog_two registry_two 0x01 0xDA7A 0
      hw_zero).function_list = registry_null_callback ∧
    (rmi4_core_drv_irq_handler memory_device catalog_two registry_null_callback
      (hw_status 0b011)).1 = [] ∧
    (rmi4_core_drv_irq_handler memory_device catalog_two registry_null_callback
      (hw_status 0b011)).2.calls = [.read 0x41 1] := by
  decide!

/-- C20, amended: with function 0x01 in the catalog and the status read returning
1 with the byte `s`, the callbacks the handler makes are, function object by
function object in registry order, for those whose mask (low 8 bits) lies within
`s` and whose count is 0, one call per subscriber with a non-null callback, in list
order, with the function number and the subscriber's context; nothing else is
called. With masks 0b011 for function 0x01 and 0b100 for function 0x34, status
0b011 dispatches to 0x01 only, 0b111 to both, 0x00 to none and 0xFF to both. -/
theorem irq_handler_dispatch {σ : Type} (dev : register_device σ)
    (pdt_list : List rmi4_pdt_container) (e : rmi4_pdt_container)
    (fl : List rmi4_function_container) (hw : hw_state σ)
    (he : rmi4_core_driver_get_pdt_container pdt_list F01_FUNCTION_ID = some e)
    (hr : (dev.read hw.st (e.pdt.data_base_addr + F01_IRQ_ADDR_OFFSET + e.bank) 1).1 = 1) :
    (rmi4_core_drv_irq_handler dev pdt_list fl hw).1
      = fl.flatMap (fun fc =>
          if (fc.irq_mask % 256) &&&
                ((dev.read hw.st (e.pdt.data_base_addr + F01_IRQ_ADDR_OFFSET + e.bank)
                  1).2.1.headD 0 % 256) = fc.irq_mask % 256 ∧
              fc.force_irq_disabled = 0 then
            (fc.irq_client_list.filter (fun c => c.func != 0)).map
              (fun c => { func := c.func, fn_irq := fc.function_id, data := c.func_data })
          else []) ∧
    (∀ cb : irq_callback, cb ∈ (rmi4_core_drv_irq_handler dev pdt_list fl hw).1 ↔
      ∃ fc ∈ fl,
        ((fc.irq_mask % 256) &&&
            ((dev.read hw.st (e.pdt.data_base_addr + F01_IRQ_ADDR_OFFSET + e.bank)
              1).2.1.headD 0 % 256) = fc.irq_mask % 256 ∧
          fc.force_irq_disabled = 0) ∧
        ∃ c ∈ fc.irq_client_list, c.func ≠ 0 ∧
          cb = { func := c.func, fn_irq := fc.function_id, data := c.func_data }) ∧
    (rmi4_core_drv_irq_handler memory_device catalog_two registry_two_in_use
        (hw_status 0b011)).1 = [{ func := 0xC0DE, fn_irq := 0x01, data := 0xDA7A }] ∧
    (rmi4_core_drv_irq_handler memory_device catalog_two registry_two_in_use
        (hw_status 0b111)).1
      = [{ func := 0xC0DE, fn_irq := 0x01, data := 0xDA7A },
         { func := 0xBEEF, fn_irq := 0x34, data := 0xF00D }] ∧
    (rmi4_core_drv_irq_handler memory_device catalog_two registry_two_in_use
        (hw_status 0x00)).1 = [] ∧
    (rmi4_core_drv_irq_handler memory_device catalog_two registry_two_in_use
        (hw_status 0xFF)).1
      = [{ func := 0xC0DE, fn_irq := 0x01, data := 0xDA7A },
         { func := 0xBEEF, fn_irq := 0x34, data := 0xF00D }] := by
  have hmain : (rmi4_core_drv_irq_handler dev pdt_list fl hw).1
      = expected_callbacks
          ((dev.read hw.st (e.pdt.data_base_addr + F01_IRQ_ADDR_OFFSET + e.bank)
            1).2.1.headD 0 % 256) fl := by
    simp only [rmi4_core_drv_irq_handler, he, hr, ne_eq, not_true_eq_false, if_false,
      irq_handler_loop_eq]
  refine ⟨hmain, ?_, by decide!, by decide!, by decide!, by decide!⟩
  intro cb
  rw [hmain]
  simp only [expected_callbacks, List.mem_flatMap]
  constructor
  · rintro ⟨fc, hfc, hcb⟩
    split at hcb
    · rename_i hcond
      obtain ⟨c, hc, rfl⟩ := List.mem_map.1 hcb
      obtain ⟨hc1, hc2⟩ := List.mem_filter.1 hc
      exact ⟨fc, hfc, hcond, c, hc1, by simpa using hc2, rfl⟩
    · simp at hcb
  · rintro ⟨fc, hfc, hcond, c, hc1, hc2, rfl⟩
    refine ⟨fc, hfc, ?_⟩
    rw [if_pos hcond]
    exact List.mem_map.2 ⟨c, List.mem_filter.2 ⟨hc1, by simpa using hc2⟩, rfl⟩

/-- C20 amended, on the example registry in use with the status byte 0b011: the
callback of function 0x01 is made, that of function 0x34 is not. -/
theorem irq_handler_dispatch_witness :
    (rmi4_core_driver_get_pdt_container catalog_two F01_FUNCTION_ID
        = some (pdt_entry_of 0x01 2) ∧
      (memory_device.read (hw_status 0b011).st
        ((pdt_entry_of 0x01 2).pdt.data_base_addr + F01_IRQ_ADDR_OFFSET
          + (pdt_entry_of 0x01 2).bank) 1).1 = 1) ∧
    (rmi4_core_drv_irq_handler memory_device catalog_two registry_two_in_use
        (hw_status 0b011)).1
      = registry_two_in_use.flatMap (fun fc =>
          if (fc.irq_mask % 256) &&&
                ((memory_device.read (hw_status 0b011).st
                  ((pdt_entry_of 0x01 2).pdt.data_base_addr + F01_IRQ_ADDR_OFFSET
                    + (pdt_entry_of 0x01 2).bank) 1).2.1.headD 0 % 256) = fc.irq_mask % 256 ∧
              fc.force_irq_disabled = 0 then
            (fc.irq_client_list.filter (fun c => c.func != 0)).map
              (fun c => { func := c.func, fn_irq := fc.function_id, data := c.func_data })
          else []) :=
  ⟨⟨by decide!, by decide!⟩,
   (irq_handler_dispatch memory_device catalog_two (pdt_entry_of 0x01 2) registry_two_in_use
      (hw_status 0b011) (by decide!) (by decide!)).1⟩

/-! ## The claims about registration and reset -/

/-- C24: on a non-empty registry `rmi4_core_driver_register_functions` hands
exactly the function objects whose `is_registered` is false, in registry order,
to the registration: each gets registration calls for an initial stretch of its
function data, at least one if it has data, whatever the registrations before it
returned. Afterwards the registry is the old one with every `is_registered` true,
and a repeated call makes no registration call and leaves the registry as it
is. -/
theorem register_functions_once (reg reg2 : Nat → rmi4_function_data → Int)
    (fl : List rmi4_function_container) (hne : fl ≠ []) :
    List.Forall₂
      (fun (a : Nat × List bus_call) (fc : rmi4_function_container) =>
        a.1 = fc.function_id ∧
        (∃ t, fc.function_data.map (fun d => bus_call.register_function d.data) = a.2 ++ t) ∧
        (fc.function_data ≠ [] → a.2 ≠ []))
      (rmi4_core_driver_register_functions reg fl).attempts
      (fl.filter (fun fc => !fc.is_registered)) ∧
    (rmi4_core_driver_register_functions reg fl).function_list
      = fl.map (fun fc => { fc with is_registered := true }) ∧
    (∀ fc ∈ (rmi4_core_driver_register_functions reg fl).function_list,
      fc.is_registered = true) ∧
    (rmi4_core_driver_register_functions reg2
      (rmi4_core_driver_register_functions reg fl).function_list).attempts = [] ∧
    (rmi4_core_driver_register_functions reg2
      (rmi4_core_driver_register_functions reg fl).function_list).function_list
      = (rmi4_core_driver_register_functions reg fl).function_list := by
  have hemp : fl.isEmpty = false := by
    cases fl with
    | nil => exact absurd rfl hne
    | cons a l => rfl
  have hlist : (rmi4_core_driver_register_functions reg fl).function_list
      = fl.map (fun fc => { fc with is_registered := true }) := by
    simp only [rmi4_core_driver_register_functions, hemp, Bool.false_eq_true, if_false,
      register_functions_loop_list]
  have hall : ∀ fc ∈ (rmi4_core_driver_register_functions reg fl).function_list,
      fc.is_registered = true := by
    intro fc hfc
    rw [hlist] at hfc
    obtain ⟨g, -, rfl⟩ := List.mem_map.1 hfc
    rfl
  refine ⟨?_, hlist, hall, ?_, ?_⟩
  · simp only [rmi4_core_driver_register_functions, hemp, Bool.false_eq_true, if_false]
    exact register_functions_loop_attempts reg fl 0 0
  · exact (register_functions_registered reg2 _ hall).1
  · exact (register_functions_registered reg2 _ hall).2

/-- C22 as stated fails: a driver in use on `dev_seventeen`, function 0x34 (mask
0x1C000) having one subscriber, is reset against the same device with the
interrupt registers on the zeroed memory device. The re-scan and the populate
return 0 and rediscover the same functions, function 0x34 keeps its subscriber
and its mask 0x1C000, and the one-byte interrupt enable register of function 0x01
(0x31) holds 0: no bit of the mask is set. -/
theorem reset_mask_beyond_byte :
    (rmi4_read_pdt 0xE9 alloc_always (some dev_seventeen) drv_data_seventeen_in_use).retval = 0 ∧
    (rmi4_read_pdt 0xE9 alloc_always (some dev_seventeen)
      drv_data_seventeen_in_use).data.pdt_list = drv_data_seventeen_in_use.pdt_list ∧
    rmi4_core_driver_populate_functiondata 32 [] alloc_always
      (rmi4_read_pdt 0xE9 alloc_always (some dev_seventeen) drv_data_seventeen_in_use).data
      = .ok registry_seventeen_in_use ∧
    irq_enable_addr <$> rmi4_core_driver_get_pdt_container drv_data_seventeen_in_use.pdt_list
      F01_FUNCTION_ID = some 0x31 ∧
    (rmi4_core_driver_reset 0xE9 32 [] alloc_always alloc_always reg_always (some dev_seventeen)
      memory_device drv_data_seventeen_in_use hw_zero).map
        (fun r => ((rmi4_core_driver_get_function_container r.data.function_list 0x34).map
          (fun f => (f.irq_mask, f.irq_client_list)), r.hw.st 0x31))
      = some (some (0x1C000, [{ func := 0xC0DE, func_data := 0xDA7A }]), 0) ∧
    0 &&& 0x1C000 ≠ 0x1C000 := by
  decide!

/-- C22, amended to the low byte of the mask: if the re-scan of
`rmi4_core_driver_reset` returns 0, the populate returns 0, function 0x01 is in
the new catalog, every function of the registry (ids pairwise distinct) is in the
new catalog, and the interrupt registers are on the memory device, then the reset
completes; every function object that was in the registry is still at its place
with its id and its subscribers in their order, and with its force-disable count
when the interrupt sources of the new catalog fit in the mask word; in the
interrupt enable register of function 0x01 the bits (low byte) of the mask of
every function with a subscriber are set and those of every function without a
subscriber are cleared. -/
theorem reset_keeps_subscriptions (start bits_per_long : Nat)
    (plat : List rmi4_function_data) (alloc_scan alloc : Nat → Bool)
    (reg : Nat → rmi4_function_data → Int) (read : Nat → read_result)
    (data : rmi4_core_drv_data) (hw : hw_state (Nat → Nat)) (e : rmi4_pdt_container)
    (fl1 : List rmi4_function_container)
    (hscan : (rmi4_read_pdt start alloc_scan (some read) data).retval = 0)
    (hpop : rmi4_core_driver_populate_functiondata bits_per_long plat alloc
      (rmi4_read_pdt start alloc_scan (some read) data).data = .ok fl1)
    (he : rmi4_core_driver_get_pdt_container
      (rmi4_read_pdt start alloc_scan (some read) data).data.pdt_list F01_FUNCTION_ID = some e)
    (hsame : ∀ g ∈ data.function_list, g.function_id ∈
      (rmi4_read_pdt start alloc_scan (some read) data).data.pdt_list.map
        (fun c => c.pdt.function_number))
    (hids : (data.function_list.map (fun f => f.function_id)).Nodup) :
    ∃ r, rmi4_core_driver_reset start bits_per_long plat alloc_scan alloc reg (some read)
        memory_device data hw = some r ∧
      (∀ (i : Nat) (g : rmi4_function_container), data.function_list[i]? = some g →
        ∃ g1 : rmi4_function_container, r.data.function_list[i]? = some g1 ∧
          g1.function_id = g.function_id ∧ g1.irq_client_list = g.irq_client_list ∧
          (irq_offset (rmi4_read_pdt start alloc_scan (some read) data).data.pdt_list
              (rmi4_read_pdt start alloc_scan (some read) data).data.pdt_list.length
              ≤ bits_per_long →
            g1.force_irq_disabled = g.force_irq_disabled)) ∧
      (∀ g1 ∈ r.data.function_list, g1.irq_client_list ≠ [] →
        r.hw.st (irq_enable_addr e) &&& (g1.irq_mask % 256) = g1.irq_mask % 256) ∧
      (∀ g1 ∈ r.data.function_list, g1.irq_client_list = [] →
        r.hw.st (irq_enable_addr e) &&& (g1.irq_mask % 256) = 0) := by
  have hfl0 := (rmi4_read_pdt_success start alloc_scan read data hscan).2.2.2
  have hcat := rmi4_read_pdt_nodup start alloc_scan read data
  have hpop1 : populate_loop bits_per_long plat alloc
      (rmi4_read_pdt start alloc_scan (some read) data).data.pdt_list
      (rmi4_read_pdt start alloc_scan (some read) data).data.function_list 0 0 = .ok fl1 := hpop
  rw [← hfl0] at hids hsame
  have hids1 := populate_loop_ids_nodup bits_per_long plat alloc _ _ fl1 0 0 hpop1 hids
  have hincat : ∀ g ∈ fl1, g.function_id ∈
      (rmi4_read_pdt start alloc_scan (some read) data).data.pdt_list.map
        (fun c => c.pdt.function_number) := by
    intro g hg
    rcases (hids1.2 g.function_id).1 (List.mem_map.2 ⟨g, hg, rfl⟩) with hin | hin
    · obtain ⟨g0, hg0, hid⟩ := List.mem_map.1 hin
      have := hsame g0 hg0
      rw [hid] at this
      exact this
    · exact hin
  obtain ⟨t, herase⟩ := populate_loop_erase bits_per_long plat alloc _ _ fl1 0 0 hpop1
  rw [hfl0] at herase
  have hreset : rmi4_core_driver_reset start bits_per_long plat alloc_scan alloc reg
      (some read) memory_device data hw
      = some
        { data := { (rmi4_read_pdt start alloc_scan (some read) data).data with
                    function_list := (rmi4_core_driver_register_functions reg fl1).function_list }
          hw := reset_enable_loop memory_device
            (rmi4_read_pdt start alloc_scan (some read) data).data.pdt_list fl1
            (rmi4_core_disable_all_irqs memory_device
              (rmi4_read_pdt start alloc_scan (some read) data).data.pdt_list fl1 hw).2
          attempts := (rmi4_core_driver_register_functions reg fl1).attempts } := by
    simp only [rmi4_core_driver_reset, hscan, ne_eq, not_true_eq_false, if_false, hpop]
  refine ⟨_, hreset, ?_, ?_, ?_⟩
  · intro i g hg
    simp only [register_functions_function_list, List.getElem?_map]
    have h1 : (fl1.map erase_mask)[i]? = some (erase_mask g) := by
      rw [herase, List.getElem?_append_left (by
        rw [List.length_map]
        exact (List.getElem?_eq_some_iff.1 hg).1), List.getElem?_map, hg]
      rfl
    rw [List.getElem?_map] at h1
    cases hg1 : fl1[i]? with
    | none => simp [hg1] at h1
    | some g2 =>
      rw [hg1] at h1
      simp only [Option.map_some', Option.some.injEq] at h1
      have e1 : (erase_mask g2).function_id = (erase_mask g).function_id := by rw [h1]
      have e2 : (erase_mask g2).irq_client_list = (erase_mask g).irq_client_list := by rw [h1]
      refine ⟨_, rfl, e1, e2, ?_⟩
      intro hfit
      obtain ⟨t3, hkeep⟩ := populate_loop_keeps_count bits_per_long plat alloc _ _ fl1 0 0 hpop1
        (by omega)
      rw [hfl0] at hkeep
      have h3 : (fl1.map erase_irq_mask)[i]? = some (erase_irq_mask g) := by
        rw [hkeep, List.getElem?_append_left (by
          rw [List.length_map]
          exact (List.getElem?_eq_some_iff.1 hg).1), List.getElem?_map, hg]
        rfl
      rw [List.getElem?_map, hg1] at h3
      simp only [Option.map_some', Option.some.injEq] at h3
      have e3 : (erase_irq_mask g2).force_irq_disabled = (erase_irq_mask g).force_irq_disabled := by
        rw [h3]
      exact e3
  · intro g1 hg1 hsub
    simp only [register_functions_function_list] at hg1
    obtain ⟨g2, hg2, rfl⟩ := List.mem_map.1 hg1
    exact reset_enable_loop_sets _ e he fl1 _ g2 hg2 hsub
  · intro g1 hg1 hsub
    simp only [register_functions_function_list] at hg1
    obtain ⟨g2, hg2, rfl⟩ := List.mem_map.1 hg1
    apply reset_enable_loop_keeps_clear _ e he
    · rw [disable_all_irqs_memory_st _ e he]
      exact disable_all_irqs_loop_clears _ e he fl1 hw g2 hg2
    · intro g3 hg3 hsub3
      have hne : g3.function_id ≠ g2.function_id := by
        intro hid
        have h3 := get_function_container_of_mem fl1 hids1.1 g3 hg3
        have h2 := get_function_container_of_mem fl1 hids1.1 g2 hg2
        rw [hid, h2] at h3
        simp only [Option.some.injEq] at h3
        subst h3
        exact hsub3 hsub
      exact byte_and_of_disjoint _ _
        (populate_loop_disjoint bits_per_long plat alloc _ _ fl1 0 0 hpop1 hcat hids g3 g2 hg3
          hg2 hne (hincat g3 hg3) (hincat g2 hg2))

/-- C22 amended, on the example of a driver in use with function 0x34 alone in the
registry (one subscriber, stale mask), reset against `dev_two` with the enable
register on the zeroed memory device. -/
theorem reset_keeps_subscriptions_witness :
    ((rmi4_read_pdt 0xE9 alloc_always (some dev_two) drv_data_in_use).retval = 0 ∧
      rmi4_core_driver_populate_functiondata 32 [] alloc_always
        (rmi4_read_pdt 0xE9 alloc_always (some dev_two) drv_data_in_use).data
        = .ok registry_in_use_after ∧
      rmi4_core_driver_get_pdt_container
        (rmi4_read_pdt 0xE9 alloc_always (some dev_two) drv_data_in_use).data.pdt_list
        F01_FUNCTION_ID = some (pdt_entry_of 0x01 2) ∧
      (∀ g ∈ drv_data_in_use.function_list, g.function_id ∈
        (rmi4_read_pdt 0xE9 alloc_always (some dev_two) drv_data_in_use).data.pdt_list.map
          (fun c => c.pdt.function_number)) ∧
      (drv_data_in_use.function_list.map (fun f => f.function_id)).Nodup ∧
      irq_offset (rmi4_read_pdt 0xE9 alloc_always (some dev_two) drv_data_in_use).data.pdt_list
        (rmi4_read_pdt 0xE9 alloc_always (some dev_two) drv_data_in_use).data.pdt_list.length
        ≤ 32) ∧
    ∃ r, rmi4_core_driver_reset 0xE9 32 [] alloc_always alloc_always reg_always (some dev_two)
        memory_device drv_data_in_use hw_zero = some r ∧
      (∀ (i : Nat) (g : rmi4_function_container), drv_data_in_use.function_list[i]? = some g →
        ∃ g1 : rmi4_function_container, r.data.function_list[i]? = some g1 ∧
          g1.function_id = g.function_id ∧ g1.irq_client_list = g.irq_client_list ∧
          (irq_offset (rmi4_read_pdt 0xE9 alloc_always (some dev_two) drv_data_in_use).data.pdt_list
              (rmi4_read_pdt 0xE9 alloc_always (some dev_two)
                drv_data_in_use).data.pdt_list.length ≤ 32 →
            g1.force_irq_disabled = g.force_irq_disabled)) ∧
      (∀ g1 ∈ r.data.function_list, g1.irq_client_list ≠ [] →
        r.hw.st (irq_enable_addr (pdt_entry_of 0x01 2)) &&& (g1.irq_mask % 256)
          = g1.irq_mask % 256) ∧
      (∀ g1 ∈ r.data.function_list, g1.irq_client_list = [] →
        r.hw.st (irq_enable_addr (pdt_entry_of 0x01 2)) &&& (g1.irq_mask % 256) = 0) :=
  ⟨⟨by decide!, by decide!, by decide!, by decide!, by decide!, by decide!⟩,
   reset_keeps_subscriptions 0xE9 32 [] alloc_always alloc_always reg_always dev_two
     drv_data_in_use hw_zero (pdt_entry_of 0x01 2) registry_in_use_after (by decide!) (by decide!)
     (by decide!) (by decide!) (by decide!)⟩

/-- C24, on the example registry with both functions unregistered and a
registration that fails at its first call: both functions are attempted, both
end up registered, and a second call registers nothing. -/
theorem register_functions_once_witness :
    registry_two ≠ [] ∧
    (rmi4_core_driver_register_functions reg_fail_first registry_two).attempts
      = [(0x01, [.register_function { func_id := 0x01, func_name := "f01" }]),
         (0x34, [.register_function { func_id := 0x34, func_name := "f34" }])] ∧
    (rmi4_core_driver_register_functions reg_fail_first registry_two).function_list
      = registry_two.map (fun fc => { fc with is_registered := true }) ∧
    (rmi4_core_driver_register_functions reg_always
      (rmi4_core_driver_register_functions reg_fail_first registry_two).function_list).attempts
      = [] :=
  ⟨by decide!, by decide!,
   (register_functions_once reg_fail_first reg_always registry_two (by decide!)).2.1,
   (register_functions_once reg_fail_first reg_always registry_two (by decide!)).2.2.2.1⟩

/-- C25, evaluated: on the registry with subscribers for the functions 0x11 and
0x12, on a device whose first access fails, the disable call gets `-EIO` from the
switch of function 0x11 and 0 from the switch of function 0x12, and returns 0;
function 0x11 is counted as force-disabled while its bit is still set in the
enable register. -/
theorem set_non_essential_loses_error :
    (rmi4_core_driver_set_irq_state flaky_device catalog_three fc_touch_f11_in_use false
      hw_flaky).1 = - EIO ∧
    (rmi4_core_driver_set_non_essential_irq_status flaky_device catalog_three
      registry_three_in_use true hw_flaky).retval = 0 ∧
    (rmi4_core_driver_set_non_essential_irq_status flaky_device catalog_three
      registry_three_in_use true hw_flaky).hw.calls
      = [.read 0x31 1, .read 0x31 1, .write 0x31 [0xFB] 1] ∧
    (rmi4_core_driver_set_non_essential_irq_status flaky_device catalog_three
      registry_three_in_use true hw_flaky).function_list.map
        (fun fc => (fc.function_id, fc.force_irq_disabled))
      = [(0x01, 0), (0x11, 1), (0x12, 1)] ∧
    (rmi4_core_driver_set_non_essential_irq_status flaky_device catalog_three
      registry_three_in_use true hw_flaky).hw.st.2 0x31 &&& 0b010 = 0b010 := by
  decide!

/-- C21 as stated fails: a driver with the catalog of `dev_two` (function 0x01,
then 0x34) and a subscriber for each function is reset against a device that
presents function 0x34 before function 0x01. Afterwards the catalog lists 0x34
before 0x01, and for the status byte 0b111 the handler calls the subscriber of
function 0x01 before that of function 0x34. -/
theorem irq_handler_order_after_reset :
    rmi4_core_driver_populate_functiondata 32 [] alloc_always
      (rmi4_read_pdt 0xE9 alloc_always (some dev_two) drv_data_init).data = .ok registry_two ∧
    (run_irq_ops memory_device drv_data_two_subscribed.pdt_list
      [.request_irq 0x01 0xDA7A 0xC0DE, .request_irq 0x34 0xF00D 0xBEEF]
      (driver_start (rmi4_core_driver_register_functions reg_always registry_two).function_list
        hw_zero)).function_list = registry_two_in_use ∧
    (rmi4_core_driver_reset 0xE9 32 [] alloc_always alloc_always reg_always (some dev_swapped)
      memory_device drv_data_two_subscribed hw_zero).map
      (fun r => (r.data.pdt_list.map (fun c => c.pdt.function_number),
        r.data.function_list.map (fun fc => (fc.function_id, fc.irq_mask)),
        (rmi4_core_drv_irq_handler memory_device r.data.pdt_list r.data.function_list
          (hw_status 0b111)).1))
      = some ([0x34, 0x01], [(0x01, 0b110), (0x34, 0b001)],
          [{ func := 0xC0DE, fn_irq := 0x01, data := 0xDA7A },
           { func := 0xBEEF, fn_irq := 0x34, data := 0xF00D }]) := by
  decide!

/-- C21, amended: with function 0x01 in the catalog and the status read returning
1, the function numbers of the callbacks the handler makes are those of the
selected function objects in the order of the registry, each repeated once per
subscriber with a callback; and a successful populate of an empty registry from a
catalog without repeated function numbers leaves the ids of the registry in
catalog order. -/
theorem irq_handler_registry_order {σ : Type} (dev : register_device σ)
    (pdt_list : List rmi4_pdt_container) (e : rmi4_pdt_container)
    (fl : List rmi4_function_container) (hw : hw_state σ)
    (he : rmi4_core_driver_get_pdt_container pdt_list F01_FUNCTION_ID = some e)
    (hr : (dev.read hw.st (e.pdt.data_base_addr + F01_IRQ_ADDR_OFFSET + e.bank) 1).1 = 1) :
    (rmi4_core_drv_irq_handler dev pdt_list fl hw).1.map (fun cb => cb.fn_irq)
      = fl.flatMap (fun fc =>
          if (fc.irq_mask % 256) &&&
                ((dev.read hw.st (e.pdt.data_base_addr + F01_IRQ_ADDR_OFFSET + e.bank)
                  1).2.1.headD 0 % 256) = fc.irq_mask % 256 ∧
              fc.force_irq_disabled = 0 then
            List.replicate (fc.irq_client_list.filter (fun c => c.func != 0)).length
              fc.function_id
          else []) ∧
    (∀ (bits_per_long : Nat) (plat : List rmi4_function_data) (alloc : Nat → Bool)
        (data : rmi4_core_drv_data) (fl2 : List rmi4_function_container),
      data.function_list = [] →
      (data.pdt_list.map (fun c => c.pdt.function_number)).Nodup →
      rmi4_core_driver_populate_functiondata bits_per_long plat alloc data = .ok fl2 →
      fl2.map (fun f => f.function_id) = data.pdt_list.map (fun c => c.pdt.function_number)) := by
  constructor
  · have hmain : (rmi4_core_drv_irq_handler dev pdt_list fl hw).1
        = expected_callbacks
            ((dev.read hw.st (e.pdt.data_base_addr + F01_IRQ_ADDR_OFFSET + e.bank)
              1).2.1.headD 0 % 256) fl := by
      simp only [rmi4_core_drv_irq_handler, he, hr, ne_eq, not_true_eq_false, if_false,
        irq_handler_loop_eq]
    rw [hmain]
    clear hmain
    generalize (dev.read hw.st (e.pdt.data_base_addr + F01_IRQ_ADDR_OFFSET + e.bank)
      1).2.1.headD 0 % 256 = st
    induction fl with
    | nil => rfl
    | cons fc rest ih =>
      simp only [expected_callbacks, List.flatMap_cons, List.map_append] at ih ⊢
      rw [ih]
      congr 1
      split
      · simp only [List.map_map]
        rw [List.eq_replicate_iff]
        refine ⟨by simp, ?_⟩
        intro b hb
        obtain ⟨c, -, rfl⟩ := List.mem_map.1 hb
        rfl
      · rfl
  · intro bits_per_long plat alloc data fl2 hempty hnodup hok
    have hids := populate_loop_ids bits_per_long plat alloc data.pdt_list data.function_list fl2
      0 0 hok
    rw [hids, hempty]
    simp only [List.map_nil]
    have key : ∀ (l : List rmi4_pdt_container) (ids : List Nat),
        (ids ++ l.map (fun c => c.pdt.function_number)).Nodup →
        l.foldl (fun ids c => if c.pdt.function_number ∈ ids then ids
          else ids ++ [c.pdt.function_number]) ids
          = ids ++ l.map (fun c => c.pdt.function_number) := by
      intro l
      induction l with
      | nil => intro ids _; simp
      | cons c rest ih =>
        intro ids hnd
        have hnot : c.pdt.function_number ∉ ids := by
          intro hm
          rw [List.nodup_append] at hnd
          exact hnd.2.2 hm (by simp)
        simp only [List.foldl_cons, if_neg hnot, List.map_cons]
        rw [ih (ids ++ [c.pdt.function_number]) (by simpa using hnd)]
        simp
    simpa using key data.pdt_list [] (by simpa using hnodup)

/-- C21 amended, on the example registry in use with the status byte 0b111, and
on the first populate of the example catalog. -/
theorem irq_handler_registry_order_witness :
    (rmi4_core_driver_get_pdt_container catalog_two F01_FUNCTION_ID
        = some (pdt_entry_of 0x01 2) ∧
      (memory_device.read (hw_status 0b111).st
        ((pdt_entry_of 0x01 2).pdt.data_base_addr + F01_IRQ_ADDR_OFFSET
          + (pdt_entry_of 0x01 2).bank) 1).1 = 1 ∧
      drv_data_two.function_list = [] ∧
      (drv_data_two.pdt_list.map (fun c => c.pdt.function_number)).Nodup ∧
      rmi4_core_driver_populate_functiondata 32 [] alloc_always drv_data_two
        = .ok registry_two) ∧
    (rmi4_core_drv_irq_handler memory_device catalog_two registry_two_in_use
        (hw_status 0b111)).1.map (fun cb => cb.fn_irq)
      = registry_two_in_use.flatMap (fun fc =>
          if (fc.irq_mask % 256) &&&
                ((memory_device.read (hw_status 0b111).st
                  ((pdt_entry_of 0x01 2).pdt.data_base_addr + F01_IRQ_ADDR_OFFSET
                    + (pdt_entry_of 0x01 2).bank) 1).2.1.headD 0 % 256) = fc.irq_mask % 256 ∧
              fc.force_irq_disabled = 0 then
            List.replicate (fc.irq_client_list.filter (fun c => c.func != 0)).length
              fc.function_id
          else []) ∧
    registry_two.map (fun f => f.function_id)
      = drv_data_two.pdt_list.map (fun c => c.pdt.function_number) :=
  ⟨⟨by decide!, by decide!, by decide!, by decide!, by decide!⟩,
   (irq_handler_registry_order memory_device catalog_two (pdt_entry_of 0x01 2)
      registry_two_in_use (hw_status 0b111) (by decide!) (by decide!)).1,
   (irq_handler_registry_order memory_device catalog_two (pdt_entry_of 0x01 2)
      registry_two_in_use (hw_status 0b111) (by decide!) (by decide!)).2 32 [] alloc_always
      drv_data_two registry_two (by decide!) (by decide!) (by decide!)⟩

/-- C23 as stated fails: a driver in use (catalog of `dev_two`, a subscriber for
each function) is reset against a device whose second page cannot be read, and
against a device that presents no function: the re-scan fails, and the reset
leaves the catalog empty. -/
theorem reset_failed_scan_clears_catalog :
    drv_data_two_subscribed.pdt_list.map (fun c => c.pdt.function_number) = [0x01, 0x34] ∧
    (rmi4_read_pdt 0xE9 alloc_always (some dev_short_read) drv_data_two_subscribed).retval
      = -EINVAL ∧
    (rmi4_core_driver_reset 0xE9 32 [] alloc_always alloc_always reg_always
      (some dev_short_read) memory_device drv_data_two_subscribed hw_zero).map
      (fun r => (r.data.pdt_list, r.data.function_list))
      = some ([], registry_two_in_use) ∧
    (rmi4_read_pdt 0xE9 alloc_always (some dev_empty) drv_data_two_subscribed).retval
      = -ENOENT ∧
    (rmi4_core_driver_reset 0xE9 32 [] alloc_always alloc_always reg_always
      (some dev_empty) memory_device drv_data_two_subscribed hw_zero).map
      (fun r => (r.data.pdt_list, r.data.function_list))
      = some ([], registry_two_in_use) := by
  decide!

/-- C23, amended: if the re-scan of `rmi4_core_driver_reset` fails, the reset
stops there; the function registry with its subscriber lists and force-disable
counts is as before, no register of the device has been accessed and no function
has been registered, but the catalog is empty. With a null read accessor the scan
fails at once and the reset leaves the driver data, catalog included, as they
were. -/
theorem reset_failed_scan {σ : Type} (start bits_per_long : Nat)
    (plat : List rmi4_function_data) (alloc_scan alloc : Nat → Bool)
    (reg : Nat → rmi4_function_data → Int) (read : Nat → read_result)
    (dev : register_device σ) (data : rmi4_core_drv_data) (hw : hw_state σ)
    (hfail : (rmi4_read_pdt start alloc_scan (some read) data).retval ≠ 0) :
    (∃ r, rmi4_core_driver_reset start bits_per_long plat alloc_scan alloc reg (some read)
        dev data hw = some r ∧
      r.data.function_list = data.function_list ∧ r.hw = hw ∧ r.attempts = [] ∧
      r.data.pdt_list = []) ∧
    rmi4_core_driver_reset start bits_per_long plat alloc_scan alloc reg none dev data hw
      = some { data := data, hw := hw, attempts := [] } := by
  have h := rmi4_read_pdt_failed start alloc_scan read data hfail
  constructor
  · refine ⟨{ data := (rmi4_read_pdt start alloc_scan (some read) data).data, hw := hw
              attempts := [] }, ?_, h.2, rfl, rfl, h.1⟩
    simp only [rmi4_core_driver_reset, hfail, ne_eq, not_false_eq_true, if_true]
  · simp [rmi4_core_driver_reset, rmi4_read_pdt, EINVAL]

/-- C23 amended, on the example driver in use and the device whose second page
cannot be read. -/
theorem reset_failed_scan_witness :
    (rmi4_read_pdt 0xE9 alloc_always (some dev_short_read) drv_data_two_subscribed).retval
      ≠ 0 ∧
    ∃ r, rmi4_core_driver_reset 0xE9 32 [] alloc_always alloc_always reg_always
        (some dev_short_read) memory_device drv_data_two_subscribed hw_zero = some r ∧
      r.data.function_list = drv_data_two_subscribed.function_list ∧ r.hw = hw_zero ∧
      r.attempts = [] ∧ r.data.pdt_list = [] :=
  ⟨by decide!,
   (reset_failed_scan 0xE9 32 [] alloc_always alloc_always reg_always dev_short_read
      memory_device drv_data_two_subscribed hw_zero (by decide!)).1⟩

/-! ## The claims about the masks -/

/-- C27 as stated fails: the first scan and populate of a device with the
functions 0x01 (7 interrupt sources), 0x11 (7 sources) and 0x34 (3 sources)
return 0 and leave the masks 0x7F, 0x3F80 and 0x1C000; the last two do not fit
in 8 bits. -/
theorem populate_mask_beyond_byte :
    (rmi4_read_pdt 0xE9 alloc_always (some dev_seventeen) drv_data_init).retval = 0 ∧
    (match rmi4_core_driver_populate_functiondata 32 [] alloc_always
        (rmi4_read_pdt 0xE9 alloc_always (some dev_seventeen) drv_data_init).data with
      | .ok fl => some (fl.map (fun fc => (fc.function_id, fc.irq_mask)))
      | _ => none)
      = some [(0x01, 0x7F), (0x11, 0x3F80), (0x34, 0x1C000)] ∧
    ¬ (0x3F80 < 256) := by
  decide!

/-- C27, amended: after a successful populate of a catalog without repeated
function numbers the mask of the function object of entry `i` is below
`2 ^ (s_i + c_i)`, hence below `2 ^ T` with `T` the number of interrupt sources
of the whole catalog; it fits in 8 bits when `T` is at most 8. -/
theorem populate_mask_bound (bits_per_long : Nat) (plat : List rmi4_function_data)
    (alloc : Nat → Bool) (data : rmi4_core_drv_data) (fl2 : List rmi4_function_container)
    (hnodup : (data.pdt_list.map (fun c => c.pdt.function_number)).Nodup)
    (hok : rmi4_core_driver_populate_functiondata bits_per_long plat alloc data = .ok fl2) :
    ∀ (i : Nat) (hi : i < data.pdt_list.length),
      ∃ fc, rmi4_core_driver_get_function_container fl2
          (data.pdt_list.get ⟨i, hi⟩).pdt.function_number = some fc ∧
        fc.irq_mask < 2 ^ (irq_offset data.pdt_list i
          + (data.pdt_list.get ⟨i, hi⟩).pdt.interrupt_source_count) ∧
        fc.irq_mask < 2 ^ irq_offset data.pdt_list data.pdt_list.length ∧
        (irq_offset data.pdt_list data.pdt_list.length ≤ 8 → fc.irq_mask < 256) := by
  intro i hi
  obtain ⟨fc, hfc, hbits⟩ := populate_loop_masks bits_per_long plat alloc data.pdt_list
    data.function_list fl2 0 0 hok hnodup i hi
  have hle := irq_offset_le_total data.pdt_list i hi
  have h1 : fc.irq_mask < 2 ^ (irq_offset data.pdt_list i
      + (data.pdt_list.get ⟨i, hi⟩).pdt.interrupt_source_count) := by
    apply Nat.lt_pow_two_of_testBit
    intro b hb
    cases hc : fc.irq_mask.testBit b
    · rfl
    · have := (hbits b).1 hc
      omega
  have h2 : fc.irq_mask < 2 ^ irq_offset data.pdt_list data.pdt_list.length :=
    lt_of_lt_of_le h1 (Nat.pow_le_pow_right (by norm_num) hle)
  refine ⟨fc, hfc, h1, h2, fun h8 => ?_⟩
  exact lt_of_lt_of_le h2 (by
    have : (2:Nat) ^ irq_offset data.pdt_list data.pdt_list.length ≤ 2 ^ 8 :=
      Nat.pow_le_pow_right (by norm_num) h8
    simpa using this)

/-- C27 amended, on the example catalog (3 interrupt sources), for its second
entry. -/
theorem populate_mask_bound_witness :
    ((drv_data_two.pdt_list.map (fun c => c.pdt.function_number)).Nodup ∧
      rmi4_core_driver_populate_functiondata 32 [] alloc_always drv_data_two
        = .ok registry_two) ∧
    ∃ fc, rmi4_core_driver_get_function_container registry_two
        (drv_data_two.pdt_list.get ⟨1, by decide⟩).pdt.function_number = some fc ∧
      fc.irq_mask < 2 ^ (irq_offset drv_data_two.pdt_list 1
        + (drv_data_two.pdt_list.get ⟨1, by decide⟩).pdt.interrupt_source_count) ∧
      fc.irq_mask < 2 ^ irq_offset drv_data_two.pdt_list drv_data_two.pdt_list.length ∧
      (irq_offset drv_data_two.pdt_list drv_data_two.pdt_list.length ≤ 8 →
        fc.irq_mask < 256) :=
  ⟨⟨by decide!, by decide!⟩,
   populate_mask_bound 32 [] alloc_always drv_data_two registry_two (by decide!) (by decide!)
     1 (by decide)⟩

/-- C28 as stated fails: after the first scan and populate of `dev_two` the
registry holds the functions 0x01 and 0x34; a re-scan of a device on which
function 0x11 has taken the place of function 0x34, with the populate succeeding,
leaves function 0x34 with its old mask 0b100 and gives the same mask to the new
function 0x11. -/
theorem populate_stale_mask_overlaps :
    rmi4_core_driver_populate_functiondata 32 [] alloc_always
      (rmi4_read_pdt 0xE9 alloc_always (some dev_two) drv_data_init).data = .ok registry_two ∧
    (rmi4_read_pdt 0xE9 alloc_always (some dev_replaced)
      { (rmi4_read_pdt 0xE9 alloc_always (some dev_two) drv_data_init).data with
        function_list := registry_two }).retval = 0 ∧
    (match rmi4_core_driver_populate_functiondata 32 [] alloc_always
        (rmi4_read_pdt 0xE9 alloc_always (some dev_replaced)
          { (rmi4_read_pdt 0xE9 alloc_always (some dev_two) drv_data_init).data with
            function_list := registry_two }).data with
      | .ok fl => some (fl.map (fun fc => (fc.function_id, fc.irq_mask)))
      | _ => none)
      = some [(0x01, 0b011), (0x34, 0b100), (0x11, 0b100)] ∧
    0b100 &&& 0b100 ≠ 0 := by
  decide!

/-- C28, amended: after a successful populate, for a registry that held no id
twice and a catalog without repeated function numbers, two distinct function
objects whose functions are both in the catalog have no mask bit in common, and
the registry still holds no id twice. -/
theorem populate_masks_disjoint (bits_per_long : Nat) (plat : List rmi4_function_data)
    (alloc : Nat → Bool) (data : rmi4_core_drv_data) (fl2 : List rmi4_function_container)
    (hnodup : (data.pdt_list.map (fun c => c.pdt.function_number)).Nodup)
    (hids : (data.function_list.map (fun f => f.function_id)).Nodup)
    (hok : rmi4_core_driver_populate_functiondata bits_per_long plat alloc data = .ok fl2) :
    (∀ g1 ∈ fl2, ∀ g2 ∈ fl2, g1 ≠ g2 →
      g1.function_id ∈ data.pdt_list.map (fun c => c.pdt.function_number) →
      g2.function_id ∈ data.pdt_list.map (fun c => c.pdt.function_number) →
      g1.irq_mask &&& g2.irq_mask = 0) ∧
    (fl2.map (fun f => f.function_id)).Nodup := by
  have hids2 := (populate_loop_ids_nodup bits_per_long plat alloc data.pdt_list
    data.function_list fl2 0 0 hok hids).1
  refine ⟨?_, hids2⟩
  intro g1 h1 g2 h2 hne hc1 hc2
  have hid : g1.function_id ≠ g2.function_id := by
    intro hid
    have e1 := get_function_container_of_mem fl2 hids2 g1 h1
    have e2 := get_function_container_of_mem fl2 hids2 g2 h2
    rw [hid, e2] at e1
    exact hne (Option.some.inj e1).symm
  have hd := populate_loop_disjoint bits_per_long plat alloc data.pdt_list data.function_list
    fl2 0 0 hok hnodup hids g1 g2 h1 h2 hid hc1 hc2
  apply Nat.eq_of_testBit_eq
  intro b
  rw [Nat.testBit_and, hd b, Nat.zero_testBit]

/-- C28 amended, on the example catalog and the registry of a driver in use
(function 0x34 alone, with a stale mask). -/
theorem populate_masks_disjoint_witness :
    ((drv_data_in_use.pdt_list.map (fun c => c.pdt.function_number)).Nodup ∧
      (drv_data_in_use.function_list.map (fun f => f.function_id)).Nodup ∧
      rmi4_core_driver_populate_functiondata 32 [] alloc_always drv_data_in_use
        = .ok registry_in_use_after) ∧
    (∀ g1 ∈ registry_in_use_after, ∀ g2 ∈ registry_in_use_after, g1 ≠ g2 →
      g1.function_id ∈ drv_data_in_use.pdt_list.map (fun c => c.pdt.function_number) →
      g2.function_id ∈ drv_data_in_use.pdt_list.map (fun c => c.pdt.function_number) →
      g1.irq_mask &&& g2.irq_mask = 0) :=
  ⟨⟨by decide!, by decide!, by decide!⟩,
   (populate_masks_disjoint 32 [] alloc_always drv_data_in_use registry_in_use_after
      (by decide!) (by decide!) (by decide!)).1⟩

/-- C29 as stated fails: function 0x11 has no interrupt source (mask 0), count 0
and one subscriber, whose callback is null; for the status byte 0x00, read
successfully, the handler makes no callback. -/
theorem irq_handler_no_source_null_callback :
    rmi4_core_driver_get_pdt_container catalog_touch F01_FUNCTION_ID
      = some (pdt_entry_of 0x01 1) ∧
    (memory_device.read (hw_status 0x00).st 0x41 1).1 = 1 ∧
    (∃ fc ∈ registry_no_source_null, fc.function_id = 0x11 ∧ fc.irq_mask % 256 = 0 ∧
      fc.force_irq_disabled = 0 ∧ fc.irq_client_list = [{ func := 0, func_data := 0xDA7A }]) ∧
    (rmi4_core_drv_irq_handler memory_device catalog_touch registry_no_source_null
      (hw_status 0x00)).1 = [] ∧
    (rmi4_core_drv_irq_handler memory_device catalog_touch registry_no_source_null
      (hw_status 0x00)).2.calls = [.read 0x41 1] := by
  decide!

/-- C29, amended: with function 0x01 in the catalog and the status read returning
1, whatever the status byte is, a function object of the registry whose mask has
no bit in its low 8 bits and whose count is 0 gets every subscriber with a
non-null callback called, with the function number and the subscriber's
context: the calls `rmi4_core_drv_process_irq` makes for it are a stretch of the
calls of the handler. -/
theorem irq_handler_empty_mask {σ : Type} (dev : register_device σ)
    (pdt_list : List rmi4_pdt_container) (e : rmi4_pdt_container)
    (fl : List rmi4_function_container) (hw : hw_state σ) (fc : rmi4_function_container)
    (he : rmi4_core_driver_get_pdt_container pdt_list F01_FUNCTION_ID = some e)
    (hr : (dev.read hw.st (e.pdt.data_base_addr + F01_IRQ_ADDR_OFFSET + e.bank) 1).1 = 1)
    (hfc : fc ∈ fl) (hmask : fc.irq_mask % 256 = 0) (hcount : fc.force_irq_disabled = 0) :
    (∃ before after, (rmi4_core_drv_irq_handler dev pdt_list fl hw).1
      = before ++ rmi4_core_drv_process_irq fc ++ after) ∧
    (∀ c ∈ fc.irq_client_list, c.func ≠ 0 →
      ({ func := c.func, fn_irq := fc.function_id, data := c.func_data } : irq_callback)
        ∈ (rmi4_core_drv_irq_handler dev pdt_list fl hw).1) := by
  have hmain : (rmi4_core_drv_irq_handler dev pdt_list fl hw).1
      = irq_handler_loop
          ((dev.read hw.st (e.pdt.data_base_addr + F01_IRQ_ADDR_OFFSET + e.bank)
            1).2.1.headD 0 % 256) fl := by
    simp only [rmi4_core_drv_irq_handler, he, hr, ne_eq, not_true_eq_false, if_false]
  have hblock : ∃ before after, (rmi4_core_drv_irq_handler dev pdt_list fl hw).1
      = before ++ rmi4_core_drv_process_irq fc ++ after := by
    rw [hmain]
    clear hmain
    generalize (dev.read hw.st (e.pdt.data_base_addr + F01_IRQ_ADDR_OFFSET + e.bank)
      1).2.1.headD 0 % 256 = st
    induction fl with
    | nil => simp at hfc
    | cons g rest ih =>
      rcases List.mem_cons.1 hfc with rfl | hmem
      · refine ⟨[], irq_handler_loop st rest, ?_⟩
        have hcond : (fc.irq_mask % 256) &&& st = fc.irq_mask % 256 ∧
            fc.force_irq_disabled = 0 := by
          rw [hmask]
          exact ⟨Nat.zero_and _, hcount⟩
        simp only [irq_handler_loop, if_pos hcond, List.nil_append]
      · obtain ⟨b, a, hba⟩ := ih hmem
        simp only [irq_handler_loop]
        split
        · exact ⟨rmi4_core_drv_process_irq g ++ b, a, by rw [hba]; simp⟩
        · exact ⟨b, a, hba⟩
  refine ⟨hblock, ?_⟩
  intro c hc hfunc
  obtain ⟨b, a, hba⟩ := hblock
  rw [hba, process_irq_eq]
  apply List.mem_append_left
  apply List.mem_append_right
  exact List.mem_map.2 ⟨c, List.mem_filter.2 ⟨hc, by simpa using hfunc⟩, rfl⟩

/-- C29 amended, on the example registry whose function 0x11 has no interrupt
source and one subscriber, for the status byte 0x00. -/
theorem irq_handler_empty_mask_witness :
    (rmi4_core_driver_get_pdt_container catalog_touch F01_FUNCTION_ID
        = some (pdt_entry_of 0x01 1) ∧
      (memory_device.read (hw_status 0x00).st
        ((pdt_entry_of 0x01 1).pdt.data_base_addr + F01_IRQ_ADDR_OFFSET
          + (pdt_entry_of 0x01 1).bank) 1).1 = 1 ∧
      registry_no_source.getD 1 fc_touch_f01 ∈ registry_no_source ∧
      (registry_no_source.getD 1 fc_touch_f01).irq_mask % 256 = 0 ∧
      (registry_no_source.getD 1 fc_touch_f01).force_irq_disabled = 0) ∧
    (rmi4_core_drv_irq_handler memory_device catalog_touch registry_no_source
        (hw_status 0x00)).1 = [{ func := 0xC0DE, fn_irq := 0x11, data := 0xDA7A }] ∧
    (∀ c ∈ (registry_no_source.getD 1 fc_touch_f01).irq_client_list, c.func ≠ 0 →
      ({ func := c.func, fn_irq := (registry_no_source.getD 1 fc_touch_f01).function_id
         data := c.func_data } : irq_callback)
        ∈ (rmi4_core_drv_irq_handler memory_device catalog_touch registry_no_source
            (hw_status 0x00)).1) :=
  ⟨⟨by decide!, by decide!, by decide!, by decide!, by decide!⟩, by decide!,
   (irq_handler_empty_mask memory_device catalog_touch (pdt_entry_of 0x01 1)
      registry_no_source (hw_status 0x00) (registry_no_source.getD 1 fc_touch_f01) (by decide!)
      (by decide!) (by decide!) (by decide!) (by decide!)).2⟩

/-! ## The claims about the AB8500 debugfs -/

/-- C26, evaluated: for mask 0x0F, shift 0, value 0xFF and a register holding
0x00 the write block of `hwreg_common_write` hands the byte 0x0F to the register
write, where the documented rule gives 0xFF; for the documented example
(mask 0xFFF, shift 12, value 0x123) and for a value within the mask both give
the same byte. -/
theorem hwreg_write_masks_value :
    hwreg_write_byte { bank := 0, addr := 0, fmt := 0, mask := 0x0F, shift := 0 } 0xFF 0x00
      = some 0x0F ∧
    hwreg_documented_write_byte 0x0F 0 0xFF 0x00 = 0xFF ∧
    hwreg_write_byte { bank := 0, addr := 0, fmt := 0, mask := 0x0F, shift := 0 } 0x05 0xA0
      = some (hwreg_documented_write_byte 0x0F 0 0x05 0xA0) ∧
    hwreg_write_byte { bank := 0, addr := 0, fmt := 0, mask := 0xFFF, shift := 12 } 0x123 0x98
      = some (hwreg_documented_write_byte 0xFFF 12 0x123 0x98) := by
  decide!

/-- C30, evaluated: `strval_len` returns 1 for the string "-" and 2 for the
strings "0x" and "0X ", none of which holds a digit; it returns the length of the
value for "123", "-5 6" and "0x1f", and 0 for "12a", "abc", " 1" and the empty
string. -/
theorem strval_len_without_digit :
    strval_len "-".toList = 1 ∧
    strval_len "0x".toList = 2 ∧
    strval_len "0X ".toList = 2 ∧
    strval_len "123".toList = 3 ∧
    strval_len "-5 6".toList = 2 ∧
    strval_len "0x1f".toList = 4 ∧
    strval_len "12a".toList = 0 ∧
    strval_len "abc".toList = 0 ∧
    strval_len " 1".toList = 0 ∧
    strval_len "".toList = 0 := by
  decide!

end Rmi4
